import Mathlib

/-!
# atmelFrogger: clock (timer0.c), buttons (buttons.c), joystick (joystick.c),
sound (sound.c), levels (level.c) and the high score table (eeprom.c)

A shallow embedding of the firmware's interrupt handlers and accessors.

Conventions of the embedding

* Every C function `f` becomes a Lean function on the machine state `Mcu`;
  a function returning a value returns the pair (value, state after the call).
* Unsigned machine integers are `Nat`, reduced modulo `2^w` where the C
  arithmetic can exceed the width; `int8_t` values are `Int`.
* `int` is 16 bits wide on the AVR target.
* The global interrupt-enable flag (bit I of SREG) is the field `SREG_I`;
  `cli()` and `sei()` clear and set it.
* Peripheral configuration registers (prescaler, compare, interrupt mask and
  flag registers) hold no program data and are driven by the hardware; the
  assignments to them are left out of the model, except for the pin-change
  interrupt enable bit PCIE1 that `activate_buttons` and `deactivate_buttons`
  toggle, the channel bit MUX0 of ADMUX, and the compare value, counter
  and output toggle bit of timer 1 (OCR1A, TCNT1, COM1A0 of TCCR1A).  Output
  port C is a byte, the pins D2 and D7 single bits.
* An interrupt handler is modelled by its body as written in the source; the
  input registers (`PINB`, `PIND`, `ADC`) that it samples are an argument.
-/

namespace Frogger

/-! ## Machine state -/

/-- Static variables of timer0.c. -/
structure Timer0 where
  /-- The field clockTicks is a uint32_t. -/
  clockTicks : Nat := 0
  /-- The field inGameClockTicks is a uint32_t. -/
  inGameClockTicks : Nat := 0
  /-- The field ingame_timer_is_counting is a uint8_t flag. -/
  ingame_timer_is_counting : Nat := 0
  /-- The field countdown is a uint16_t number of milliseconds. -/
  countdown : Nat := 0
  /-- The field digit_counter is a uint8_t. -/
  digit_counter : Nat := 0

/-- Static variables of buttons.c. -/
structure Buttons where
  /-- The field last_button_state is a uint8_t. -/
  last_button_state : Nat := 0
  /-- The array button_queue has BUTTON_QUEUE_SIZE = 4 cells of type uint8_t. -/
  button_queue : Fin 4 → Nat := fun _ => 0
  /-- The field queue_length is an int8_t. -/
  queue_length : Int := 0
  /-- The field button_repeat_time is a uint32_t; 0 means no repeat. -/
  button_repeat_time : Nat := 0

/-- Static variables of joystick.c. -/
structure Joystick where
  /-- The field last_x is a uint16_t. -/
  last_x : Nat := 0
  /-- The field last_y is a uint16_t. -/
  last_y : Nat := 0
  /-- The field x_or_y is a uint8_t: 0 when the next sample is x. -/
  x_or_y : Nat := 0
  /-- The field last_joystick_zone is a uint8_t. -/
  last_joystick_zone : Nat := 0
  /-- The field last_joystick_time is a uint32_t; 0 means not repeating. -/
  last_joystick_time : Nat := 0
  /-- The field movement_value is a uint8_t. -/
  movement_value : Nat := 0

/-- Static variables of sound.c. -/
structure Sound where
  /-- The array sound_frequencies_queue has SOUND_QUEUE_SIZE = 6 cells of
  type uint16_t. -/
  sound_frequencies_queue : Fin 6 → Nat := fun _ => 0
  /-- The array sound_times_queue has SOUND_QUEUE_SIZE = 6 cells of type
  uint8_t. -/
  sound_times_queue : Fin 6 → Nat := fun _ => 0
  /-- The field queue_length is an int8_t. -/
  queue_length : Int := 0
  /-- The field stop_time is an int32_t. -/
  stop_time : Int := 0

/-- Global variables of level.c. -/
structure Level where
  /-- The variable level is a uint8_t. -/
  level : Nat := 0
  /-- The variable difficulty is a uint16_t. -/
  difficulty : Nat := 0
  /-- The variable direction is an int8_t. -/
  direction : Int := 0

/-- Static variables of eeprom.c: the high score table in RAM. -/
structure Highscores where
  /-- The array highscore_names has HIGHSCORES_TO_STORE = 5 rows, each a C
  string of at most HIGHSCORE_NAME_LENGTH = 21 characters. -/
  highscore_names : Fin 5 → String := fun _ => ""
  /-- The array highscore_scores has 5 cells of type uint16_t. -/
  highscore_scores : Fin 5 → Nat := fun _ => 0
  /-- The array highscore_levels has 5 cells of type uint8_t. -/
  highscore_levels : Fin 5 → Nat := fun _ => 0

/-- The microcontroller state seen by the program. -/
structure Mcu where
  /-- Global interrupt enable flag, bit I of SREG. -/
  SREG_I : Bool := false
  /-- Output port C: the seven segment data lines. -/
  PORTC : Nat := 0
  /-- Output pin D2: the digit select (CC) line. -/
  PORTD2 : Bool := false
  /-- Pin change interrupt 1 enable bit of PCICR. -/
  PCIE1 : Bool := false
  /-- Variables of timer0.c. -/
  timer0 : Timer0 := {}
  /-- Variables of buttons.c. -/
  buttons : Buttons := {}
  /-- Channel selection bit MUX0 of ADMUX: false for x (A6), true for y (A7). -/
  ADMUX_MUX0 : Bool := false
  /-- Output pin D7: the ground side of the buzzer. -/
  PORTD7 : Bool := false
  /-- Counter register of timer 1. -/
  TCNT1 : Nat := 0
  /-- Output compare register A of timer 1. -/
  OCR1A : Nat := 0
  /-- Bit COM1A0 of TCCR1A: toggle pin D5 on compare match. -/
  TCCR1A_COM1A0 : Bool := false
  /-- Variables of joystick.c. -/
  joystick : Joystick := {}
  /-- Variables of sound.c. -/
  sound : Sound := {}
  /-- Variables of level.c. -/
  level : Level := {}
  /-- Variables of eeprom.c. -/
  highscores : Highscores := {}

/-- The instruction cli: disable interrupts globally. -/
def cli (s : Mcu) : Mcu := { s with SREG_I := false }

/-- The instruction sei: enable interrupts globally. -/
def sei (s : Mcu) : Mcu := { s with SREG_I := true }

/-! ## timer0.c -/

/-- Seven segment display segment values for 0 to 9. -/
def seven_seg_data : List Nat := [63, 6, 91, 79, 102, 109, 125, 7, 127, 111]

/-- Function init_timer0: resets clockTicks and inGameClockTicks (the timer
registers it also programs are outside the model). -/
def init_timer0 (s : Mcu) : Mcu :=
  let s := { s with timer0 := { s.timer0 with clockTicks := 0 } }
  let s := { s with timer0 := { s.timer0 with inGameClockTicks := 0 } }
  s

/-- Function get_clock_ticks: copy clockTicks with interrupts disabled, then
re-enable interrupts if they were enabled at the start. -/
def get_clock_ticks (s : Mcu) : Nat × Mcu :=
  let interruptsOn := s.SREG_I
  let s := cli s
  let returnValue := s.timer0.clockTicks
  let s := if interruptsOn then sei s else s
  (returnValue, s)

/-- Function get_ingame_clock_ticks: same discipline for inGameClockTicks. -/
def get_ingame_clock_ticks (s : Mcu) : Nat × Mcu :=
  let interruptsOn := s.SREG_I
  let s := cli s
  let returnValue := s.timer0.inGameClockTicks
  let s := if interruptsOn then sei s else s
  (returnValue, s)

/-- Function start_ingame_timer. -/
def start_ingame_timer (s : Mcu) : Mcu :=
  { s with timer0 := { s.timer0 with ingame_timer_is_counting := 1 } }

/-- Function stop_ingame_timer. -/
def stop_ingame_timer (s : Mcu) : Mcu :=
  { s with timer0 := { s.timer0 with ingame_timer_is_counting := 0 } }

/-- Function init_countdown: sets the countdown to 0 (the data direction
registers it also programs are outside the model). -/
def init_countdown (s : Mcu) : Mcu :=
  { s with timer0 := { s.timer0 with countdown := 0 } }

/-- Function countdown_set: `countdown = start*1000`.  The argument is a
uint8_t, the product is formed in 16-bit `int` arithmetic and stored in the
16-bit countdown, so only its low 16 bits are kept. -/
def countdown_set (start : Nat) (s : Mcu) : Mcu :=
  { s with timer0 := { s.timer0 with countdown := (start * 1000) % 65536 } }

/-- Function countdown_clear. -/
def countdown_clear (s : Mcu) : Mcu :=
  { s with timer0 := { s.timer0 with countdown := 0 } }

/-- Function is_countdown_done: `return (countdown == 0)`. -/
def is_countdown_done (s : Mcu) : Nat × Mcu :=
  (if s.timer0.countdown = 0 then 1 else 0, s)

/-- Function get_countdown_time_remaining: `return countdown/1000` as a
uint8_t. -/
def get_countdown_time_remaining (s : Mcu) : Nat × Mcu :=
  ((s.timer0.countdown / 1000) % 256, s)

/-- First part of ISR(TIMER0_COMPA_vect): the tick counters and the
countdown (`clockTicks++` down to `countdown--`). -/
def TIMER0_COMPA_vect_count (s : Mcu) : Mcu :=
  -- clockTicks++
  let s : Mcu := { s with timer0 := { s.timer0 with
    clockTicks := (s.timer0.clockTicks + 1) % 4294967296 } }
  if s.timer0.ingame_timer_is_counting ≠ 0 then
    -- inGameClockTicks++
    let s : Mcu := { s with timer0 := { s.timer0 with
      inGameClockTicks := (s.timer0.inGameClockTicks + 1) % 4294967296 } }
    if s.timer0.countdown > 0 then
      -- countdown--
      { s with timer0 := { s.timer0 with countdown := s.timer0.countdown - 1 } }
    else s
  else s

/-- Second part of ISR(TIMER0_COMPA_vect): the multiplexed two digit display
(`digit_counter++` down to the CC bit on pin D2). -/
def TIMER0_COMPA_vect_display (s : Mcu) : Mcu :=
  -- digit_counter++ ; if (digit_counter > 3) digit_counter = 0
  let digit_counter := (s.timer0.digit_counter + 1) % 256
  let digit_counter := if digit_counter > 3 then 0 else digit_counter
  let seven_seg_cc := digit_counter >>> 1
  let portc :=
    if s.timer0.countdown > 0 then
      -- uint16_t to_display = countdown + 1000
      let to_display := (s.timer0.countdown + 1000) % 65536
      if seven_seg_cc = 0 then
        seven_seg_data.getD ((to_display / 1000) % 10) 0
      else
        if to_display > 10000 then
          seven_seg_data.getD ((to_display / 10000) % 10) 0
        else 0
    else 0
  -- output the digit selection (CC) bit
  let portd2 := if seven_seg_cc ≠ 0 then true else false
  { s with
    PORTC := portc
    PORTD2 := portd2
    timer0 := { s.timer0 with digit_counter := digit_counter } }

/-- Interrupt handler ISR(TIMER0_COMPA_vect), fired every millisecond. -/
def TIMER0_COMPA_vect (s : Mcu) : Mcu :=
  TIMER0_COMPA_vect_display (TIMER0_COMPA_vect_count s)

/-- Events that drive the clock service. -/
inductive ClockEvent where
  /-- One firing of the 1 ms timer interrupt. -/
  | tick
  /-- A call of start_ingame_timer. -/
  | start
  /-- A call of stop_ingame_timer. -/
  | stop
  deriving DecidableEq

/-- Effect of one clock event on the machine. -/
def ClockEvent.apply : ClockEvent → Mcu → Mcu
  | .tick, s => TIMER0_COMPA_vect s
  | .start, s => start_ingame_timer s
  | .stop, s => stop_ingame_timer s

/-- Run a sequence of clock events, first event first. -/
def run_clock (evs : List ClockEvent) (s : Mcu) : Mcu :=
  evs.foldl (fun s e => e.apply s) s

/-! ## buttons.c -/

/-- BUTTON_QUEUE_SIZE of buttons.c. -/
def BUTTON_QUEUE_SIZE : Nat := 4

/-- Line state when only button B0 is pressed. -/
def BUTTON_B0 : Nat := 1
/-- Line state when only button B1 is pressed. -/
def BUTTON_B1 : Nat := 2
/-- Line state when only button B2 is pressed. -/
def BUTTON_B2 : Nat := 4
/-- Line state when only button B3 is pressed. -/
def BUTTON_B3 : Nat := 8

/-- Delay before the first repetition of a held button (buttons.c). -/
def INIT_DELAY : Nat := 300
/-- Delay between later repetitions of a held button (buttons.c). -/
def Buttons.REPEAT_DELAY : Nat := 150

/-- Read cell `i` of a C array of `n` cells.  An index outside the array is
undefined behaviour in C; the model reads 0 there. -/
def arr_get {n : Nat} (a : Fin n → Nat) (i : Int) : Nat :=
  if h : 0 ≤ i ∧ i < n then a ⟨i.toNat, by omega⟩ else 0

/-- Write cell `i` of a C array of `n` cells.  An index outside the array is
undefined behaviour in C; the model leaves the array as it is there. -/
def arr_set {n : Nat} (a : Fin n → Nat) (i : Int) (v : Nat) : Fin n → Nat :=
  fun j => if (j.val : Int) = i then v else a j

/-- Conversion of a uint8_t value to int8_t (two's complement). -/
def toInt8 (v : Nat) : Int :=
  if v % 256 < 128 then ((v % 256 : Nat) : Int) else ((v % 256 : Nat) : Int) - 256

/-- Function init_button_interrupts: enable the pin change interrupt, empty
the queue and clear the repeat time, inside a critical section. -/
def init_button_interrupts (s : Mcu) : Mcu :=
  let interruptsOn := s.SREG_I
  let s := cli s
  let s : Mcu := { s with PCIE1 := true }
  let s : Mcu := { s with buttons := { s.buttons with queue_length := 0 } }
  let s : Mcu := { s with buttons := { s.buttons with button_repeat_time := 0 } }
  if interruptsOn then sei s else s

/-- The loop of button_pushed,
`for (i = 1; i < queue_length; i++) button_queue[i-1] = button_queue[i];`
run for i = 1, ..., queue_length - 1. -/
def button_pushed_loop (queue_length : Int) (q : Fin 4 → Nat) : Fin 4 → Nat :=
  (List.range' 1 (queue_length.toNat - 1)).foldl
    (fun (q : Fin 4 → Nat) (i : Nat) => arr_set q ((i : Int) - 1) (arr_get q (i : Int))) q

/-- Function button_pushed: take the head of the queue, or return -1. -/
def button_pushed (s : Mcu) : Int × Mcu :=
  let return_value : Int := -1
  if s.buttons.queue_length > 0 then
    let return_value := toInt8 (arr_get s.buttons.button_queue 0)
    let interrupts_were_enabled := s.SREG_I
    let s := cli s
    let s : Mcu := { s with buttons := { s.buttons with
      button_queue := button_pushed_loop s.buttons.queue_length s.buttons.button_queue } }
    -- queue_length--
    let s : Mcu := { s with buttons := { s.buttons with
      queue_length := s.buttons.queue_length - 1 } }
    let s := if interrupts_were_enabled then sei s else s
    (return_value, s)
  else
    (return_value, s)

/-- Function activate_buttons: enable the interrupt and empty the queue. -/
def activate_buttons (s : Mcu) : Mcu :=
  let interruptsOn := s.SREG_I
  let s := cli s
  let s : Mcu := { s with PCIE1 := true }
  let s : Mcu := { s with buttons := { s.buttons with queue_length := 0 } }
  if interruptsOn then sei s else s

/-- Function deactivate_buttons: disable the interrupt. -/
def deactivate_buttons (s : Mcu) : Mcu :=
  let interruptsOn := s.SREG_I
  let s := cli s
  let s : Mcu := { s with PCIE1 := false }
  if interruptsOn then sei s else s

/-- One single-button case of the switch in should_button_repeat:
`button_repeat_time = get_clock_ticks() + REPEAT_DELAY; return_value = id;`. -/
def should_button_repeat_case (id : Int) (s : Mcu) : Int × Mcu :=
  let r := get_clock_ticks s
  let s := r.2
  (id, { s with buttons := { s.buttons with
    button_repeat_time := (r.1 + Buttons.REPEAT_DELAY) % 4294967296 } })

/-- Function should_button_repeat; `PINB` is the value read from the input
port. -/
def should_button_repeat (PINB : Nat) (s : Mcu) : Int × Mcu :=
  if s.buttons.button_repeat_time = 0 then
    (-1, s)
  else
    let interruptsOn := s.SREG_I
    let s := cli s
    let return_value : Int := -1
    let button_state := PINB &&& 0x0F
    let r := get_clock_ticks s
    let s := r.2
    let res : Int × Mcu :=
      if r.1 > s.buttons.button_repeat_time ∧ button_state = s.buttons.last_button_state then
        if button_state = BUTTON_B0 then should_button_repeat_case 0 s
        else if button_state = BUTTON_B1 then should_button_repeat_case 1 s
        else if button_state = BUTTON_B2 then should_button_repeat_case 2 s
        else if button_state = BUTTON_B3 then should_button_repeat_case 3 s
        else (return_value, { s with buttons := { s.buttons with button_repeat_time := 0 } })
      else if button_state ≠ s.buttons.last_button_state then
        (return_value, { s with buttons := { s.buttons with button_repeat_time := 0 } })
      else (return_value, s)
    let s := res.2
    let s := if interruptsOn then sei s else s
    (res.1, s)

/-- One single-button case of the switch in ISR(PCINT1_vect):
`button_queue[queue_length++] = id; button_repeat_time = get_clock_ticks() + INIT_DELAY;`. -/
def PCINT1_vect_case (id : Nat) (s : Mcu) : Mcu :=
  let s : Mcu := { s with buttons := { s.buttons with
    button_queue := arr_set s.buttons.button_queue s.buttons.queue_length id
    queue_length := s.buttons.queue_length + 1 } }
  let r := get_clock_ticks s
  let s := r.2
  { s with buttons := { s.buttons with
    button_repeat_time := (r.1 + INIT_DELAY) % 4294967296 } }

/-- Interrupt handler ISR(PCINT1_vect) for a change on the button lines;
`PINB` is the value read from the input port. -/
def PCINT1_vect (PINB : Nat) (s : Mcu) : Mcu :=
  let button_state := PINB &&& 0x0F
  let s : Mcu :=
    if s.buttons.queue_length < BUTTON_QUEUE_SIZE then
      if button_state = BUTTON_B0 then PCINT1_vect_case 0 s
      else if button_state = BUTTON_B1 then PCINT1_vect_case 1 s
      else if button_state = BUTTON_B2 then PCINT1_vect_case 2 s
      else if button_state = BUTTON_B3 then PCINT1_vect_case 3 s
      else { s with buttons := { s.buttons with button_repeat_time := 0 } }
    else s
  -- remember this button state
  { s with buttons := { s.buttons with last_button_state := button_state } }

/-- The logical content of the button queue: the first queue_length cells
of button_queue, head first. -/
def button_queue_contents (s : Mcu) : List Nat :=
  (List.range s.buttons.queue_length.toNat).map
    (fun (i : Nat) => arr_get s.buttons.button_queue (i : Int))

/-- The raw line state in which exactly button `id` (0 to 3) is pressed:
BUTTON_B0, BUTTON_B1, BUTTON_B2, BUTTON_B3. -/
def button_line_state : Nat → Nat
  | 0 => BUTTON_B0
  | 1 => BUTTON_B1
  | 2 => BUTTON_B2
  | _ => BUTTON_B3

/-- The raw line state is one of the four single-button patterns. -/
def is_single_button (button_state : Nat) : Prop :=
  button_state = BUTTON_B0 ∨ button_state = BUTTON_B1
    ∨ button_state = BUTTON_B2 ∨ button_state = BUTTON_B3

instance (button_state : Nat) : Decidable (is_single_button button_state) := by
  unfold is_single_button
  infer_instance

/-- Events that drive the button service. -/
inductive ButtonEvent where
  /-- The pin change interrupt fires and reads `PINB`. -/
  | pcint (PINB : Nat)
  /-- A call of button_pushed (its result is dropped). -/
  | pushed
  /-- A call of activate_buttons. -/
  | activate
  /-- A call of should_button_repeat that reads `PINB` (result dropped). -/
  | poll_repeat (PINB : Nat)
  /-- One firing of the 1 ms timer interrupt. -/
  | tick
  deriving DecidableEq

/-- Effect of one button event on the machine. -/
def ButtonEvent.apply : ButtonEvent → Mcu → Mcu
  | .pcint PINB, s => PCINT1_vect PINB s
  | .pushed, s => (button_pushed s).2
  | .activate, s => activate_buttons s
  | .poll_repeat PINB, s => (should_button_repeat PINB s).2
  | .tick, s => TIMER0_COMPA_vect s

/-- Run a sequence of button events, first event first. -/
def run_buttons (evs : List ButtonEvent) (s : Mcu) : Mcu :=
  evs.foldl (fun s e => e.apply s) s

/-- Fire the pin change interrupt once for each raw line state of the list,
in order. -/
def inject_presses (pins : List Nat) (s : Mcu) : Mcu :=
  pins.foldl (fun s PINB => PCINT1_vect PINB s) s

/-- Call button_pushed `k` times in a row and collect the returned values in
call order, with the final state. -/
def drain_buttons : Nat → Mcu → List Int × Mcu
  | 0, s => ([], s)
  | k + 1, s =>
    let r := button_pushed s
    let rest := drain_buttons k r.2
    (r.1 :: rest.1, rest.2)

/-- Run button events, first event first, and log for every
should_button_repeat call the tick at the call and the returned value. -/
def run_buttons_log : List ButtonEvent → Mcu → List (Nat × Int) × Mcu
  | [], s => ([], s)
  | e :: evs, s =>
    let rest := run_buttons_log evs (e.apply s)
    match e with
    | .poll_repeat PINB =>
      (((get_clock_ticks s).1, (should_button_repeat PINB s).1) :: rest.1, rest.2)
    | _ => rest

/-- Events that can occur while the button lines stay in the raw 4-bit state
`p`: timer interrupts, button_pushed calls and should_button_repeat calls that
read a port value with the low four bits `p`.  The pin change interrupt does
not fire, since no line changes. -/
def ButtonEvent.is_hold (p : Nat) : ButtonEvent → Bool
  | .tick => true
  | .pushed => true
  | .poll_repeat PINB => decide (PINB &&& 0x0F = p)
  | _ => false

/-- Events other than the pin change interrupt. -/
def ButtonEvent.is_not_pcint : ButtonEvent → Bool
  | .pcint _ => false
  | _ => true

/-! ## joystick.c -/

/-- Zone number TOPLEFT (joystick.h). -/
def TOPLEFT : Nat := 0
/-- Zone number TOP (joystick.h). -/
def TOP : Nat := 1
/-- Zone number TOPRIGHT (joystick.h). -/
def TOPRIGHT : Nat := 2
/-- Zone number LEFT (joystick.h). -/
def LEFT : Nat := 3
/-- Zone number CENTRE (joystick.h). -/
def CENTRE : Nat := 4
/-- Zone number RIGHT (joystick.h). -/
def RIGHT : Nat := 5
/-- Zone number BOTTOMLEFT (joystick.h). -/
def BOTTOMLEFT : Nat := 6
/-- Zone number BOTTOM (joystick.h). -/
def BOTTOM : Nat := 7
/-- Zone number BOTTOMRIGHT (joystick.h). -/
def BOTTOMRIGHT : Nat := 8

/-- Width of the joystick range (joystick.h). -/
def WIDTH : Nat := 1024
/-- Height of the joystick range (joystick.h). -/
def HEIGHT : Nat := 1024

/-- Calibrated centre, x coordinate (joystick.h). -/
def CENTRE_MID_X : Nat := 515
/-- Calibrated centre, y coordinate (joystick.h). -/
def CENTRE_MID_Y : Nat := 545

/-- Dead zone towards left and right (joystick.h). -/
def DEAD_ZONE_X : Nat := 40
/-- Dead zone towards top and bottom (joystick.h). -/
def DEAD_ZONE_Y : Nat := 50
/-- Dead zone of the corner zones (joystick.h). -/
def DEAD_ZONE_DIAG : Nat := 31

/-- The delay between joystick movement repetitions (joystick.c). -/
def Joystick.REPEAT_DELAY : Nat := 250

/-- Function init_joystick: selects channel x, seeds the samples with 512 and
clears zone, repeat time and movement value (the converter control register
ADCSRA is outside the model). -/
def init_joystick (s : Mcu) : Mcu :=
  let interruptsOn := s.SREG_I
  let s := cli s
  -- ADMUX = (1<<REFS0)|(1<<MUX2)|(1<<MUX1)
  let s : Mcu := { s with ADMUX_MUX0 := false }
  let s : Mcu := { s with joystick := { s.joystick with
    last_x := 512
    last_y := 512
    x_or_y := 0
    last_joystick_zone := CENTRE
    last_joystick_time := 0
    movement_value := CENTRE } }
  if interruptsOn then sei s else s

/-- Function get_current_zone: classify the last samples, corners first. -/
def get_current_zone (s : Mcu) : Nat × Mcu :=
  let last_x := s.joystick.last_x
  let last_y := s.joystick.last_y
  if last_x < CENTRE_MID_X - DEAD_ZONE_DIAG ∧ last_y < CENTRE_MID_Y - DEAD_ZONE_DIAG then
    (TOPLEFT, s)
  else if last_x > CENTRE_MID_X + DEAD_ZONE_DIAG ∧ last_y < CENTRE_MID_Y - DEAD_ZONE_DIAG then
    (TOPRIGHT, s)
  else if last_x < CENTRE_MID_X - DEAD_ZONE_DIAG ∧ last_y > CENTRE_MID_Y + DEAD_ZONE_DIAG then
    (BOTTOMLEFT, s)
  else if last_x > CENTRE_MID_X + DEAD_ZONE_DIAG ∧ last_y > CENTRE_MID_Y + DEAD_ZONE_DIAG then
    (BOTTOMRIGHT, s)
  else if last_y < CENTRE_MID_Y - DEAD_ZONE_Y then
    (TOP, s)
  else if last_y > CENTRE_MID_Y + DEAD_ZONE_Y then
    (BOTTOM, s)
  else if last_x < CENTRE_MID_X - DEAD_ZONE_X then
    (LEFT, s)
  else if last_x > CENTRE_MID_X + DEAD_ZONE_X then
    (RIGHT, s)
  else
    (CENTRE, s)

/-- The two assignments by which should_joystick_move signals a move:
`movement_value = current_zone; last_joystick_time = get_clock_ticks();`. -/
def should_joystick_move_signal (current_zone : Nat) (s : Mcu) : Mcu :=
  let s : Mcu := { s with joystick := { s.joystick with movement_value := current_zone } }
  let r := get_clock_ticks s
  let s := r.2
  { s with joystick := { s.joystick with last_joystick_time := r.1 } }

/-- The if / else if statement of should_joystick_move.  The sum
`last_joystick_time + REPEAT_DELAY` is a uint32_t; get_clock_ticks is called
in the condition only when last_joystick_time is not 0. -/
def should_joystick_move_decide (current_zone : Nat) (s : Mcu) : Mcu :=
  let r := if s.joystick.last_joystick_time ≠ 0 then get_clock_ticks s else (0, s)
  let s := r.2
  if s.joystick.last_joystick_time ≠ 0
      ∧ r.1 > (s.joystick.last_joystick_time + Joystick.REPEAT_DELAY) % 4294967296 then
    if current_zone = CENTRE then
      { s with joystick := { s.joystick with last_joystick_time := 0 } }
    else
      should_joystick_move_signal current_zone s
  else if s.joystick.last_joystick_time = 0 then
    if s.joystick.last_joystick_zone = CENTRE ∧ current_zone ≠ CENTRE then
      should_joystick_move_signal current_zone s
    else s
  else s

/-- Function should_joystick_move. -/
def should_joystick_move (s : Mcu) : Nat × Mcu :=
  let interruptsOn := s.SREG_I
  let s := cli s
  -- by default we want to remain where we are
  let s : Mcu := { s with joystick := { s.joystick with movement_value := CENTRE } }
  let rz := get_current_zone s
  let current_zone := rz.1
  let s := rz.2
  let s := should_joystick_move_decide current_zone s
  -- update our previous zone value
  let s : Mcu := { s with joystick := { s.joystick with last_joystick_zone := current_zone } }
  let s := if interruptsOn then sei s else s
  (if s.joystick.movement_value ≠ CENTRE then 1 else 0, s)

/-- Function get_last_joystick_movement_value. -/
def get_last_joystick_movement_value (s : Mcu) : Nat × Mcu :=
  (s.joystick.movement_value, s)

/-- Function get_last_x. -/
def get_last_x (s : Mcu) : Nat × Mcu := (s.joystick.last_x, s)

/-- Function get_last_y. -/
def get_last_y (s : Mcu) : Nat × Mcu := (s.joystick.last_y, s)

/-- Interrupt handler ISR(ADC_vect) for a finished conversion; `ADC` is the
value read from the converter (a uint16_t).  `HEIGHT - value` and
`1 - x_or_y` are reduced to 16 and 8 bits.  The start of the next conversion
(bit ADSC of ADCSRA) is outside the model. -/
def ADC_vect (ADC : Nat) (s : Mcu) : Mcu :=
  let value := ADC % 65536
  let s : Mcu :=
    if s.joystick.x_or_y = 0 then
      { s with joystick := { s.joystick with last_x := value } }
    else
      { s with joystick := { s.joystick with last_y := (HEIGHT + 65536 - value) % 65536 } }
  -- x_or_y = 1 - x_or_y
  let s : Mcu := { s with joystick := { s.joystick with
    x_or_y := (1 + 256 - s.joystick.x_or_y % 256) % 256 } }
  if s.joystick.x_or_y = 0 then
    { s with ADMUX_MUX0 := false }
  else
    { s with ADMUX_MUX0 := true }

/-- Events that drive the joystick service. -/
inductive JoystickEvent where
  /-- The conversion complete interrupt fires with converted value `ADC`. -/
  | adc (ADC : Nat)
  /-- A call of should_joystick_move. -/
  | poll
  /-- One firing of the 1 ms timer interrupt. -/
  | tick
  deriving DecidableEq

/-- Effect of one joystick event on the machine. -/
def JoystickEvent.apply : JoystickEvent → Mcu → Mcu
  | .adc ADC, s => ADC_vect ADC s
  | .poll, s => (should_joystick_move s).2
  | .tick, s => TIMER0_COMPA_vect s

/-- Run joystick events, first event first, and log for every
should_joystick_move call the tick at the call, the zone of the samples at
the call and the returned value. -/
def run_joystick_log : List JoystickEvent → Mcu → List (Nat × Nat × Nat) × Mcu
  | [], s => ([], s)
  | e :: evs, s =>
    let rest := run_joystick_log evs (e.apply s)
    match e with
    | .poll =>
      (((get_clock_ticks s).1, (get_current_zone s).1, (should_joystick_move s).1) :: rest.1,
        rest.2)
    | _ => rest

/-! ## sound.c -/

/-- SOUND_QUEUE_SIZE of sound.c: the maximum number of stored sounds. -/
def SOUND_QUEUE_SIZE : Nat := 6

/-- Minimum allowable frequency (sound.c). -/
def FREQ_MIN : Nat := 150
/-- Maximum allowable frequency (sound.c). -/
def FREQ_MAX : Nat := 1000
/-- System clock in Hz (sound.c). -/
def SYS_CLK : Nat := 8000000

/-- Note frequencies of sound.h used by the firmware. -/
def FREQ_G4 : Nat := 392
/-- Note A4 (sound.h). -/
def FREQ_A4 : Nat := 440
/-- Note B4 (sound.h). -/
def FREQ_B4 : Nat := 494
/-- Note C5 sharp (sound.h). -/
def FREQ_C5SHARP : Nat := 554
/-- Note D5 sharp (sound.h). -/
def FREQ_D5SHARP : Nat := 622
/-- Note F5 (sound.h). -/
def FREQ_F5 : Nat := 698
/-- Note G5 sharp (sound.h). -/
def FREQ_G5SHARP : Nat := 831
/-- Note B5 (sound.h). -/
def FREQ_B5 : Nat := 988

/-- Conversion of a uint32_t value to int32_t (two's complement). -/
def toInt32 (v : Nat) : Int :=
  if v % 4294967296 < 2147483648 then ((v % 4294967296 : Nat) : Int)
  else ((v % 4294967296 : Nat) : Int) - 4294967296

/-- Conversion of an int32_t value to uint32_t (two's complement). -/
def toUInt32 (i : Int) : Nat := (i % 4294967296).toNat

/-- Function get_OCRB_value: `(SYS_CLK/(frequency*2)) - 1`.  The product
`frequency*2` is a 16-bit unsigned value, the quotient a 32-bit value, the
result a uint16_t.  Division by zero is undefined in C; the model yields 0
for the quotient there. -/
def get_OCRB_value (frequency : Nat) : Nat :=
  (SYS_CLK / ((frequency * 2) % 65536) - 1) % 65536

/-- Function start_toggling: `TCCR1A |= (1<<COM1A0)`. -/
def start_toggling (s : Mcu) : Mcu := { s with TCCR1A_COM1A0 := true }

/-- Function stop_toggling: `TCCR1A &= ~(1<<COM1A0)`. -/
def stop_toggling (s : Mcu) : Mcu := { s with TCCR1A_COM1A0 := false }

/-- Function init_buzzer: empties the queue, clears the stop time and the
timer, programs the compare value of A4, clears TCCR1A and pin D7 (the
prescaler, data direction and interrupt mask registers are outside the
model). -/
def init_buzzer (s : Mcu) : Mcu :=
  let interruptsOn := s.SREG_I
  let s := cli s
  let s : Mcu := { s with sound := { s.sound with queue_length := 0 } }
  let s : Mcu := { s with sound := { s.sound with stop_time := 0 } }
  let s : Mcu := { s with TCNT1 := 0 }
  let s : Mcu := { s with OCR1A := get_OCRB_value FREQ_A4 }
  -- TCCR1A = 0
  let s : Mcu := { s with TCCR1A_COM1A0 := false }
  -- PORTD &= ~(1 << DDRD7)
  let s : Mcu := { s with PORTD7 := false }
  if interruptsOn then sei s else s

/-- Function play_sound; `frequency` is a uint16_t and `time` a uint8_t. -/
def play_sound (frequency time : Nat) (s : Mcu) : Mcu :=
  if frequency < FREQ_MIN ∨ frequency > FREQ_MAX
      ∨ s.sound.queue_length ≥ SOUND_QUEUE_SIZE then
    s
  else
    { s with sound := { s.sound with
      sound_frequencies_queue :=
        arr_set s.sound.sound_frequencies_queue s.sound.queue_length frequency
      sound_times_queue := arr_set s.sound.sound_times_queue s.sound.queue_length time
      queue_length := s.sound.queue_length + 1 } }

/-- Function play_quiet_sound. -/
def play_quiet_sound (frequency time : Nat) (s : Mcu) : Mcu :=
  if s.sound.queue_length > 0 then s
  else play_sound frequency time s

/-- Function clear_sounds. -/
def clear_sounds (s : Mcu) : Mcu :=
  { s with sound := { s.sound with queue_length := 0 } }

/-- Function is_playing_sound: `return (queue_length > 0)`. -/
def is_playing_sound (s : Mcu) : Nat × Mcu :=
  (if s.sound.queue_length > 0 then 1 else 0, s)

/-- Function is_sound_on: `return (PIND & (1 << PIND3))`, with PIND3 = 3;
`PIND` is the value read from the input port. -/
def is_sound_on (PIND : Nat) (s : Mcu) : Nat × Mcu :=
  ((PIND &&& (1 <<< 3)) % 256, s)

/-- The loop of start_next_sound, which moves both queue arrays one cell
towards the front, run for i = 1, ..., queue_length - 1. -/
def start_next_sound_loop (queue_length : Int) (q : (Fin 6 → Nat) × (Fin 6 → Nat)) :
    (Fin 6 → Nat) × (Fin 6 → Nat) :=
  (List.range' 1 (queue_length.toNat - 1)).foldl
    (fun (q : (Fin 6 → Nat) × (Fin 6 → Nat)) (i : Nat) =>
      (arr_set q.1 ((i : Int) - 1) (arr_get q.1 (i : Int)),
       arr_set q.2 ((i : Int) - 1) (arr_get q.2 (i : Int)))) q

/-- Function start_next_sound.  The sum
`get_clock_ticks() + 10 * sound_times_queue[0]` is a uint32_t, stored in the
int32_t stop_time. -/
def start_next_sound (s : Mcu) : Mcu :=
  let s : Mcu := { s with TCNT1 := 0 }
  let s : Mcu := { s with
    OCR1A := get_OCRB_value (arr_get s.sound.sound_frequencies_queue 0) }
  let s := start_toggling s
  let r := get_clock_ticks s
  let s := r.2
  let s : Mcu := { s with sound := { s.sound with
    stop_time := toInt32 ((r.1 + 10 * arr_get s.sound.sound_times_queue 0) % 4294967296) } }
  let q := start_next_sound_loop s.sound.queue_length
    (s.sound.sound_frequencies_queue, s.sound.sound_times_queue)
  -- queue_length--
  { s with sound := { s.sound with
    sound_frequencies_queue := q.1
    sound_times_queue := q.2
    queue_length := s.sound.queue_length - 1 } }

/-- Interrupt handler ISR(TIMER1_COMPA_vect); `PIND` is the value read from
the input port.  The comparison `get_clock_ticks() > stop_time` is made on
32-bit unsigned values. -/
def TIMER1_COMPA_vect (PIND : Nat) (s : Mcu) : Mcu :=
  let sound_on := is_sound_on PIND s
  let s := sound_on.2
  -- if (!is_sound_on())
  if sound_on.1 = 0 then
    let s : Mcu := { s with sound := { s.sound with queue_length := 0 } }
    stop_toggling s
  else
    let r := get_clock_ticks s
    let s := r.2
    if r.1 > toUInt32 s.sound.stop_time then
      if s.sound.queue_length ≠ 0 then start_next_sound s
      else stop_toggling s
    else s

/-- The logical content of the sound queue: the first queue_length pairs
(frequency, time) of the two queue arrays, head first. -/
def sound_queue_contents (s : Mcu) : List (Nat × Nat) :=
  (List.range s.sound.queue_length.toNat).map
    (fun (i : Nat) => (arr_get s.sound.sound_frequencies_queue (i : Int),
                       arr_get s.sound.sound_times_queue (i : Int)))

/-- Events that drive the sound service. -/
inductive SoundEvent where
  /-- A call of play_sound. -/
  | play (frequency time : Nat)
  /-- A call of play_quiet_sound. -/
  | quiet (frequency time : Nat)
  /-- A call of clear_sounds. -/
  | clear
  /-- The tone interrupt fires and reads `PIND`. -/
  | tone (PIND : Nat)
  /-- One firing of the 1 ms timer interrupt. -/
  | tick
  deriving DecidableEq

/-- Effect of one sound event on the machine. -/
def SoundEvent.apply : SoundEvent → Mcu → Mcu
  | .play frequency time, s => play_sound frequency time s
  | .quiet frequency time, s => play_quiet_sound frequency time s
  | .clear, s => clear_sounds s
  | .tone PIND, s => TIMER1_COMPA_vect PIND s
  | .tick, s => TIMER0_COMPA_vect s

/-- Run a sequence of sound events, first event first. -/
def run_sound (evs : List SoundEvent) (s : Mcu) : Mcu :=
  evs.foldl (fun s e => e.apply s) s

/-- Function play_tune_startup. -/
def play_tune_startup (s : Mcu) : Mcu :=
  let s := clear_sounds s
  let s := play_sound FREQ_F5 37 s
  let s := play_sound FREQ_C5SHARP 10 s
  let s := play_sound FREQ_D5SHARP 30 s
  let s := play_sound FREQ_G5SHARP 25 s
  let s := play_sound FREQ_F5 25 s
  play_sound FREQ_C5SHARP 40 s

/-- Function play_tune_success. -/
def play_tune_success (s : Mcu) : Mcu :=
  let s := clear_sounds s
  let s := play_sound FREQ_C5SHARP 10 s
  let s := play_sound FREQ_D5SHARP 30 s
  let s := play_sound FREQ_G5SHARP 25 s
  play_sound FREQ_B5 40 s

/-- Function play_tune_dead. -/
def play_tune_dead (s : Mcu) : Mcu :=
  let s := clear_sounds s
  let s := play_sound FREQ_F5 15 s
  let s := play_sound FREQ_G5SHARP 10 s
  let s := play_sound FREQ_C5SHARP 10 s
  play_sound FREQ_B4 40 s

/-- Function play_tune_lost. -/
def play_tune_lost (s : Mcu) : Mcu :=
  let s := clear_sounds s
  let s := play_sound FREQ_G5SHARP 10 s
  let s := play_sound FREQ_C5SHARP 10 s
  let s := play_sound FREQ_B4 10 s
  play_sound FREQ_G4 40 s

/-- Run sound events, first event first, and keep two logs: the pairs
(frequency, time) of the play_sound and play_quiet_sound calls that changed
the queue length, and the compare value found in OCR1A after every tone
interrupt that shortened the queue. -/
def run_sound_log : List SoundEvent → Mcu → List (Nat × Nat) × List Nat × Mcu
  | [], s => ([], [], s)
  | e :: evs, s =>
    let rest := run_sound_log evs (e.apply s)
    match e with
    | .play frequency time =>
      (if (e.apply s).sound.queue_length ≠ s.sound.queue_length
          then (frequency, time) :: rest.1 else rest.1, rest.2.1, rest.2.2)
    | .quiet frequency time =>
      (if (e.apply s).sound.queue_length ≠ s.sound.queue_length
          then (frequency, time) :: rest.1 else rest.1, rest.2.1, rest.2.2)
    | .tone _ =>
      (rest.1,
        if (e.apply s).sound.queue_length < s.sound.queue_length
          then (e.apply s).OCR1A :: rest.2.1 else rest.2.1, rest.2.2)
    | _ => rest

/-- The events of an unmuted run without clear_sounds: every tone interrupt
reads pin D3 high. -/
def SoundEvent.is_unmuted : SoundEvent → Bool
  | .clear => false
  | .tone PIND => decide ((PIND &&& (1 <<< 3)) % 256 ≠ 0)
  | _ => true

/-! ## level.c -/

/-- Level to start on (level.c). -/
def STARTING_LEVEL : Nat := 1
/-- Maximum level reachable (level.c). -/
def MAX_LEVEL : Nat := 99
/-- Difficulty to start on (level.c). -/
def STARTING_DIFFICULTY : Nat := 100
/-- Ramp up below difficulty 200 (level.c). -/
def RAMP_UP_FACTOR_100 : Nat := 25
/-- Ramp up from difficulty 200 (level.c). -/
def RAMP_UP_FACTOR_200 : Nat := 10
/-- Ramp up from difficulty 300 (level.c). -/
def RAMP_UP_FACTOR_300 : Nat := 5
/-- Ramp up from difficulty 400 (level.c). -/
def RAMP_UP_FACTOR_400 : Nat := 2
/-- Ramp up from difficulty 500 (level.c). -/
def RAMP_UP_FACTOR_500 : Nat := 0
/-- Standard lane direction (level.c). -/
def DIRECTION_STANDARD : Int := 1
/-- Reversed lane direction (level.c). -/
def DIRECTION_REVERSE : Int := -1

/-- Function init_level. -/
def init_level (s : Mcu) : Mcu :=
  let s : Mcu := { s with level := { s.level with level := STARTING_LEVEL } }
  let s : Mcu := { s with level := { s.level with difficulty := STARTING_DIFFICULTY } }
  { s with level := { s.level with direction := DIRECTION_STANDARD } }

/-- Function get_current_ramp_up. -/
def get_current_ramp_up (s : Mcu) : Nat × Mcu :=
  if s.level.difficulty ≥ 500 then (RAMP_UP_FACTOR_500, s)
  else if s.level.difficulty ≥ 400 then (RAMP_UP_FACTOR_400, s)
  else if s.level.difficulty ≥ 300 then (RAMP_UP_FACTOR_300, s)
  else if s.level.difficulty ≥ 200 then (RAMP_UP_FACTOR_200, s)
  else (RAMP_UP_FACTOR_100, s)

/-- Function increment_level: `level++` on a uint8_t and
`difficulty += get_current_ramp_up()` on a uint16_t, both below MAX_LEVEL
only. -/
def increment_level (s : Mcu) : Mcu :=
  if s.level.level < MAX_LEVEL then
    let s : Mcu := { s with level := { s.level with level := (s.level.level + 1) % 256 } }
    let r := get_current_ramp_up s
    let s := r.2
    { s with level := { s.level with difficulty := (s.level.difficulty + r.1) % 65536 } }
  else s

/-- Function get_level. -/
def get_level (s : Mcu) : Nat × Mcu := (s.level.level, s)

/-- Function flip_level_direction: `direction = -direction` on an int8_t. -/
def flip_level_direction (s : Mcu) : Mcu :=
  { s with level := { s.level with direction := toInt8 ((-s.level.direction) % 256).toNat } }

/-- Function get_level_direction. -/
def get_level_direction (s : Mcu) : Int × Mcu := (s.level.direction, s)

/-- Function get_difficulty. -/
def get_difficulty (s : Mcu) : Nat × Mcu := (s.level.difficulty, s)

/-- Function get_factor_ones: `return difficulty/100` as a uint8_t. -/
def get_factor_ones (s : Mcu) : Nat × Mcu := ((s.level.difficulty / 100) % 256, s)

/-- Function get_factor_tenthshundreths: `return difficulty%100` as a
uint8_t. -/
def get_factor_tenthshundreths (s : Mcu) : Nat × Mcu := ((s.level.difficulty % 100) % 256, s)

/-- The lane interval of play_level (project.c),
`base_speed*(10000/get_difficulty())/10`, with `base_speed` a uint16_t: the
quotient and the product are 16-bit unsigned values.  Division by zero is
undefined in C; the model yields 0 for the quotient there. -/
def play_level_lane_interval (base_speed : Nat) (s : Mcu) : Nat × Mcu :=
  let r := get_difficulty s
  (((base_speed * ((10000 / r.1) % 65536)) % 65536) / 10, r.2)

/-- Calls that change the variables of level.c. -/
inductive LevelEvent where
  /-- A call of increment_level. -/
  | increment
  /-- A call of flip_level_direction. -/
  | flip
  deriving DecidableEq

/-- Effect of one level event on the machine. -/
def LevelEvent.apply : LevelEvent → Mcu → Mcu
  | .increment, s => increment_level s
  | .flip, s => flip_level_direction s

/-- Run a sequence of level events, first event first. -/
def run_level (evs : List LevelEvent) (s : Mcu) : Mcu :=
  evs.foldl (fun s e => e.apply s) s

/-! ## eeprom.c -/

/-- HIGHSCORES_TO_STORE of eeprom.h. -/
def HIGHSCORES_TO_STORE : Nat := 5

/-- Read row `i` of the name table.  An index outside the table is undefined
behaviour in C; the model reads the empty string there. -/
def names_get (a : Fin 5 → String) (i : Nat) : String :=
  if h : i < 5 then a ⟨i, h⟩ else ""

/-- Copy a string into row `i` of the name table with strcpy.  An index
outside the table is undefined behaviour in C; the model leaves the table as
it is there. -/
def names_set (a : Fin 5 → String) (i : Nat) (v : String) : Fin 5 → String :=
  fun j => if j.val = i then v else a j

/-- Function init_highscores: the loop for x = 0, ..., 4. -/
def init_highscores (s : Mcu) : Mcu :=
  (List.range HIGHSCORES_TO_STORE).foldl
    (fun (s : Mcu) (x : Nat) =>
      { s with highscores := { s.highscores with
        highscore_names := names_set s.highscores.highscore_names x "---"
        highscore_scores := arr_set s.highscores.highscore_scores (x : Int) 0
        highscore_levels := arr_set s.highscores.highscore_levels (x : Int) 0 } }) s

/-- Function shift_values_after: the loop for
x = HIGHSCORES_TO_STORE-1, ..., index_to_shift+1, downwards. -/
def shift_values_after (index_to_shift : Nat) (s : Mcu) : Mcu :=
  (List.range' (index_to_shift + 1) (HIGHSCORES_TO_STORE - 1 - index_to_shift)).reverse.foldl
    (fun (s : Mcu) (x : Nat) =>
      { s with highscores := { s.highscores with
        highscore_names :=
          names_set s.highscores.highscore_names x (names_get s.highscores.highscore_names (x - 1))
        highscore_scores :=
          arr_set s.highscores.highscore_scores (x : Int)
            (arr_get s.highscores.highscore_scores ((x : Int) - 1))
        highscore_levels :=
          arr_set s.highscores.highscore_levels (x : Int)
            (arr_get s.highscores.highscore_levels ((x : Int) - 1)) } }) s

/-- The loop of get_appropriate_index over the remaining indices: at the
first index whose stored score is not above `score`, shift and return the
index (as an int8_t); return -1 after the last index. -/
def get_appropriate_index_loop (score : Nat) : List Nat → Mcu → Int × Mcu
  | [], s => (-1, s)
  | x :: xs, s =>
    if score ≥ arr_get s.highscores.highscore_scores (x : Int) then
      (toInt8 x, shift_values_after x s)
    else get_appropriate_index_loop score xs s

/-- Function get_appropriate_index; `score` is a uint16_t. -/
def get_appropriate_index (score : Nat) (s : Mcu) : Int × Mcu :=
  get_appropriate_index_loop score (List.range HIGHSCORES_TO_STORE) s

/-- Function set_highscore; `index` and `new_level` are uint8_t values,
`new_score` a uint16_t. -/
def set_highscore (index : Nat) (new_name : String) (new_score new_level : Nat)
    (s : Mcu) : Mcu :=
  { s with highscores := { s.highscores with
    highscore_names := names_set s.highscores.highscore_names index new_name
    highscore_scores := arr_set s.highscores.highscore_scores (index : Int) new_score
    highscore_levels := arr_set s.highscores.highscore_levels (index : Int) new_level } }

/-- Function get_highscore_name. -/
def get_highscore_name (index : Nat) (s : Mcu) : String × Mcu :=
  (names_get s.highscores.highscore_names index, s)

/-- Function get_highscore_score. -/
def get_highscore_score (index : Nat) (s : Mcu) : Nat × Mcu :=
  (arr_get s.highscores.highscore_scores (index : Int), s)

/-- Function get_highscore_level. -/
def get_highscore_level (index : Nat) (s : Mcu) : Nat × Mcu :=
  (arr_get s.highscores.highscore_levels (index : Int), s)

/-- The high score part of handle_game_over (project.c):
`should_type = get_appropriate_index(get_score())` and, when should_type is
not -1, `set_highscore(should_type, new_highscore_name, get_score(),
get_level())`.  The typed name, the score and the level are arguments; the
int8_t should_type is passed as a uint8_t index. -/
def handle_game_over (new_highscore_name : String) (score level : Nat) (s : Mcu) : Mcu :=
  let r := get_appropriate_index score s
  let should_type := r.1
  let s := r.2
  if should_type ≠ -1 then
    set_highscore (should_type % 256).toNat new_highscore_name score level s
  else s

/-- Run a sequence of finished games, first game first; each game is the
typed name, the score and the level. -/
def run_game_overs (games : List (String × Nat × Nat)) (s : Mcu) : Mcu :=
  games.foldl (fun s g => handle_game_over g.1 g.2.1 g.2.2 s) s

/-! ## Concrete states used by the examples -/

/-- The state after reset: every variable zero, interrupts disabled. -/
def reset_state : Mcu := {}

/-- A clock state close to the 32-bit wrap: in-game counting active, a running
countdown and interrupts enabled. -/
def late_clock_state : Mcu :=
  { SREG_I := true
    timer0 := { clockTicks := 4294967290, inGameClockTicks := 7,
                ingame_timer_is_counting := 1, countdown := 5 } }

/-- A clock state whose in-game counter holds the largest 32-bit value while
in-game counting is active. -/
def ingame_max_state : Mcu :=
  { SREG_I := true
    timer0 := { clockTicks := 4294967295, inGameClockTicks := 4294967295,
                ingame_timer_is_counting := 1, countdown := 0 } }

/-- A button state whose queue is full (ids 0, 1, 3, 2 in press order) with
a repeat pending at tick 500. -/
def full_queue_state : Mcu :=
  { SREG_I := true
    PCIE1 := true
    timer0 := { clockTicks := 400 }
    buttons := { last_button_state := 4
                 button_queue := fun i => [0, 1, 3, 2].getD i.val 0
                 queue_length := 4
                 button_repeat_time := 500 } }

/-- An empty-queue button state 300 ticks before the 32-bit clock wraps. -/
def wrap_press_state : Mcu :=
  { SREG_I := true
    PCIE1 := true
    timer0 := { clockTicks := 4294966996 } }

/-- A burst of six single-button interrupts followed by one poll. -/
def burst_events : List ButtonEvent :=
  [.pcint 1, .pcint 2, .pcint 8, .pcint 4, .pcint 1, .pcint 2, .pushed]

/-- A joystick state with the samples just inside the top left corner zone:
x = 515 - 31 - 1 and y = 545 - 31 - 1. -/
def corner_sample_state : Mcu :=
  { SREG_I := true
    timer0 := { clockTicks := 1000 }
    joystick := { last_x := 483, last_y := 513, last_joystick_zone := CENTRE,
                  movement_value := CENTRE } }

/-- A joystick state at rest at tick 1000: the samples at the calibrated
centre (515, 545), no repeat scheduled. -/
def rest_sample_state : Mcu :=
  { SREG_I := true
    timer0 := { clockTicks := 1000 }
    joystick := { last_x := 515, last_y := 545, last_joystick_zone := CENTRE,
                  movement_value := CENTRE } }

/-- A joystick state at tick 0 (as right after init_timer0): the stick pushed
into the top left corner, the recorded zone still CENTRE, no repeat
scheduled. -/
def tick_zero_push_state : Mcu :=
  { SREG_I := true
    timer0 := { clockTicks := 0 }
    joystick := { last_x := 100, last_y := 100, last_joystick_zone := CENTRE,
                  last_joystick_time := 0, movement_value := CENTRE } }

/-- A joystick state held in the top left corner: a movement was signalled at
tick 1000 and the clock now reads 1250, a gap of exactly 250 ticks. -/
def held_gap_250_state : Mcu :=
  { SREG_I := true
    timer0 := { clockTicks := 1250 }
    joystick := { last_x := 100, last_y := 100, last_joystick_zone := TOPLEFT,
                  last_joystick_time := 1000, movement_value := CENTRE } }

/-- A joystick state back at the centre 100 ticks after a movement was
signalled at tick 1000. -/
def early_centre_state : Mcu :=
  { SREG_I := true
    timer0 := { clockTicks := 1100 }
    joystick := { last_x := 515, last_y := 545, last_joystick_zone := TOPLEFT,
                  last_joystick_time := 1000, movement_value := TOPLEFT } }

/-- A joystick state back at the centre 300 ticks after a movement was
signalled at tick 1000. -/
def late_centre_state : Mcu :=
  { SREG_I := true
    timer0 := { clockTicks := 1300 }
    joystick := { last_x := 515, last_y := 545, last_joystick_zone := TOPLEFT,
                  last_joystick_time := 1000, movement_value := TOPLEFT } }

/-- A button state with button 1 held: pressed at tick 700, so the repeat is
due after tick 1000, and the clock reads 1001. -/
def held_button_state : Mcu :=
  { SREG_I := true
    PCIE1 := true
    timer0 := { clockTicks := 1001 }
    buttons := { last_button_state := 2
                 button_queue := fun i => [1, 0, 0, 0].getD i.val 0
                 queue_length := 1
                 button_repeat_time := 1000 } }

/-- A button state with button 1 held and a repeat due, 150 ticks before the
32-bit clock wraps. -/
def wrap_repeat_state : Mcu :=
  { SREG_I := true
    PCIE1 := true
    timer0 := { clockTicks := 4294967146 }
    buttons := { last_button_state := 2
                 button_queue := fun i => [1, 0, 0, 0].getD i.val 0
                 queue_length := 1
                 button_repeat_time := 1000 } }

/-- Events while button 1 is held: polls that read the line state 2, timer
interrupts and one button_pushed call. -/
def hold_events : List ButtonEvent :=
  [.tick, .poll_repeat 2, .pushed, .tick, .poll_repeat 2]

/-- Events after the release: polls with arbitrary port values, timer
interrupts and a button_pushed call. -/
def later_events : List ButtonEvent :=
  [.poll_repeat 2, .tick, .pushed, .poll_repeat 0]

/-- A sound state with three queued tones. -/
def three_tones_state : Mcu :=
  play_sound FREQ_D5SHARP 30 (play_sound FREQ_C5SHARP 10 (play_sound FREQ_F5 37 reset_state))

/-- A sound state with a full queue of six tones. -/
def full_sound_state : Mcu :=
  play_sound FREQ_B5 40 (play_sound FREQ_G5SHARP 25 (play_sound FREQ_F5 25 three_tones_state))

/-- A burst of sound events: eight requests, a tone interrupt and a clear. -/
def sound_burst_events : List SoundEvent :=
  [.play 200 1, .play 300 2, .quiet 400 3, .play 500 4, .play 600 5, .play 700 6,
   .play 800 7, .play 900 8, .tick, .tone 8, .play 1000 9, .clear, .quiet 150 1]

/-- A joystick state 300 ticks before the 32-bit clock wraps: the stick
pushed into the top left corner, the recorded zone still CENTRE, no repeat
scheduled. -/
def wrap_push_state : Mcu :=
  { SREG_I := true
    timer0 := { clockTicks := 4294966996 }
    joystick := { last_x := 100, last_y := 100, last_joystick_zone := CENTRE,
                  last_joystick_time := 0, movement_value := CENTRE } }

/-- A clock state with stale values everywhere: both tick counters, the
countdown and the display phase counter are non-zero. -/
def stale_clock_state : Mcu :=
  { SREG_I := true
    timer0 := { clockTicks := 4000, inGameClockTicks := 3000,
                ingame_timer_is_counting := 1, countdown := 5000, digit_counter := 2 } }

/-- A clock state one tick before the countdown reaches 9000 ms, the display
phase counter about to enter the tens phase. -/
def tens_boundary_state : Mcu :=
  { SREG_I := true
    timer0 := { clockTicks := 16000, inGameClockTicks := 16000,
                ingame_timer_is_counting := 1, countdown := 9001, digit_counter := 1 } }

/-- A clock state right after countdown_set(65) with the in-game timer
stopped, the display phase counter about to enter the ones phase. -/
def long_countdown_state : Mcu :=
  countdown_set 65 { SREG_I := true, timer0 := { clockTicks := 16000, digit_counter := 3 } }

/-- Joystick events after init_joystick while the stick rests: four
conversions inside the dead zone, timer interrupts and polls. -/
def resting_events : List JoystickEvent :=
  [.poll, .adc 520, .tick, .adc 480, .poll, .tick, .adc 500, .adc 470, .poll]

/-- A sound state in the middle of a tone: the output pin toggles, the stop
tick 1000 lies ahead of the clock at 500, and two more tones wait in the
queue. -/
def playing_tone_state : Mcu :=
  { play_sound FREQ_B4 40 (play_sound FREQ_G4 10 reset_state) with
    SREG_I := true
    TCCR1A_COM1A0 := true
    OCR1A := 9089
    timer0 := { clockTicks := 500 }
    sound := { (play_sound FREQ_B4 40 (play_sound FREQ_G4 10 reset_state)).sound with
               stop_time := 1000 } }

/-- A sound state ten ticks before the 32-bit clock wraps: the mute switch
is on, the stop tick 100 has passed and one tone of one hundredth of a
second waits in the queue. -/
def wrap_tone_state : Mcu :=
  { play_sound FREQ_A4 1 reset_state with
    SREG_I := true
    timer0 := { clockTicks := 4294967290 }
    sound := { (play_sound FREQ_A4 1 reset_state).sound with stop_time := 100 } }

/-- A sound state with three queued tones whose stop tick 100 has passed:
the clock reads 500. -/
def due_tones_state : Mcu :=
  { three_tones_state with
    SREG_I := true
    timer0 := { clockTicks := 500 }
    sound := { three_tones_state.sound with stop_time := 100 } }

/-- Sound events with the mute switch on: requests, timer interrupts and
tone interrupts. -/
def unmuted_events : List SoundEvent :=
  [.tone 8, .play 988 40, .quiet 200 1, .tick, .tone 8, .play 100 1, .tone 8, .tone 8]

/-- Level events of a long game: 98 level ups, each followed by a direction
flip as in the main loop of project.c. -/
def long_game_events : List LevelEvent :=
  (List.replicate 98 [LevelEvent.increment, LevelEvent.flip]).flatten

/-- Level events of the first 84 level ups. -/
def ramp_events : List LevelEvent := List.replicate 84 LevelEvent.increment

/-- Seven finished games with their typed names, scores and levels; they
leave the scores 950, 500, 300, 300, 120 in the table. -/
def sample_games : List (String × Nat × Nat) :=
  [("ann", 300, 4), ("bob", 120, 2), ("cy", 300, 5), ("dee", 0, 1), ("eve", 950, 9),
   ("fay", 10, 1), ("gus", 500, 6)]

/-- The state after init_highscores and the seven sample games. -/
def sample_table_state : Mcu := run_game_overs sample_games (init_highscores reset_state)

/-! ## Theorems: clock service -/

theorem get_clock_ticks_fst (s : Mcu) : (get_clock_ticks s).1 = s.timer0.clockTicks := by
  unfold get_clock_ticks cli
  rfl

theorem get_clock_ticks_snd (s : Mcu) : (get_clock_ticks s).2 = s := by
  unfold get_clock_ticks cli sei
  cases h : s.SREG_I <;> cases s <;> simp_all

theorem isr_clockTicks (s : Mcu) :
    (TIMER0_COMPA_vect s).timer0.clockTicks = (s.timer0.clockTicks + 1) % 4294967296 := by
  simp only [TIMER0_COMPA_vect, TIMER0_COMPA_vect_display, TIMER0_COMPA_vect_count]
  split_ifs <;> rfl

theorem isr_counting (s : Mcu) :
    (TIMER0_COMPA_vect s).timer0.ingame_timer_is_counting
      = s.timer0.ingame_timer_is_counting := by
  simp only [TIMER0_COMPA_vect, TIMER0_COMPA_vect_display, TIMER0_COMPA_vect_count]
  split_ifs <;> rfl

theorem isr_inGameClockTicks (s : Mcu) :
    (TIMER0_COMPA_vect s).timer0.inGameClockTicks
      = if s.timer0.ingame_timer_is_counting ≠ 0
        then (s.timer0.inGameClockTicks + 1) % 4294967296 else s.timer0.inGameClockTicks := by
  simp only [TIMER0_COMPA_vect, TIMER0_COMPA_vect_display, TIMER0_COMPA_vect_count]
  split_ifs <;> rfl

theorem isr_countdown (s : Mcu) :
    (TIMER0_COMPA_vect s).timer0.countdown
      = if s.timer0.ingame_timer_is_counting ≠ 0
        then s.timer0.countdown - 1 else s.timer0.countdown := by
  simp only [TIMER0_COMPA_vect, TIMER0_COMPA_vect_display, TIMER0_COMPA_vect_count]
  split_ifs <;> first | rfl | (simp_all)

theorem isr_iterate_clockTicks (s : Mcu) (n : Nat) (h : s.timer0.clockTicks < 4294967296) :
    (TIMER0_COMPA_vect^[n] s).timer0.clockTicks = (s.timer0.clockTicks + n) % 4294967296 := by
  induction n with
  | zero => simp; omega
  | succ n ih =>
    rw [Function.iterate_succ_apply', isr_clockTicks, ih]
    omega

theorem isr_iterate_counting (s : Mcu) (n : Nat) :
    (TIMER0_COMPA_vect^[n] s).timer0.ingame_timer_is_counting
      = s.timer0.ingame_timer_is_counting := by
  induction n with
  | zero => rfl
  | succ n ih => rw [Function.iterate_succ_apply', isr_counting, ih]

theorem isr_iterate_countdown (s : Mcu) (n : Nat)
    (h : s.timer0.ingame_timer_is_counting ≠ 0) :
    (TIMER0_COMPA_vect^[n] s).timer0.countdown = s.timer0.countdown - n := by
  induction n with
  | zero => rfl
  | succ n ih =>
    rw [Function.iterate_succ_apply', isr_countdown, isr_iterate_counting, if_pos h, ih]
    omega

/-- C1: after n firings of the 1 ms timer interrupt get_clock_ticks returns
the previous value plus n modulo 2^32, whatever the in-game flag and the
countdown are; without wrap-around the value after m ≤ n firings is at most
the value after n firings; and get_clock_ticks leaves the whole state as it
was. -/
theorem C1_clock_ticks_advance (s : Mcu) (n : Nat) (h : s.timer0.clockTicks < 4294967296) :
    (get_clock_ticks (TIMER0_COMPA_vect^[n] s)).1 = ((get_clock_ticks s).1 + n) % 4294967296
    ∧ (∀ m, m ≤ n → (get_clock_ticks s).1 + n < 4294967296 →
        (get_clock_ticks (TIMER0_COMPA_vect^[m] s)).1
          ≤ (get_clock_ticks (TIMER0_COMPA_vect^[n] s)).1)
    ∧ (get_clock_ticks s).2 = s := by
  refine ⟨?_, ?_, get_clock_ticks_snd s⟩
  · rw [get_clock_ticks_fst, get_clock_ticks_fst, isr_iterate_clockTicks s n h]
  · intro m hm hn
    rw [get_clock_ticks_fst] at hn
    rw [get_clock_ticks_fst, get_clock_ticks_fst, isr_iterate_clockTicks s n h,
      isr_iterate_clockTicks s m h]
    omega

theorem C1_clock_ticks_advance_witness :
    late_clock_state.timer0.clockTicks < 4294967296
    ∧ (get_clock_ticks (TIMER0_COMPA_vect^[10] late_clock_state)).1 = 4
    ∧ (get_clock_ticks late_clock_state).2 = late_clock_state :=
  ⟨by decide,
   (C1_clock_ticks_advance late_clock_state 10 (by decide)).1.trans (by decide),
   (C1_clock_ticks_advance late_clock_state 10 (by decide)).2.2⟩

theorem countdown_set_small (sec : Nat) (s : Mcu) (h : sec * 1000 ≤ 65535) :
    (countdown_set sec s).timer0.countdown = sec * 1000 := by
  simp only [countdown_set]
  omega

theorem is_countdown_done_fst (s : Mcu) :
    (is_countdown_done s).1 = if s.timer0.countdown = 0 then 1 else 0 := rfl

/-- C2: with in-game counting started and the countdown set to sec seconds,
where sec * 1000 fits the 16-bit countdown, is_countdown_done after k timer
interrupts returns 1 exactly when k ≥ sec * 1000 and returns 0 before that;
in either order of the two calls.  For sec = 25 the countdown is done from
interrupt 25000 on and at no earlier interrupt. -/
theorem C2_countdown_done_exactly (s : Mcu) (sec k : Nat) (h : sec * 1000 ≤ 65535) :
    ((is_countdown_done
        (TIMER0_COMPA_vect^[k] (countdown_set sec (start_ingame_timer s)))).1
      = if sec * 1000 ≤ k then 1 else 0)
    ∧ ((is_countdown_done
        (TIMER0_COMPA_vect^[k] (start_ingame_timer (countdown_set sec s)))).1
      = if sec * 1000 ≤ k then 1 else 0)
    ∧ ((is_countdown_done
        (TIMER0_COMPA_vect^[k] (countdown_set 25 (start_ingame_timer s)))).1 = 1
      ↔ 25000 ≤ k) := by
  have key : ∀ (t : Mcu) (c : Nat), t.timer0.ingame_timer_is_counting ≠ 0 →
      t.timer0.countdown = c →
      (is_countdown_done (TIMER0_COMPA_vect^[k] t)).1 = if c ≤ k then 1 else 0 := by
    intro t c ht hc
    rw [is_countdown_done_fst, isr_iterate_countdown t k ht, hc]
    by_cases hk : c ≤ k
    · rw [if_pos hk, if_pos (by omega)]
    · rw [if_neg hk, if_neg (by omega)]
  refine ⟨?_, ?_, ?_⟩
  · exact key _ _ (by simp [countdown_set, start_ingame_timer])
      (countdown_set_small sec _ h)
  · exact key _ _ (by simp [countdown_set, start_ingame_timer])
      (by simp only [start_ingame_timer]; exact countdown_set_small sec s h)
  · rw [key _ 25000 (by simp [countdown_set, start_ingame_timer])
      (countdown_set_small 25 _ (by decide))]
    by_cases hk : 25000 ≤ k <;> simp [hk]

theorem C2_countdown_done_exactly_witness :
    25 * 1000 ≤ 65535
    ∧ ((is_countdown_done
        (TIMER0_COMPA_vect^[24999] (countdown_set 25 (start_ingame_timer reset_state)))).1
      = if 25 * 1000 ≤ 24999 then 1 else 0)
    ∧ ((is_countdown_done
        (TIMER0_COMPA_vect^[25000] (countdown_set 25 (start_ingame_timer reset_state)))).1
      = if 25 * 1000 ≤ 25000 then 1 else 0) :=
  ⟨by decide,
   (C2_countdown_done_exactly reset_state 25 24999 (by decide)).1,
   (C2_countdown_done_exactly reset_state 25 25000 (by decide)).1⟩

/-- C3: at the argument 66 countdown_set leaves the 16-bit countdown at 464
milliseconds, not at 66000, and get_countdown_time_remaining called right
after returns 0, not 66; the same call with 65 still gives 65000 and 65. -/
theorem C3_countdown_set_overflows (s : Mcu) :
    (countdown_set 66 s).timer0.countdown = 464
    ∧ (get_countdown_time_remaining (countdown_set 66 s)).1 = 0
    ∧ (countdown_set 65 s).timer0.countdown = 65000
    ∧ (get_countdown_time_remaining (countdown_set 65 s)).1 = 65 := by
  have hset : ∀ n, (countdown_set n s).timer0.countdown = n * 1000 % 65536 := fun _ => rfl
  have hget : ∀ t : Mcu,
      (get_countdown_time_remaining t).1 = t.timer0.countdown / 1000 % 256 := fun _ => rfl
  have h66 : 66 * 1000 % 65536 = 464 := by decide
  have h65 : 65 * 1000 % 65536 = 65000 := by decide
  refine ⟨?_, ?_, ?_, ?_⟩
  · rw [hset, h66]
  · rw [hget, hset, h66]
  · rw [hset, h65]
  · rw [hget, hset, h65]

/-- C4: for a 16-bit countdown value c get_countdown_time_remaining returns
c / 1000 rounded down and leaves the state as it was; it returns 0 at 999 and
1 at 1000; after countdown_clear it returns 0 and is_countdown_done returns
1. -/
theorem C4_time_remaining (s : Mcu) (h : s.timer0.countdown < 65536) :
    (get_countdown_time_remaining s).1 = s.timer0.countdown / 1000
    ∧ (get_countdown_time_remaining s).2 = s
    ∧ (s.timer0.countdown = 999 → (get_countdown_time_remaining s).1 = 0)
    ∧ (s.timer0.countdown = 1000 → (get_countdown_time_remaining s).1 = 1)
    ∧ (get_countdown_time_remaining (countdown_clear s)).1 = 0
    ∧ (is_countdown_done (countdown_clear s)).1 = 1 := by
  have h1 : (get_countdown_time_remaining s).1 = s.timer0.countdown / 1000 := by
    simp only [get_countdown_time_remaining]
    omega
  refine ⟨h1, rfl, ?_, ?_, ?_, ?_⟩
  · intro h9
    rw [h1, h9]
  · intro h9
    rw [h1, h9]
  · simp [get_countdown_time_remaining, countdown_clear]
  · simp [is_countdown_done, countdown_clear]

theorem C4_time_remaining_witness :
    late_clock_state.timer0.countdown < 65536
    ∧ (get_countdown_time_remaining late_clock_state).1 = 0
    ∧ (get_countdown_time_remaining late_clock_state).2 = late_clock_state :=
  ⟨by decide,
   (C4_time_remaining late_clock_state (by decide)).1.trans (by decide),
   (C4_time_remaining late_clock_state (by decide)).2.1⟩

/-- C5 fails as stated: with in-game counting active and the in-game counter
at its largest 32-bit value, one timer interrupt takes the counter to 0, not
to the old value plus one. -/
theorem C5_ingame_counter_wraps :
    ingame_max_state.timer0.ingame_timer_is_counting ≠ 0
    ∧ ingame_max_state.timer0.inGameClockTicks < 4294967296
    ∧ (TIMER0_COMPA_vect ingame_max_state).timer0.inGameClockTicks = 0
    ∧ (TIMER0_COMPA_vect ingame_max_state).timer0.inGameClockTicks
        ≠ ingame_max_state.timer0.inGameClockTicks + 1 := by
  decide

/-- C5, amended: one timer interrupt leaves the in-game counter and the
countdown unchanged when in-game counting is inactive; when it is active the
in-game counter becomes the old value plus one modulo 2^32 (plus exactly one
below the largest 32-bit value), and the countdown goes down by exactly one
when it was positive and stays 0 when it was 0.  start_ingame_timer and
stop_ingame_timer set the counting flag to 1 and 0 and leave both counters,
the countdown and everything else as they were. -/
theorem C5_tick_step (s : Mcu) :
    (s.timer0.ingame_timer_is_counting = 0 →
      (TIMER0_COMPA_vect s).timer0.inGameClockTicks = s.timer0.inGameClockTicks
      ∧ (TIMER0_COMPA_vect s).timer0.countdown = s.timer0.countdown)
    ∧ (s.timer0.ingame_timer_is_counting ≠ 0 →
      (TIMER0_COMPA_vect s).timer0.inGameClockTicks
          = (s.timer0.inGameClockTicks + 1) % 4294967296
      ∧ (s.timer0.inGameClockTicks + 1 < 4294967296 →
          (TIMER0_COMPA_vect s).timer0.inGameClockTicks = s.timer0.inGameClockTicks + 1)
      ∧ (0 < s.timer0.countdown →
          (TIMER0_COMPA_vect s).timer0.countdown + 1 = s.timer0.countdown)
      ∧ (s.timer0.countdown = 0 → (TIMER0_COMPA_vect s).timer0.countdown = 0))
    ∧ ((start_ingame_timer s).timer0.ingame_timer_is_counting = 1
      ∧ (start_ingame_timer s).timer0.clockTicks = s.timer0.clockTicks
      ∧ (start_ingame_timer s).timer0.inGameClockTicks = s.timer0.inGameClockTicks
      ∧ (start_ingame_timer s).timer0.countdown = s.timer0.countdown
      ∧ (start_ingame_timer s).timer0.digit_counter = s.timer0.digit_counter
      ∧ (start_ingame_timer s).buttons = s.buttons
      ∧ (start_ingame_timer s).SREG_I = s.SREG_I
      ∧ (start_ingame_timer s).PORTC = s.PORTC
      ∧ (start_ingame_timer s).PORTD2 = s.PORTD2)
    ∧ ((stop_ingame_timer s).timer0.ingame_timer_is_counting = 0
      ∧ (stop_ingame_timer s).timer0.clockTicks = s.timer0.clockTicks
      ∧ (stop_ingame_timer s).timer0.inGameClockTicks = s.timer0.inGameClockTicks
      ∧ (stop_ingame_timer s).timer0.countdown = s.timer0.countdown
      ∧ (stop_ingame_timer s).timer0.digit_counter = s.timer0.digit_counter
      ∧ (stop_ingame_timer s).buttons = s.buttons
      ∧ (stop_ingame_timer s).SREG_I = s.SREG_I
      ∧ (stop_ingame_timer s).PORTC = s.PORTC
      ∧ (stop_ingame_timer s).PORTD2 = s.PORTD2) := by
  refine ⟨?_, ?_, ⟨rfl, rfl, rfl, rfl, rfl, rfl, rfl, rfl, rfl⟩,
    ⟨rfl, rfl, rfl, rfl, rfl, rfl, rfl, rfl, rfl⟩⟩
  · intro h
    rw [isr_inGameClockTicks, isr_countdown]
    simp [h]
  · intro h
    rw [isr_inGameClockTicks, isr_countdown, if_pos h, if_pos h]
    refine ⟨rfl, ?_, ?_, ?_⟩
    · intro hlt
      exact Nat.mod_eq_of_lt hlt
    · intro hpos
      omega
    · intro hz
      rw [hz]

theorem C5_tick_step_witness :
    late_clock_state.timer0.ingame_timer_is_counting ≠ 0
    ∧ (TIMER0_COMPA_vect late_clock_state).timer0.inGameClockTicks
        = (late_clock_state.timer0.inGameClockTicks + 1) % 4294967296
    ∧ (TIMER0_COMPA_vect reset_state).timer0.countdown = reset_state.timer0.countdown :=
  ⟨by decide,
   ((C5_tick_step late_clock_state).2.1 (by decide)).1,
   ((C5_tick_step reset_state).1 rfl).2⟩

theorem run_clock_cons (e : ClockEvent) (evs : List ClockEvent) (s : Mcu) :
    run_clock (e :: evs) s = run_clock evs (e.apply s) := rfl

theorem run_clock_invariant (evs : List ClockEvent) :
    ∀ (s : Mcu) (c : Nat), s.timer0.clockTicks = c → s.timer0.inGameClockTicks ≤ c →
      c + evs.count ClockEvent.tick < 4294967296 →
      (run_clock evs s).timer0.clockTicks = c + evs.count ClockEvent.tick
      ∧ (run_clock evs s).timer0.inGameClockTicks ≤ (run_clock evs s).timer0.clockTicks := by
  induction evs with
  | nil =>
    intro s c hc hi _
    simp only [run_clock, List.foldl_nil, List.count_nil, Nat.add_zero]
    exact ⟨hc, hc ▸ hi⟩
  | cons e evs ih =>
    intro s c hc hi hb
    rw [run_clock_cons]
    cases e with
    | tick =>
      rw [List.count_cons_self] at hb ⊢
      have h1 : (ClockEvent.tick.apply s).timer0.clockTicks = c + 1 := by
        show (TIMER0_COMPA_vect s).timer0.clockTicks = c + 1
        rw [isr_clockTicks, hc]
        omega
      have h2 : (ClockEvent.tick.apply s).timer0.inGameClockTicks ≤ c + 1 := by
        show (TIMER0_COMPA_vect s).timer0.inGameClockTicks ≤ c + 1
        rw [isr_inGameClockTicks]
        split_ifs <;> omega
      have := ih _ (c + 1) h1 h2 (by omega)
      refine ⟨?_, this.2⟩
      rw [this.1]
      omega
    | start =>
      rw [List.count_cons_of_ne (by decide)] at hb ⊢
      exact ih _ c hc hi hb
    | stop =>
      rw [List.count_cons_of_ne (by decide)] at hb ⊢
      exact ih _ c hc hi hb

/-- C6: in every state reached from init_timer0 by a sequence of timer
interrupts, start_ingame_timer and stop_ingame_timer calls with fewer than
2^32 interrupts (no wrap-around of the master clock), the in-game tick
counter is at most the master tick counter. -/
theorem C6_ingame_le_clock (s : Mcu) (evs : List ClockEvent)
    (h : evs.count ClockEvent.tick < 4294967296) :
    (run_clock evs (init_timer0 s)).timer0.inGameClockTicks
      ≤ (run_clock evs (init_timer0 s)).timer0.clockTicks := by
  have := run_clock_invariant evs (init_timer0 s) 0 rfl (Nat.le_of_eq rfl) (by omega)
  exact this.2

theorem C6_ingame_le_clock_witness :
    [ClockEvent.start, ClockEvent.tick, ClockEvent.stop, ClockEvent.tick].count ClockEvent.tick
      < 4294967296
    ∧ (run_clock [ClockEvent.start, ClockEvent.tick, ClockEvent.stop, ClockEvent.tick]
        (init_timer0 late_clock_state)).timer0.inGameClockTicks
      ≤ (run_clock [ClockEvent.start, ClockEvent.tick, ClockEvent.stop, ClockEvent.tick]
        (init_timer0 late_clock_state)).timer0.clockTicks :=
  ⟨by decide,
   C6_ingame_le_clock late_clock_state
     [ClockEvent.start, ClockEvent.tick, ClockEvent.stop, ClockEvent.tick] (by decide)⟩

/-! ## Theorems: button service -/

theorem isr_buttons (s : Mcu) : (TIMER0_COMPA_vect s).buttons = s.buttons := by
  simp only [TIMER0_COMPA_vect, TIMER0_COMPA_vect_display, TIMER0_COMPA_vect_count]
  split_ifs <;> rfl

theorem init_button_interrupts_queue_length (s : Mcu) :
    (init_button_interrupts s).buttons.queue_length = 0 := by
  simp only [init_button_interrupts, cli, sei]
  split_ifs <;> rfl

theorem activate_buttons_queue_length (s : Mcu) :
    (activate_buttons s).buttons.queue_length = 0 := by
  simp only [activate_buttons, cli, sei]
  split_ifs <;> rfl

theorem button_pushed_queue_length (s : Mcu) :
    (button_pushed s).2.buttons.queue_length
      = if s.buttons.queue_length > 0 then s.buttons.queue_length - 1
        else s.buttons.queue_length := by
  simp only [button_pushed, cli, sei]
  split_ifs <;> rfl

theorem should_button_repeat_case_queue (id : Int) (s : Mcu) :
    (should_button_repeat_case id s).2.buttons.queue_length = s.buttons.queue_length
    ∧ (should_button_repeat_case id s).2.buttons.button_queue = s.buttons.button_queue := by
  simp [should_button_repeat_case, get_clock_ticks_snd]

theorem should_button_repeat_queue (PINB : Nat) (s : Mcu) :
    (should_button_repeat PINB s).2.buttons.queue_length = s.buttons.queue_length
    ∧ (should_button_repeat PINB s).2.buttons.button_queue = s.buttons.button_queue := by
  simp only [should_button_repeat, get_clock_ticks_snd, get_clock_ticks_fst, cli, sei]
  split_ifs <;> exact ⟨rfl, rfl⟩

theorem PCINT1_vect_case_queue_length (id : Nat) (s : Mcu) :
    (PCINT1_vect_case id s).buttons.queue_length = s.buttons.queue_length + 1 := by
  simp only [PCINT1_vect_case, get_clock_ticks_snd]

theorem PCINT1_vect_full (PINB : Nat) (s : Mcu)
    (h : ¬ s.buttons.queue_length < BUTTON_QUEUE_SIZE) :
    PCINT1_vect PINB s
      = { s with buttons := { s.buttons with last_button_state := PINB &&& 0x0F } } := by
  simp only [PCINT1_vect, if_neg h]

theorem PCINT1_vect_queue_length_le (PINB : Nat) (s : Mcu) :
    s.buttons.queue_length ≤ (PCINT1_vect PINB s).buttons.queue_length
    ∧ ((PCINT1_vect PINB s).buttons.queue_length ≤ s.buttons.queue_length + 1)
    ∧ (¬ s.buttons.queue_length < BUTTON_QUEUE_SIZE →
        (PCINT1_vect PINB s).buttons.queue_length = s.buttons.queue_length) := by
  simp only [PCINT1_vect]
  split_ifs <;> simp_all [PCINT1_vect_case_queue_length]
theorem ButtonEvent.apply_queue_length_bounds (e : ButtonEvent) (s : Mcu)
    (h : 0 ≤ s.buttons.queue_length ∧ s.buttons.queue_length ≤ 4) :
    0 ≤ (e.apply s).buttons.queue_length ∧ (e.apply s).buttons.queue_length ≤ 4 := by
  cases e with
  | pcint PINB =>
    have h1 := PCINT1_vect_queue_length_le PINB s
    simp only [BUTTON_QUEUE_SIZE] at h1
    show 0 ≤ (PCINT1_vect PINB s).buttons.queue_length
      ∧ (PCINT1_vect PINB s).buttons.queue_length ≤ 4
    by_cases hf : s.buttons.queue_length < 4
    · omega
    · have := h1.2.2 (by simpa using hf)
      omega
  | pushed =>
    show 0 ≤ (button_pushed s).2.buttons.queue_length
      ∧ (button_pushed s).2.buttons.queue_length ≤ 4
    rw [button_pushed_queue_length]
    split_ifs <;> omega
  | activate =>
    show 0 ≤ (activate_buttons s).buttons.queue_length
      ∧ (activate_buttons s).buttons.queue_length ≤ 4
    rw [activate_buttons_queue_length]
    omega
  | poll_repeat PINB =>
    show 0 ≤ (should_button_repeat PINB s).2.buttons.queue_length
      ∧ (should_button_repeat PINB s).2.buttons.queue_length ≤ 4
    rw [(should_button_repeat_queue PINB s).1]
    exact h
  | tick =>
    show 0 ≤ (TIMER0_COMPA_vect s).buttons.queue_length
      ∧ (TIMER0_COMPA_vect s).buttons.queue_length ≤ 4
    rw [isr_buttons]
    exact h

theorem run_buttons_queue_length_bounds (evs : List ButtonEvent) :
    ∀ s : Mcu, 0 ≤ s.buttons.queue_length ∧ s.buttons.queue_length ≤ 4 →
      0 ≤ (run_buttons evs s).buttons.queue_length
      ∧ (run_buttons evs s).buttons.queue_length ≤ 4 := by
  induction evs with
  | nil => intro s h; exact h
  | cons e evs ih =>
    intro s h
    exact ih (e.apply s) (ButtonEvent.apply_queue_length_bounds e s h)

/-- C7: in every state reached from init_button_interrupts by a sequence of
pin change interrupts with arbitrary line states, button_pushed,
activate_buttons and should_button_repeat calls and timer interrupts, the
queue length lies between 0 and 4; and a pin change interrupt that fires
while the queue holds 4 entries leaves the queue array, the queue length and
the queue contents exactly as they were. -/
theorem C7_queue_bounded (s : Mcu) (evs : List ButtonEvent) :
    (0 ≤ (run_buttons evs (init_button_interrupts s)).buttons.queue_length
      ∧ (run_buttons evs (init_button_interrupts s)).buttons.queue_length ≤ 4)
    ∧ ∀ (PINB : Nat) (t : Mcu), t.buttons.queue_length = 4 →
        (PCINT1_vect PINB t).buttons.button_queue = t.buttons.button_queue
        ∧ (PCINT1_vect PINB t).buttons.queue_length = t.buttons.queue_length
        ∧ button_queue_contents (PCINT1_vect PINB t) = button_queue_contents t := by
  refine ⟨?_, ?_⟩
  · apply run_buttons_queue_length_bounds
    rw [init_button_interrupts_queue_length]
    omega
  · intro PINB t ht
    have hfull : ¬ t.buttons.queue_length < BUTTON_QUEUE_SIZE := by
      rw [ht]
      decide
    rw [PCINT1_vect_full PINB t hfull]
    exact ⟨rfl, rfl, rfl⟩

theorem C7_queue_bounded_witness :
    full_queue_state.buttons.queue_length = 4
    ∧ (0 ≤ (run_buttons burst_events (init_button_interrupts reset_state)).buttons.queue_length
      ∧ (run_buttons burst_events (init_button_interrupts reset_state)).buttons.queue_length ≤ 4)
    ∧ button_queue_contents (PCINT1_vect 1 full_queue_state)
        = button_queue_contents full_queue_state :=
  ⟨by decide,
   (C7_queue_bounded reset_state burst_events).1,
   ((C7_queue_bounded reset_state burst_events).2 1 full_queue_state (by decide)).2.2⟩


theorem button_pushed_empty (s : Mcu) (h : s.buttons.queue_length ≤ 0) :
    button_pushed s = (-1, s) := by
  simp only [button_pushed]
  rw [if_neg (by omega)]

theorem button_pushed_fst (s : Mcu) (h : 0 < s.buttons.queue_length) :
    (button_pushed s).1 = toInt8 (arr_get s.buttons.button_queue 0) := by
  simp only [button_pushed]
  rw [if_pos (by omega)]

theorem button_pushed_button_queue (s : Mcu) (h : 0 < s.buttons.queue_length) :
    (button_pushed s).2.buttons.button_queue
      = button_pushed_loop s.buttons.queue_length s.buttons.button_queue := by
  simp only [button_pushed, cli, sei]
  rw [if_pos (by omega)]
  split_ifs <;> rfl

theorem button_queue_contents_pop (s : Mcu)
    (h0 : 0 < s.buttons.queue_length) (h4 : s.buttons.queue_length ≤ 4) :
    button_queue_contents (button_pushed s).2 = (button_queue_contents s).tail := by
  simp only [button_queue_contents]
  rw [button_pushed_queue_length, if_pos (by omega), button_pushed_button_queue s h0]
  have hc : s.buttons.queue_length = 1 ∨ s.buttons.queue_length = 2
      ∨ s.buttons.queue_length = 3 ∨ s.buttons.queue_length = 4 := by omega
  rcases hc with hc | hc | hc | hc <;> rw [hc] <;>
    simp [button_pushed_loop, List.range_succ, List.range', arr_get, arr_set]

theorem button_queue_contents_length (s : Mcu) :
    (button_queue_contents s).length = s.buttons.queue_length.toNat := by
  simp [button_queue_contents]

theorem PCINT1_vect_case_contents (id : Nat) (s : Mcu)
    (h0 : 0 ≤ s.buttons.queue_length) (h4 : s.buttons.queue_length < 4) :
    button_queue_contents (PCINT1_vect_case id s) = button_queue_contents s ++ [id] := by
  simp only [button_queue_contents, PCINT1_vect_case, get_clock_ticks_snd]
  have hc : s.buttons.queue_length = 0 ∨ s.buttons.queue_length = 1
      ∨ s.buttons.queue_length = 2 ∨ s.buttons.queue_length = 3 := by omega
  rcases hc with hc | hc | hc | hc <;> rw [hc] <;>
    simp [List.range_succ, arr_get, arr_set]

theorem PCINT1_vect_case_repeat_time (id : Nat) (s : Mcu) :
    (PCINT1_vect_case id s).buttons.button_repeat_time
      = ((get_clock_ticks s).1 + INIT_DELAY) % 4294967296 := by
  simp only [PCINT1_vect_case, get_clock_ticks_snd, get_clock_ticks_fst]

theorem PCINT1_vect_single (PINB id : Nat) (s : Mcu)
    (h4 : s.buttons.queue_length < 4) (hid : id < 4)
    (hp : PINB &&& 0x0F = button_line_state id) :
    PCINT1_vect PINB s
      = { PCINT1_vect_case id s with
          buttons := { (PCINT1_vect_case id s).buttons with
            last_button_state := PINB &&& 0x0F } } := by
  have hroom : s.buttons.queue_length < BUTTON_QUEUE_SIZE := by
    simpa [BUTTON_QUEUE_SIZE] using h4
  have hc : id = 0 ∨ id = 1 ∨ id = 2 ∨ id = 3 := by omega
  simp only [PCINT1_vect, if_pos hroom, hp]
  rcases hc with hc | hc | hc | hc <;> subst hc <;>
    simp [button_line_state, BUTTON_B0, BUTTON_B1, BUTTON_B2, BUTTON_B3]

theorem toInt8_small (b : Nat) (h : b < 128) : toInt8 b = (b : Int) := by
  unfold toInt8
  have : b % 256 = b := by omega
  rw [this, if_pos h]

theorem button_queue_contents_head (s : Mcu) (b0 : Nat) (rest : List Nat)
    (h : button_queue_contents s = b0 :: rest) :
    0 < s.buttons.queue_length ∧ arr_get s.buttons.button_queue 0 = b0 := by
  have hlen := button_queue_contents_length s
  rw [h] at hlen
  have hpos : 0 < s.buttons.queue_length := by
    simp only [List.length_cons] at hlen
    omega
  refine ⟨hpos, ?_⟩
  obtain ⟨n, hn⟩ : ∃ n, s.buttons.queue_length.toNat = n + 1 := ⟨rest.length, hlen.symm⟩
  simp only [button_queue_contents, hn, List.range_succ_eq_map, List.map_cons] at h
  simpa using (List.cons.inj h).1

theorem inject_presses_contents (ids : List Nat) :
    ∀ s : Mcu, 0 ≤ s.buttons.queue_length →
      s.buttons.queue_length + ids.length ≤ 4 → (∀ b ∈ ids, b < 4) →
      button_queue_contents (inject_presses (ids.map button_line_state) s)
        = button_queue_contents s ++ ids
      ∧ (inject_presses (ids.map button_line_state) s).buttons.queue_length
        = s.buttons.queue_length + ids.length := by
  induction ids with
  | nil =>
    intro s _ _ _
    simp [inject_presses]
  | cons b ids ih =>
    intro s h0 h4 hb
    have hb4 : b < 4 := hb b (List.mem_cons_self _ _)
    simp only [List.length_cons, Nat.cast_add, Nat.cast_one] at h4
    have hstep := PCINT1_vect_single (button_line_state b) b s (by omega) hb4
      (by
        have hc : b = 0 ∨ b = 1 ∨ b = 2 ∨ b = 3 := by omega
        rcases hc with hc | hc | hc | hc <;> subst hc <;> decide)
    have hq : (PCINT1_vect (button_line_state b) s).buttons.queue_length
        = s.buttons.queue_length + 1 := by
      rw [hstep]
      exact PCINT1_vect_case_queue_length b s
    have hcont : button_queue_contents (PCINT1_vect (button_line_state b) s)
        = button_queue_contents s ++ [b] := by
      rw [hstep]
      exact PCINT1_vect_case_contents b s h0 (by omega)
    have := ih (PCINT1_vect (button_line_state b) s) (by omega) (by omega)
      (fun x hx => hb x (List.mem_cons_of_mem _ hx))
    simp only [List.map_cons, inject_presses, List.foldl_cons] at this ⊢
    rw [this.1, this.2, hcont, hq]
    simp
    omega

theorem drain_buttons_contents (l : List Nat) :
    ∀ s : Mcu, 0 ≤ s.buttons.queue_length → s.buttons.queue_length ≤ 4 →
      button_queue_contents s = l →
      (drain_buttons l.length s).1 = l.map toInt8
      ∧ (drain_buttons l.length s).2.buttons.queue_length = 0 := by
  induction l with
  | nil =>
    intro s h0 _ hc
    have hlen := button_queue_contents_length s
    rw [hc] at hlen
    simp only [List.length_nil] at hlen
    simp only [List.length_nil, drain_buttons, List.map_nil, true_and]
    omega
  | cons b l ih =>
    intro s _ h4 hc
    obtain ⟨hpos, hhead⟩ := button_queue_contents_head s b l hc
    have hpop := button_queue_contents_pop s hpos h4
    rw [hc, List.tail_cons] at hpop
    have hq := button_pushed_queue_length s
    rw [if_pos hpos] at hq
    have := ih (button_pushed s).2 (by omega) (by omega) hpop
    simp only [List.length_cons, drain_buttons, List.map_cons]
    rw [this.1, this.2, button_pushed_fst s hpos, hhead]
    exact ⟨rfl, rfl⟩
/-- C8: button_pushed is a FIFO dequeue.  On an empty queue it returns -1 and
changes nothing.  On a queue b0, rest (of at most 4 entries) it returns b0
(as the int8_t conversion of the stored byte, which is b0 itself below 128),
and leaves the queue rest with the length reduced by one.  When at most 4
single-button presses with ids below 4 are injected by the interrupt into an
empty queue, as many button_pushed calls return those ids in the same order
and the next call returns -1. -/
theorem C8_button_pushed_fifo :
    (∀ s : Mcu, s.buttons.queue_length = 0 → button_pushed s = (-1, s))
    ∧ (∀ (s : Mcu) (b0 : Nat) (rest : List Nat), s.buttons.queue_length ≤ 4 →
        button_queue_contents s = b0 :: rest →
        (button_pushed s).1 = toInt8 b0
        ∧ (b0 < 128 → (button_pushed s).1 = (b0 : Int))
        ∧ button_queue_contents (button_pushed s).2 = rest
        ∧ (button_pushed s).2.buttons.queue_length = s.buttons.queue_length - 1)
    ∧ (∀ (s : Mcu) (ids : List Nat), s.buttons.queue_length = 0 → ids.length ≤ 4 →
        (∀ b ∈ ids, b < 4) →
        (drain_buttons ids.length (inject_presses (ids.map button_line_state) s)).1
          = ids.map Int.ofNat
        ∧ (button_pushed
            (drain_buttons ids.length
              (inject_presses (ids.map button_line_state) s)).2).1 = -1) := by
  refine ⟨?_, ?_, ?_⟩
  · intro s h
    exact button_pushed_empty s (by omega)
  · intro s b0 rest h4 hc
    obtain ⟨hpos, hhead⟩ := button_queue_contents_head s b0 rest hc
    have hret : (button_pushed s).1 = toInt8 b0 := by
      rw [button_pushed_fst s hpos, hhead]
    refine ⟨hret, ?_, ?_, ?_⟩
    · intro hb
      rw [hret, toInt8_small b0 hb]
    · rw [button_queue_contents_pop s hpos h4, hc, List.tail_cons]
    · rw [button_pushed_queue_length, if_pos hpos]
  · intro s ids hs hlen hb
    have hinj := inject_presses_contents ids s (by omega) (by omega) hb
    have hempty : button_queue_contents s = [] := by
      simp [button_queue_contents, hs]
    rw [hempty, List.nil_append] at hinj
    have hdr := drain_buttons_contents ids
      (inject_presses (ids.map button_line_state) s) (by omega) (by omega) hinj.1
    refine ⟨?_, ?_⟩
    · rw [hdr.1]
      apply List.map_congr_left
      intro b hbm
      exact toInt8_small b (by have := hb b hbm; omega)
    · rw [button_pushed_empty _ (by omega)]

theorem C8_button_pushed_fifo_witness :
    (reset_state.buttons.queue_length = 0 ∧ [2, 0, 3].length ≤ 4 ∧ (∀ b ∈ [2, 0, 3], b < 4))
    ∧ (drain_buttons [2, 0, 3].length
        (inject_presses ([2, 0, 3].map button_line_state) reset_state)).1
        = [2, 0, 3].map Int.ofNat
    ∧ button_pushed reset_state = (-1, reset_state)
    ∧ (full_queue_state.buttons.queue_length ≤ 4
      ∧ button_queue_contents full_queue_state = 0 :: [1, 3, 2])
    ∧ (button_pushed full_queue_state).1 = toInt8 0
    ∧ button_queue_contents (button_pushed full_queue_state).2 = [1, 3, 2] :=
  ⟨⟨rfl, by decide, by decide⟩,
   (C8_button_pushed_fifo.2.2 reset_state [2, 0, 3] rfl (by decide) (by decide)).1,
   C8_button_pushed_fifo.1 reset_state rfl,
   ⟨by decide, by decide⟩,
   (C8_button_pushed_fifo.2.1 full_queue_state 0 [1, 3, 2] (by decide) (by decide)).1,
   (C8_button_pushed_fifo.2.1 full_queue_state 0 [1, 3, 2] (by decide) (by decide)).2.2.1⟩

theorem PCINT1_vect_last_button_state (PINB : Nat) (s : Mcu) :
    (PCINT1_vect PINB s).buttons.last_button_state = PINB &&& 0x0F := by
  simp only [PCINT1_vect]

/-- C9 fails as stated: 300 ticks before the 32-bit clock wraps, a single
press of button 0 with room in the queue sets the repeat tick to 0, the
value that means no repeat, not to the current tick plus 300. -/
theorem C9_repeat_tick_wraps :
    wrap_press_state.buttons.queue_length < 4
    ∧ 1 &&& 0x0F = button_line_state 0
    ∧ (PCINT1_vect 1 wrap_press_state).buttons.button_repeat_time = 0
    ∧ (PCINT1_vect 1 wrap_press_state).buttons.button_repeat_time
        ≠ (get_clock_ticks wrap_press_state).1 + 300 := by
  decide

/-- C9, amended: when the pin change interrupt fires with room in the queue
(length from 0 to 3) and the raw 4-bit line state is the single-button
pattern of id (1, 2, 4, 8 for 0, 1, 2, 3), it appends id at the tail of the
queue, the length grows by one, and the repeat tick becomes the current tick
plus 300 modulo 2^32 (the current tick plus 300 when that is below 2^32).  In
every case the interrupt records the raw 4-bit state as the last observed
state. -/
theorem C9_press_enqueued (PINB id : Nat) (s : Mcu)
    (h0 : 0 ≤ s.buttons.queue_length) (h4 : s.buttons.queue_length < 4)
    (hid : id < 4) (hp : PINB &&& 0x0F = button_line_state id) :
    button_queue_contents (PCINT1_vect PINB s) = button_queue_contents s ++ [id]
    ∧ (PCINT1_vect PINB s).buttons.queue_length = s.buttons.queue_length + 1
    ∧ (PCINT1_vect PINB s).buttons.button_repeat_time
        = ((get_clock_ticks s).1 + 300) % 4294967296
    ∧ ((get_clock_ticks s).1 + 300 < 4294967296 →
        (PCINT1_vect PINB s).buttons.button_repeat_time = (get_clock_ticks s).1 + 300)
    ∧ (∀ (P : Nat) (t : Mcu), (PCINT1_vect P t).buttons.last_button_state = P &&& 0x0F) := by
  have hstep := PCINT1_vect_single PINB id s h4 hid hp
  have hrep : (PCINT1_vect PINB s).buttons.button_repeat_time
      = ((get_clock_ticks s).1 + 300) % 4294967296 := by
    rw [hstep]
    exact PCINT1_vect_case_repeat_time id s
  refine ⟨?_, ?_, hrep, ?_, PCINT1_vect_last_button_state⟩
  · rw [hstep]
    exact PCINT1_vect_case_contents id s h0 h4
  · rw [hstep]
    exact PCINT1_vect_case_queue_length id s
  · intro hlt
    rw [hrep]
    exact Nat.mod_eq_of_lt hlt

theorem C9_press_enqueued_witness :
    (0 ≤ reset_state.buttons.queue_length ∧ reset_state.buttons.queue_length < 4
      ∧ 2 < 4 ∧ 4 &&& 0x0F = button_line_state 2)
    ∧ button_queue_contents (PCINT1_vect 4 reset_state)
        = button_queue_contents reset_state ++ [2]
    ∧ (PCINT1_vect 4 reset_state).buttons.button_repeat_time
        = ((get_clock_ticks reset_state).1 + 300) % 4294967296 :=
  ⟨by decide,
   (C9_press_enqueued 4 2 reset_state (by decide) (by decide) (by decide) (by decide)).1,
   (C9_press_enqueued 4 2 reset_state (by decide) (by decide) (by decide) (by decide)).2.2.1⟩

/-- C10 fails as stated: with a full queue and a repeat pending at tick 500,
a pin change interrupt that reads no button pressed leaves the repeat tick at
500 instead of clearing it. -/
theorem C10_full_queue_keeps_repeat :
    ¬ is_single_button (0 &&& 0x0F)
    ∧ full_queue_state.buttons.queue_length = 4
    ∧ full_queue_state.buttons.button_repeat_time = 500
    ∧ (PCINT1_vect 0 full_queue_state).buttons.button_repeat_time = 500
    ∧ (PCINT1_vect 0 full_queue_state).buttons.button_repeat_time ≠ 0 := by
  decide

/-- C10, amended: when the pin change interrupt fires with a raw line state
that is not a single-button pattern, nothing is enqueued in any queue state
(array, length and contents keep their values); the repeat tick is cleared to
0 when the queue has room (length below 4) and keeps its value when the queue
is full. -/
theorem C10_no_single_button (PINB : Nat) (s : Mcu)
    (h : ¬ is_single_button (PINB &&& 0x0F)) :
    (PCINT1_vect PINB s).buttons.button_queue = s.buttons.button_queue
    ∧ (PCINT1_vect PINB s).buttons.queue_length = s.buttons.queue_length
    ∧ button_queue_contents (PCINT1_vect PINB s) = button_queue_contents s
    ∧ (s.buttons.queue_length < 4 →
        (PCINT1_vect PINB s).buttons.button_repeat_time = 0)
    ∧ (¬ s.buttons.queue_length < 4 →
        (PCINT1_vect PINB s).buttons.button_repeat_time = s.buttons.button_repeat_time) := by
  simp only [is_single_button, not_or] at h
  obtain ⟨h0, h1, h2, h3⟩ := h
  have hq : (PCINT1_vect PINB s).buttons.button_queue = s.buttons.button_queue
      ∧ (PCINT1_vect PINB s).buttons.queue_length = s.buttons.queue_length := by
    simp only [PCINT1_vect, if_neg h0, if_neg h1, if_neg h2, if_neg h3]
    split_ifs <;> exact ⟨rfl, rfl⟩
  refine ⟨hq.1, hq.2, ?_, ?_, ?_⟩
  · simp only [button_queue_contents, hq.1, hq.2]
  · intro hroom
    have hroom2 : s.buttons.queue_length < BUTTON_QUEUE_SIZE := by
      simpa [BUTTON_QUEUE_SIZE] using hroom
    simp only [PCINT1_vect, if_neg h0, if_neg h1, if_neg h2, if_neg h3, if_pos hroom2]
  · intro hfull
    have hfull2 : ¬ s.buttons.queue_length < BUTTON_QUEUE_SIZE := by
      simpa [BUTTON_QUEUE_SIZE] using hfull
    rw [PCINT1_vect_full PINB s hfull2]

theorem C10_no_single_button_witness :
    ¬ is_single_button (3 &&& 0x0F)
    ∧ button_queue_contents (PCINT1_vect 3 reset_state) = button_queue_contents reset_state
    ∧ (reset_state.buttons.queue_length < 4 →
        (PCINT1_vect 3 reset_state).buttons.button_repeat_time = 0)
    ∧ (¬ full_queue_state.buttons.queue_length < 4 →
        (PCINT1_vect 3 full_queue_state).buttons.button_repeat_time
          = full_queue_state.buttons.button_repeat_time) :=
  ⟨by decide,
   (C10_no_single_button 3 reset_state (by decide)).2.2.1,
   (C10_no_single_button 3 reset_state (by decide)).2.2.2.1,
   (C10_no_single_button 3 full_queue_state (by decide)).2.2.2.2⟩

/-! ## Theorems: joystick service -/

theorem get_current_zone_snd (s : Mcu) : (get_current_zone s).2 = s := by
  simp only [get_current_zone]
  split_ifs <;> rfl

theorem get_current_zone_congr (s t : Mcu) (hx : t.joystick.last_x = s.joystick.last_x)
    (hy : t.joystick.last_y = s.joystick.last_y) :
    (get_current_zone t).1 = (get_current_zone s).1 := by
  simp only [get_current_zone, hx, hy]
  split_ifs <;> rfl

/-- C14: whenever x is below CENTRE_MID_X - DEAD_ZONE_DIAG and y is below
CENTRE_MID_Y - DEAD_ZONE_DIAG, get_current_zone returns TOPLEFT, which is
neither LEFT nor TOP; so it does at x = 483, y = 513.  The three other corner
conditions give TOPRIGHT, BOTTOMLEFT and BOTTOMRIGHT.  Two states with the
same samples get the same zone, and the call changes nothing. -/
theorem C14_corner_preference (s : Mcu) :
    (s.joystick.last_x < CENTRE_MID_X - DEAD_ZONE_DIAG →
      s.joystick.last_y < CENTRE_MID_Y - DEAD_ZONE_DIAG →
      (get_current_zone s).1 = TOPLEFT)
    ∧ (s.joystick.last_x = 483 → s.joystick.last_y = 513 →
      (get_current_zone s).1 = TOPLEFT)
    ∧ (TOPLEFT ≠ LEFT ∧ TOPLEFT ≠ TOP)
    ∧ (s.joystick.last_x > CENTRE_MID_X + DEAD_ZONE_DIAG →
      s.joystick.last_y < CENTRE_MID_Y - DEAD_ZONE_DIAG →
      (get_current_zone s).1 = TOPRIGHT)
    ∧ (s.joystick.last_x < CENTRE_MID_X - DEAD_ZONE_DIAG →
      s.joystick.last_y > CENTRE_MID_Y + DEAD_ZONE_DIAG →
      (get_current_zone s).1 = BOTTOMLEFT)
    ∧ (s.joystick.last_x > CENTRE_MID_X + DEAD_ZONE_DIAG →
      s.joystick.last_y > CENTRE_MID_Y + DEAD_ZONE_DIAG →
      (get_current_zone s).1 = BOTTOMRIGHT)
    ∧ (∀ t : Mcu, t.joystick.last_x = s.joystick.last_x →
      t.joystick.last_y = s.joystick.last_y →
      (get_current_zone t).1 = (get_current_zone s).1)
    ∧ (get_current_zone s).2 = s := by
  refine ⟨?_, ?_, by decide, ?_, ?_, ?_, ?_, get_current_zone_snd s⟩
  · intro hx hy
    simp only [get_current_zone, CENTRE_MID_X, CENTRE_MID_Y, DEAD_ZONE_DIAG] at hx hy ⊢
    rw [if_pos ⟨hx, hy⟩]
  · intro hx hy
    simp only [get_current_zone, CENTRE_MID_X, CENTRE_MID_Y, DEAD_ZONE_DIAG, hx, hy]
    rw [if_pos (by decide)]
  · intro hx hy
    simp only [get_current_zone, CENTRE_MID_X, CENTRE_MID_Y, DEAD_ZONE_DIAG] at hx hy ⊢
    rw [if_neg (by omega), if_pos ⟨hx, hy⟩]
  · intro hx hy
    simp only [get_current_zone, CENTRE_MID_X, CENTRE_MID_Y, DEAD_ZONE_DIAG] at hx hy ⊢
    rw [if_neg (by omega), if_neg (by omega), if_pos ⟨hx, hy⟩]
  · intro hx hy
    simp only [get_current_zone, CENTRE_MID_X, CENTRE_MID_Y, DEAD_ZONE_DIAG] at hx hy ⊢
    rw [if_neg (by omega), if_neg (by omega), if_neg (by omega), if_pos ⟨hx, hy⟩]
  · intro t hx hy
    exact get_current_zone_congr s t hx hy

theorem C14_corner_preference_witness :
    (corner_sample_state.joystick.last_x = 483 ∧ corner_sample_state.joystick.last_y = 513)
    ∧ (get_current_zone corner_sample_state).1 = TOPLEFT :=
  ⟨⟨rfl, rfl⟩, (C14_corner_preference corner_sample_state).2.1 rfl rfl⟩

/-- C15: when none of the four corner conditions holds, get_current_zone
returns TOP if y < CENTRE_MID_Y - DEAD_ZONE_Y, else BOTTOM if
y > CENTRE_MID_Y + DEAD_ZONE_Y, else LEFT if x < CENTRE_MID_X - DEAD_ZONE_X,
else RIGHT if x > CENTRE_MID_X + DEAD_ZONE_X, else CENTRE.  The result is
always a zone code from 0 to 8; it is CENTRE whenever |x - 515| ≤ 31 and
|y - 545| ≤ 31, and only if |x - 515| ≤ 40 and |y - 545| ≤ 50. -/
theorem C15_zone_classification (s : Mcu) :
    (¬ (s.joystick.last_x < CENTRE_MID_X - DEAD_ZONE_DIAG
          ∧ s.joystick.last_y < CENTRE_MID_Y - DEAD_ZONE_DIAG) →
      ¬ (s.joystick.last_x > CENTRE_MID_X + DEAD_ZONE_DIAG
          ∧ s.joystick.last_y < CENTRE_MID_Y - DEAD_ZONE_DIAG) →
      ¬ (s.joystick.last_x < CENTRE_MID_X - DEAD_ZONE_DIAG
          ∧ s.joystick.last_y > CENTRE_MID_Y + DEAD_ZONE_DIAG) →
      ¬ (s.joystick.last_x > CENTRE_MID_X + DEAD_ZONE_DIAG
          ∧ s.joystick.last_y > CENTRE_MID_Y + DEAD_ZONE_DIAG) →
      (get_current_zone s).1 =
        if s.joystick.last_y < CENTRE_MID_Y - DEAD_ZONE_Y then TOP
        else if s.joystick.last_y > CENTRE_MID_Y + DEAD_ZONE_Y then BOTTOM
        else if s.joystick.last_x < CENTRE_MID_X - DEAD_ZONE_X then LEFT
        else if s.joystick.last_x > CENTRE_MID_X + DEAD_ZONE_X then RIGHT
        else CENTRE)
    ∧ (get_current_zone s).1 ≤ 8
    ∧ (|(s.joystick.last_x : Int) - 515| ≤ 31 → |(s.joystick.last_y : Int) - 545| ≤ 31 →
      (get_current_zone s).1 = CENTRE)
    ∧ ((get_current_zone s).1 = CENTRE →
      |(s.joystick.last_x : Int) - 515| ≤ 40 ∧ |(s.joystick.last_y : Int) - 545| ≤ 50) := by
  refine ⟨?_, ?_, ?_, ?_⟩
  · intro h1 h2 h3 h4
    simp only [get_current_zone]
    rw [if_neg h1, if_neg h2, if_neg h3, if_neg h4]
    split_ifs <;> rfl
  · simp only [get_current_zone]
    split_ifs <;> simp [TOPLEFT, TOP, TOPRIGHT, LEFT, CENTRE, RIGHT, BOTTOMLEFT, BOTTOM,
      BOTTOMRIGHT]
  · intro hx hy
    rw [abs_le] at hx hy
    simp only [get_current_zone, CENTRE_MID_X, CENTRE_MID_Y, DEAD_ZONE_DIAG, DEAD_ZONE_X,
      DEAD_ZONE_Y]
    split_ifs <;> first | rfl | (exfalso; omega)
  · simp only [get_current_zone, CENTRE_MID_X, CENTRE_MID_Y, DEAD_ZONE_DIAG, DEAD_ZONE_X,
      DEAD_ZONE_Y]
    rw [abs_le, abs_le]
    split_ifs <;> intro h <;>
      first
        | (exfalso
           revert h
           simp [TOPLEFT, TOP, TOPRIGHT, LEFT, CENTRE, RIGHT, BOTTOMLEFT, BOTTOM, BOTTOMRIGHT]
           done)
        | omega

theorem C15_zone_classification_witness :
    (|(corner_sample_state.joystick.last_x : Int) - 515| ≤ 40
      ∧ |(corner_sample_state.joystick.last_y : Int) - 545| ≤ 50)
    ∧ (|(rest_sample_state.joystick.last_x : Int) - 515| ≤ 31
      ∧ |(rest_sample_state.joystick.last_y : Int) - 545| ≤ 31)
    ∧ (get_current_zone rest_sample_state).1 = CENTRE
    ∧ (get_current_zone corner_sample_state).1 ≤ 8 :=
  ⟨by decide, by decide,
   (C15_zone_classification rest_sample_state).2.2.1 (by decide) (by decide),
   (C15_zone_classification corner_sample_state).2.1⟩

theorem should_joystick_move_signal_joystick (z : Nat) (s : Mcu) :
    (should_joystick_move_signal z s).joystick
      = { s.joystick with movement_value := z, last_joystick_time := s.timer0.clockTicks } := by
  simp only [should_joystick_move_signal, get_clock_ticks_snd, get_clock_ticks_fst]

theorem should_joystick_move_signal_rest (z : Nat) (s : Mcu) :
    (should_joystick_move_signal z s).timer0 = s.timer0
    ∧ (should_joystick_move_signal z s).SREG_I = s.SREG_I := by
  simp only [should_joystick_move_signal, get_clock_ticks_snd, get_clock_ticks_fst, and_self]

theorem should_joystick_move_decide_joystick (z : Nat) (s : Mcu) :
    (should_joystick_move_decide z s).joystick
      = if s.joystick.last_joystick_time ≠ 0
            ∧ s.timer0.clockTicks
                > (s.joystick.last_joystick_time + Joystick.REPEAT_DELAY) % 4294967296 then
          if z = CENTRE then { s.joystick with last_joystick_time := 0 }
          else { s.joystick with movement_value := z,
                                 last_joystick_time := s.timer0.clockTicks }
        else if s.joystick.last_joystick_time = 0
            ∧ s.joystick.last_joystick_zone = CENTRE ∧ z ≠ CENTRE then
          { s.joystick with movement_value := z, last_joystick_time := s.timer0.clockTicks }
        else s.joystick := by
  simp only [should_joystick_move_decide]
  by_cases h0 : s.joystick.last_joystick_time = 0
  · simp only [h0, ne_eq, not_true_eq_false, if_false, false_and, true_and, if_true]
    split_ifs
    · exact should_joystick_move_signal_joystick z s
    · rfl
  · simp only [h0, ne_eq, not_false_eq_true, if_true, get_clock_ticks_snd, get_clock_ticks_fst,
      true_and, false_and, if_false]
    split_ifs <;> simp [should_joystick_move_signal_joystick]

theorem should_joystick_move_decide_rest (z : Nat) (s : Mcu) :
    (should_joystick_move_decide z s).timer0 = s.timer0
    ∧ (should_joystick_move_decide z s).SREG_I = s.SREG_I := by
  simp only [should_joystick_move_decide]
  by_cases h0 : s.joystick.last_joystick_time = 0
  · simp [h0]
    split_ifs <;> simp [should_joystick_move_signal_rest]
  · simp only [h0, ne_eq, not_false_eq_true, if_true, get_clock_ticks_snd, get_clock_ticks_fst,
      true_and, false_and, if_false]
    split_ifs <;> simp [should_joystick_move_signal_rest]

theorem restore_interrupts_fields (b : Bool) (x : Mcu) :
    (if b = true then sei x else x).joystick = x.joystick
    ∧ (if b = true then sei x else x).timer0 = x.timer0
    ∧ (if b = true then sei x else x).buttons = x.buttons
    ∧ (if b = true then sei x else x).sound = x.sound
    ∧ (if b = true then sei x else x).SREG_I = (b || x.SREG_I) := by
  cases b <;> simp [sei]

theorem should_joystick_move_joystick (s : Mcu) :
    (should_joystick_move s).2.joystick
      = if s.joystick.last_joystick_time ≠ 0
            ∧ s.timer0.clockTicks
                > (s.joystick.last_joystick_time + Joystick.REPEAT_DELAY) % 4294967296 then
          if (get_current_zone s).1 = CENTRE then
            { s.joystick with movement_value := CENTRE, last_joystick_time := 0,
                              last_joystick_zone := (get_current_zone s).1 }
          else
            { s.joystick with movement_value := (get_current_zone s).1,
                              last_joystick_time := s.timer0.clockTicks,
                              last_joystick_zone := (get_current_zone s).1 }
        else if s.joystick.last_joystick_time = 0
            ∧ s.joystick.last_joystick_zone = CENTRE ∧ (get_current_zone s).1 ≠ CENTRE then
          { s.joystick with movement_value := (get_current_zone s).1,
                            last_joystick_time := s.timer0.clockTicks,
                            last_joystick_zone := (get_current_zone s).1 }
        else
          { s.joystick with movement_value := CENTRE,
                            last_joystick_zone := (get_current_zone s).1 } := by
  have hz : (get_current_zone
      { s with SREG_I := false, joystick := { s.joystick with movement_value := CENTRE } }).1
      = (get_current_zone s).1 := get_current_zone_congr s _ rfl rfl
  simp only [should_joystick_move, cli, get_current_zone_snd, hz,
    (restore_interrupts_fields _ _).1, should_joystick_move_decide_joystick]
  split_ifs <;> rfl

theorem should_joystick_move_rest (s : Mcu) :
    (should_joystick_move s).2.timer0 = s.timer0
    ∧ (should_joystick_move s).2.SREG_I = s.SREG_I
    ∧ (should_joystick_move s).1
        = if (should_joystick_move s).2.joystick.movement_value ≠ CENTRE then 1 else 0 := by
  refine ⟨?_, ?_, rfl⟩
  · simp only [should_joystick_move, cli, get_current_zone_snd,
      (restore_interrupts_fields _ _).2.1, (should_joystick_move_decide_rest _ _).1]
  · simp only [should_joystick_move, cli, get_current_zone_snd,
      (restore_interrupts_fields _ _).2.2.2.2, (should_joystick_move_decide_rest _ _).2]
    simp

theorem should_joystick_move_due_centre (s : Mcu)
    (h0 : s.joystick.last_joystick_time ≠ 0)
    (hc : s.timer0.clockTicks
      > (s.joystick.last_joystick_time + Joystick.REPEAT_DELAY) % 4294967296)
    (hz : (get_current_zone s).1 = CENTRE) :
    (should_joystick_move s).1 = 0
    ∧ (should_joystick_move s).2.joystick
        = { s.joystick with movement_value := CENTRE, last_joystick_time := 0,
                            last_joystick_zone := (get_current_zone s).1 } := by
  have hj : (should_joystick_move s).2.joystick
      = { s.joystick with movement_value := CENTRE, last_joystick_time := 0,
                          last_joystick_zone := (get_current_zone s).1 } := by
    rw [should_joystick_move_joystick, if_pos ⟨h0, hc⟩, if_pos hz]
  refine ⟨?_, hj⟩
  rw [(should_joystick_move_rest s).2.2, hj]
  exact if_neg (fun h => h rfl)

theorem should_joystick_move_due_off (s : Mcu)
    (h0 : s.joystick.last_joystick_time ≠ 0)
    (hc : s.timer0.clockTicks
      > (s.joystick.last_joystick_time + Joystick.REPEAT_DELAY) % 4294967296)
    (hz : (get_current_zone s).1 ≠ CENTRE) :
    (should_joystick_move s).1 = 1
    ∧ (should_joystick_move s).2.joystick
        = { s.joystick with movement_value := (get_current_zone s).1,
                            last_joystick_time := s.timer0.clockTicks,
                            last_joystick_zone := (get_current_zone s).1 } := by
  have hj : (should_joystick_move s).2.joystick
      = { s.joystick with movement_value := (get_current_zone s).1,
                          last_joystick_time := s.timer0.clockTicks,
                          last_joystick_zone := (get_current_zone s).1 } := by
    rw [should_joystick_move_joystick, if_pos ⟨h0, hc⟩, if_neg hz]
  refine ⟨?_, hj⟩
  rw [(should_joystick_move_rest s).2.2, hj]
  exact if_pos hz

theorem should_joystick_move_fresh (s : Mcu)
    (h0 : s.joystick.last_joystick_time = 0)
    (hl : s.joystick.last_joystick_zone = CENTRE)
    (hz : (get_current_zone s).1 ≠ CENTRE) :
    (should_joystick_move s).1 = 1
    ∧ (should_joystick_move s).2.joystick
        = { s.joystick with movement_value := (get_current_zone s).1,
                            last_joystick_time := s.timer0.clockTicks,
                            last_joystick_zone := (get_current_zone s).1 } := by
  have hj : (should_joystick_move s).2.joystick
      = { s.joystick with movement_value := (get_current_zone s).1,
                          last_joystick_time := s.timer0.clockTicks,
                          last_joystick_zone := (get_current_zone s).1 } := by
    rw [should_joystick_move_joystick, if_neg (fun h => h.1 h0), if_pos ⟨h0, hl, hz⟩]
  refine ⟨?_, hj⟩
  rw [(should_joystick_move_rest s).2.2, hj]
  exact if_pos hz

theorem should_joystick_move_idle (s : Mcu)
    (hdue : ¬ (s.joystick.last_joystick_time ≠ 0
      ∧ s.timer0.clockTicks
          > (s.joystick.last_joystick_time + Joystick.REPEAT_DELAY) % 4294967296))
    (hfresh : ¬ (s.joystick.last_joystick_time = 0
      ∧ s.joystick.last_joystick_zone = CENTRE ∧ (get_current_zone s).1 ≠ CENTRE)) :
    (should_joystick_move s).1 = 0
    ∧ (should_joystick_move s).2.joystick
        = { s.joystick with movement_value := CENTRE,
                            last_joystick_zone := (get_current_zone s).1 } := by
  have hj : (should_joystick_move s).2.joystick
      = { s.joystick with movement_value := CENTRE,
                          last_joystick_zone := (get_current_zone s).1 } := by
    rw [should_joystick_move_joystick, if_neg hdue, if_neg hfresh]
  refine ⟨?_, hj⟩
  rw [(should_joystick_move_rest s).2.2, hj]
  exact if_neg (fun h => h rfl)

theorem isr_joystick (s : Mcu) : (TIMER0_COMPA_vect s).joystick = s.joystick := by
  simp only [TIMER0_COMPA_vect, TIMER0_COMPA_vect_display, TIMER0_COMPA_vect_count]
  split_ifs <;> rfl

theorem isr_iterate_joystick (s : Mcu) (n : Nat) :
    (TIMER0_COMPA_vect^[n] s).joystick = s.joystick := by
  induction n with
  | zero => rfl
  | succ n ih => rw [Function.iterate_succ_apply', isr_joystick, ih]

theorem get_current_zone_of_joystick (s t : Mcu) (h : t.joystick = s.joystick) :
    (get_current_zone t).1 = (get_current_zone s).1 :=
  get_current_zone_congr s t (by rw [h]) (by rw [h])

theorem should_joystick_move_later (s : Mcu) (n : Nat)
    (h0 : s.joystick.last_joystick_time = 0) (hl : s.joystick.last_joystick_zone = CENTRE)
    (hz : (get_current_zone s).1 ≠ CENTRE) (hc : s.timer0.clockTicks < 4294967296) :
    (should_joystick_move (TIMER0_COMPA_vect^[n] (should_joystick_move s).2)).1
      = if s.timer0.clockTicks ≠ 0
            ∧ (s.timer0.clockTicks + n) % 4294967296
                > (s.timer0.clockTicks + 250) % 4294967296 then 1 else 0 := by
  obtain ⟨-, hj⟩ := should_joystick_move_fresh s h0 hl hz
  have htm := (should_joystick_move_rest s).1
  have hjn := isr_iterate_joystick (should_joystick_move s).2 n
  rw [hj] at hjn
  have hclk : (TIMER0_COMPA_vect^[n] (should_joystick_move s).2).timer0.clockTicks
      = (s.timer0.clockTicks + n) % 4294967296 := by
    rw [isr_iterate_clockTicks _ n (by rw [htm]; exact hc), htm]
  have hzn : (get_current_zone (TIMER0_COMPA_vect^[n] (should_joystick_move s).2)).1
      = (get_current_zone s).1 :=
    get_current_zone_congr s _ (by rw [hjn]) (by rw [hjn])
  by_cases hdue : s.timer0.clockTicks ≠ 0
      ∧ (s.timer0.clockTicks + n) % 4294967296 > (s.timer0.clockTicks + 250) % 4294967296
  · rw [if_pos hdue]
    refine (should_joystick_move_due_off _ ?_ ?_ ?_).1
    · rw [hjn]
      exact hdue.1
    · rw [hjn, hclk]
      exact hdue.2
    · rw [hzn]
      exact hz
  · rw [if_neg hdue]
    refine (should_joystick_move_idle _ ?_ ?_).1
    · rw [hjn, hclk]
      exact hdue
    · rw [hjn]
      intro h
      exact hz h.2.1

/-- C16 fails as stated.  At tick 0 a fresh move out of the centre returns 1
but stores the repeat time 0, the value that means not repeating, and a call
300 ticks later with the stick still off centre returns 0.  At tick
2^32 - 300 a fresh move arms the repeat at that tick, and a call 301 ticks
later, after the clock has wrapped to 1, returns 0. -/
theorem C16_repeat_not_armed :
    (tick_zero_push_state.joystick.last_joystick_time = 0
      ∧ tick_zero_push_state.joystick.last_joystick_zone = CENTRE
      ∧ (get_current_zone tick_zero_push_state).1 ≠ CENTRE
      ∧ (get_clock_ticks tick_zero_push_state).1 = 0
      ∧ (should_joystick_move tick_zero_push_state).1 = 1
      ∧ (should_joystick_move tick_zero_push_state).2.joystick.last_joystick_time = 0
      ∧ (should_joystick_move
          (TIMER0_COMPA_vect^[300] (should_joystick_move tick_zero_push_state).2)).1 = 0)
    ∧ (wrap_push_state.joystick.last_joystick_time = 0
      ∧ wrap_push_state.joystick.last_joystick_zone = CENTRE
      ∧ (get_current_zone wrap_push_state).1 ≠ CENTRE
      ∧ (get_clock_ticks wrap_push_state).1 = 4294966996
      ∧ (should_joystick_move wrap_push_state).1 = 1
      ∧ (should_joystick_move wrap_push_state).2.joystick.last_joystick_time = 4294966996
      ∧ (should_joystick_move
          (TIMER0_COMPA_vect^[301] (should_joystick_move wrap_push_state).2)).1 = 0) := by
  refine ⟨⟨by decide, by decide, by decide, by decide, by decide, by decide, ?_⟩,
    ⟨by decide, by decide, by decide, by decide, by decide, by decide, ?_⟩⟩
  · rw [should_joystick_move_later tick_zero_push_state 300 (by decide) (by decide)
      (by decide) (by decide)]
    decide
  · rw [should_joystick_move_later wrap_push_state 301 (by decide) (by decide)
      (by decide) (by decide)]
    decide

/-- C16, amended: a call of should_joystick_move with no repeat scheduled, the
recorded zone CENTRE and the samples in a zone z other than CENTRE returns 1
at every tick, get_last_joystick_movement_value then returns z, and the
repeat time is set to the current tick.  When that tick is not 0 this arms a
repeat: a later call with the stick still off centre, made n > 250 timer
interrupts afterwards without tick wrap-around, returns 1 again.  When the
zone of the samples is CENTRE the call returns 0 and the movement value is
CENTRE. -/
theorem C16_fresh_move (s : Mcu) :
    (s.joystick.last_joystick_time = 0 → s.joystick.last_joystick_zone = CENTRE →
      (get_current_zone s).1 ≠ CENTRE →
      (should_joystick_move s).1 = 1
      ∧ (get_last_joystick_movement_value (should_joystick_move s).2).1 = (get_current_zone s).1
      ∧ (should_joystick_move s).2.joystick.last_joystick_time = (get_clock_ticks s).1
      ∧ ((get_clock_ticks s).1 ≠ 0 →
          (should_joystick_move s).2.joystick.last_joystick_time ≠ 0
          ∧ ∀ n : Nat, 250 < n → (get_clock_ticks s).1 + n < 4294967296 →
            (should_joystick_move (TIMER0_COMPA_vect^[n] (should_joystick_move s).2)).1 = 1))
    ∧ ((get_current_zone s).1 = CENTRE →
      (should_joystick_move s).1 = 0
      ∧ (get_last_joystick_movement_value (should_joystick_move s).2).1 = CENTRE) := by
  refine ⟨?_, ?_⟩
  · intro h0 hl hz
    obtain ⟨hret, hj⟩ := should_joystick_move_fresh s h0 hl hz
    rw [get_clock_ticks_fst]
    refine ⟨hret, ?_, ?_, ?_⟩
    · show (should_joystick_move s).2.joystick.movement_value = _
      rw [hj]
    · rw [hj]
    · intro hc
      refine ⟨by rw [hj]; exact hc, ?_⟩
      intro n hn hw
      rw [should_joystick_move_later s n h0 hl hz (by omega), if_pos]
      refine ⟨hc, ?_⟩
      rw [Nat.mod_eq_of_lt hw, Nat.mod_eq_of_lt (by omega)]
      omega
  · intro hz
    by_cases hdue : s.joystick.last_joystick_time ≠ 0
      ∧ s.timer0.clockTicks
          > (s.joystick.last_joystick_time + Joystick.REPEAT_DELAY) % 4294967296
    · obtain ⟨hret, hj⟩ := should_joystick_move_due_centre s hdue.1 hdue.2 hz
      refine ⟨hret, ?_⟩
      show (should_joystick_move s).2.joystick.movement_value = _
      rw [hj]
    · obtain ⟨hret, hj⟩ := should_joystick_move_idle s hdue (fun h => h.2.2 hz)
      refine ⟨hret, ?_⟩
      show (should_joystick_move s).2.joystick.movement_value = _
      rw [hj]

theorem C16_fresh_move_witness :
    (corner_sample_state.joystick.last_joystick_time = 0
      ∧ corner_sample_state.joystick.last_joystick_zone = CENTRE
      ∧ (get_current_zone corner_sample_state).1 ≠ CENTRE
      ∧ (get_clock_ticks corner_sample_state).1 ≠ 0
      ∧ 250 < 251 ∧ (get_clock_ticks corner_sample_state).1 + 251 < 4294967296)
    ∧ (should_joystick_move corner_sample_state).1 = 1
    ∧ (get_last_joystick_movement_value (should_joystick_move corner_sample_state).2).1
        = (get_current_zone corner_sample_state).1
    ∧ (should_joystick_move
        (TIMER0_COMPA_vect^[251] (should_joystick_move corner_sample_state).2)).1 = 1
    ∧ (get_current_zone rest_sample_state).1 = CENTRE
    ∧ (should_joystick_move rest_sample_state).1 = 0 :=
  ⟨by decide,
   ((C16_fresh_move corner_sample_state).1 (by decide) (by decide) (by decide)).1,
   ((C16_fresh_move corner_sample_state).1 (by decide) (by decide) (by decide)).2.1,
   (((C16_fresh_move corner_sample_state).1 (by decide) (by decide) (by decide)).2.2.2
      (by decide)).2 251 (by decide) (by decide),
   by decide,
   ((C16_fresh_move rest_sample_state).2 (by decide)).1⟩

theorem ADC_vect_keeps (ADC : Nat) (s : Mcu) :
    (ADC_vect ADC s).timer0 = s.timer0
    ∧ (ADC_vect ADC s).joystick.last_joystick_time = s.joystick.last_joystick_time
    ∧ (ADC_vect ADC s).joystick.last_joystick_zone = s.joystick.last_joystick_zone := by
  simp only [ADC_vect]
  split_ifs <;> exact ⟨rfl, rfl, rfl⟩

theorem run_joystick_log_cons_poll (evs : List JoystickEvent) (s : Mcu) :
    (run_joystick_log (JoystickEvent.poll :: evs) s).1
      = ((get_clock_ticks s).1, (get_current_zone s).1, (should_joystick_move s).1)
          :: (run_joystick_log evs (should_joystick_move s).2).1 := rfl

theorem run_joystick_log_cons_tick (evs : List JoystickEvent) (s : Mcu) :
    (run_joystick_log (JoystickEvent.tick :: evs) s).1
      = (run_joystick_log evs (TIMER0_COMPA_vect s)).1 := rfl

theorem run_joystick_log_cons_adc (ADC : Nat) (evs : List JoystickEvent) (s : Mcu) :
    (run_joystick_log (JoystickEvent.adc ADC :: evs) s).1
      = (run_joystick_log evs (ADC_vect ADC s)).1 := rfl

theorem run_joystick_log_held (evs : List JoystickEvent) :
    ∀ s : Mcu, s.joystick.last_joystick_time ≠ 0 →
      s.joystick.last_joystick_time + 250 < 4294967296 →
      s.timer0.clockTicks + evs.count JoystickEvent.tick + 250 < 4294967296 →
      (∀ x ∈ (run_joystick_log evs s).1, x.2.1 ≠ CENTRE) →
      (∀ x ∈ (run_joystick_log evs s).1, x.2.2 ≠ 0 →
        s.joystick.last_joystick_time + 250 < x.1)
      ∧ (run_joystick_log evs s).1.Pairwise
          (fun a b => a.2.2 ≠ 0 → b.2.2 ≠ 0 → a.1 + 250 < b.1) := by
  induction evs with
  | nil =>
    intro s _ _ _ _
    exact ⟨fun x hx => absurd hx (List.not_mem_nil x), List.Pairwise.nil⟩
  | cons e evs ih =>
    intro s h0 hw hc hz
    cases e with
    | adc ADC =>
      rw [run_joystick_log_cons_adc] at hz ⊢
      rw [List.count_cons_of_ne (by simp)] at hc
      obtain ⟨ht, hj, -⟩ := ADC_vect_keeps ADC s
      have := ih (ADC_vect ADC s) (by rw [hj]; exact h0) (by rw [hj]; exact hw)
        (by rw [ht]; exact hc) hz
      rw [hj] at this
      exact this
    | tick =>
      rw [run_joystick_log_cons_tick] at hz ⊢
      rw [List.count_cons_self] at hc
      have hj := isr_joystick s
      have hclk : (TIMER0_COMPA_vect s).timer0.clockTicks = s.timer0.clockTicks + 1 := by
        rw [isr_clockTicks]
        omega
      have := ih (TIMER0_COMPA_vect s) (by rw [hj]; exact h0) (by rw [hj]; exact hw)
        (by rw [hclk]; omega) hz
      rw [hj] at this
      exact this
    | poll =>
      rw [run_joystick_log_cons_poll] at hz ⊢
      rw [List.count_cons_of_ne (by simp)] at hc
      have hzone : (get_current_zone s).1 ≠ CENTRE := hz _ (List.mem_cons_self _ _)
      have hz' : ∀ x ∈ (run_joystick_log evs (should_joystick_move s).2).1, x.2.1 ≠ CENTRE :=
        fun x hx => hz x (List.mem_cons_of_mem _ hx)
      have htm := (should_joystick_move_rest s).1
      have hmod : (s.joystick.last_joystick_time + Joystick.REPEAT_DELAY) % 4294967296
          = s.joystick.last_joystick_time + 250 := by
        simp only [Joystick.REPEAT_DELAY]
        omega
      by_cases hdue : s.timer0.clockTicks > s.joystick.last_joystick_time + 250
      · obtain ⟨hret, hj⟩ := should_joystick_move_due_off s h0 (by rw [hmod]; exact hdue) hzone
        have hT : (should_joystick_move s).2.joystick.last_joystick_time
            = s.timer0.clockTicks := by rw [hj]
        have := ih (should_joystick_move s).2 (by rw [hT]; omega) (by rw [hT]; omega)
          (by rw [htm]; exact hc) hz'
        rw [hT] at this
        refine ⟨?_, ?_⟩
        · intro x hx hr
          rcases List.mem_cons.1 hx with hx | hx
          · subst hx
            rw [get_clock_ticks_fst]
            exact hdue
          · have := this.1 x hx hr
            omega
        · refine List.Pairwise.cons ?_ this.2
          intro b hb _ hr
          rw [get_clock_ticks_fst]
          exact this.1 b hb hr
      · obtain ⟨hret, hj⟩ := should_joystick_move_idle s
          (by rw [hmod]; exact fun h => hdue h.2) (fun h => h0 h.1)
        have hT : (should_joystick_move s).2.joystick.last_joystick_time
            = s.joystick.last_joystick_time := by rw [hj]
        have := ih (should_joystick_move s).2 (by rw [hT]; exact h0) (by rw [hT]; exact hw)
          (by rw [htm]; exact hc) hz'
        rw [hT] at this
        refine ⟨?_, ?_⟩
        · intro x hx hr
          rcases List.mem_cons.1 hx with hx | hx
          · subst hx
            exact absurd hret hr
          · exact this.1 x hx hr
        · refine List.Pairwise.cons ?_ this.2
          intro b _ ha _
          exact absurd hret ha

/-- C17 fails as stated.  Held in the top left corner with a movement
signalled at tick 1000, a should_joystick_move call at tick 1250, a gap of
exactly 250, returns 0 and leaves the repeat time at 1000.  After a movement
signalled at tick 0 a call 300 ticks later returns 0, and after a movement
signalled at tick 2^32 - 300 a call 301 ticks later, when the clock has
wrapped to 1, returns 0. -/
theorem C17_gap_250_no_signal :
    (held_gap_250_state.joystick.last_joystick_time = 1000
      ∧ (get_clock_ticks held_gap_250_state).1 = 1000 + 250
      ∧ (get_current_zone held_gap_250_state).1 ≠ CENTRE
      ∧ (should_joystick_move held_gap_250_state).1 = 0
      ∧ (should_joystick_move held_gap_250_state).2.joystick.last_joystick_time = 1000)
    ∧ ((should_joystick_move tick_zero_push_state).1 = 1
      ∧ (get_clock_ticks tick_zero_push_state).1 = 0
      ∧ (should_joystick_move
          (TIMER0_COMPA_vect^[300] (should_joystick_move tick_zero_push_state).2)).1 = 0)
    ∧ ((should_joystick_move wrap_push_state).1 = 1
      ∧ (get_clock_ticks wrap_push_state).1 = 4294966996
      ∧ (should_joystick_move
          (TIMER0_COMPA_vect^[301] (should_joystick_move wrap_push_state).2)).1 = 0) := by
  refine ⟨by decide, ⟨by decide, by decide, ?_⟩, ⟨by decide, by decide, ?_⟩⟩
  · rw [should_joystick_move_later tick_zero_push_state 300 (by decide) (by decide)
      (by decide) (by decide)]
    decide
  · rw [should_joystick_move_later wrap_push_state 301 (by decide) (by decide)
      (by decide) (by decide)]
    decide

/-- C17, amended: with a movement signalled at a non-zero tick t (the stored
repeat time, t + 250 below 2^32) and the samples off centre, a
should_joystick_move call at a tick more than 250 after t returns 1, reports
the zone and re-arms the repeat time at that tick; a call at a tick at most
250 after t returns 0 and keeps the repeat time.  Over every sequence of
timer interrupts, conversions and calls in which every call sees an
off-centre zone and no tick wraps, every call that returns 1 is made more
than 250 ticks after t and any two of them are more than 250 ticks apart. -/
theorem C17_repeat_after_delay (s : Mcu) (evs : List JoystickEvent)
    (h0 : s.joystick.last_joystick_time ≠ 0)
    (hw : s.joystick.last_joystick_time + 250 < 4294967296) :
    ((get_current_zone s).1 ≠ CENTRE →
      (get_clock_ticks s).1 > s.joystick.last_joystick_time + 250 →
      (should_joystick_move s).1 = 1
      ∧ (get_last_joystick_movement_value (should_joystick_move s).2).1 = (get_current_zone s).1
      ∧ (should_joystick_move s).2.joystick.last_joystick_time = (get_clock_ticks s).1)
    ∧ ((get_current_zone s).1 ≠ CENTRE →
      (get_clock_ticks s).1 ≤ s.joystick.last_joystick_time + 250 →
      (should_joystick_move s).1 = 0
      ∧ (should_joystick_move s).2.joystick.last_joystick_time
          = s.joystick.last_joystick_time)
    ∧ (s.timer0.clockTicks + evs.count JoystickEvent.tick + 250 < 4294967296 →
      (∀ x ∈ (run_joystick_log evs s).1, x.2.1 ≠ CENTRE) →
      (∀ x ∈ (run_joystick_log evs s).1, x.2.2 ≠ 0 →
        s.joystick.last_joystick_time + 250 < x.1)
      ∧ (run_joystick_log evs s).1.Pairwise
          (fun a b => a.2.2 ≠ 0 → b.2.2 ≠ 0 → a.1 + 250 < b.1)) := by
  have hmod : (s.joystick.last_joystick_time + Joystick.REPEAT_DELAY) % 4294967296
      = s.joystick.last_joystick_time + 250 := by
    simp only [Joystick.REPEAT_DELAY]
    omega
  refine ⟨?_, ?_, ?_⟩
  · intro hz hc
    rw [get_clock_ticks_fst] at hc ⊢
    obtain ⟨hret, hj⟩ := should_joystick_move_due_off s h0 (by rw [hmod]; exact hc) hz
    refine ⟨hret, ?_, ?_⟩
    · show (should_joystick_move s).2.joystick.movement_value = _
      rw [hj]
    · rw [hj]
  · intro _ hc
    rw [get_clock_ticks_fst] at hc
    obtain ⟨hret, hj⟩ := should_joystick_move_idle s
      (by rw [hmod]; exact fun h => absurd h.2 (by omega)) (fun h => h0 h.1)
    refine ⟨hret, ?_⟩
    rw [hj]
  · intro hc hz
    exact run_joystick_log_held evs s h0 hw hc hz

theorem C17_repeat_after_delay_witness :
    (held_gap_250_state.joystick.last_joystick_time ≠ 0
      ∧ held_gap_250_state.joystick.last_joystick_time + 250 < 4294967296
      ∧ (get_current_zone held_gap_250_state).1 ≠ CENTRE
      ∧ (get_clock_ticks held_gap_250_state).1
          ≤ held_gap_250_state.joystick.last_joystick_time + 250
      ∧ (get_clock_ticks (TIMER0_COMPA_vect held_gap_250_state)).1
          > (TIMER0_COMPA_vect held_gap_250_state).joystick.last_joystick_time + 250)
    ∧ (should_joystick_move held_gap_250_state).1 = 0
    ∧ (should_joystick_move (TIMER0_COMPA_vect held_gap_250_state)).1 = 1
    ∧ (run_joystick_log [JoystickEvent.poll, JoystickEvent.tick, JoystickEvent.poll]
        held_gap_250_state).1.Pairwise
          (fun a b => a.2.2 ≠ 0 → b.2.2 ≠ 0 → a.1 + 250 < b.1) :=
  ⟨by decide,
   ((C17_repeat_after_delay held_gap_250_state [] (by decide) (by decide)).2.1
      (by decide) (by decide)).1,
   ((C17_repeat_after_delay (TIMER0_COMPA_vect held_gap_250_state) [] (by decide)
      (by decide)).1 (by decide) (by decide)).1,
   ((C17_repeat_after_delay held_gap_250_state
      [JoystickEvent.poll, JoystickEvent.tick, JoystickEvent.poll] (by decide) (by decide)).2.2
      (by decide) (by decide)).2⟩

/-- C18 fails as stated: back at the centre 100 ticks after a movement was
signalled at tick 1000, should_joystick_move returns 0 but leaves the repeat
time at 1000; when the samples then move to the top left corner the next
call at the same tick returns 0 as well. -/
theorem C18_early_centre_keeps_repeat :
    early_centre_state.joystick.last_joystick_time ≠ 0
    ∧ (get_current_zone early_centre_state).1 = CENTRE
    ∧ (should_joystick_move early_centre_state).1 = 0
    ∧ (should_joystick_move early_centre_state).2.joystick.last_joystick_time = 1000
    ∧ (get_current_zone
        (ADC_vect 900 (ADC_vect 100 (should_joystick_move early_centre_state).2))).1 = TOPLEFT
    ∧ (should_joystick_move
        (ADC_vect 900 (ADC_vect 100 (should_joystick_move early_centre_state).2))).1 = 0 := by
  decide

/-- C18, amended: a should_joystick_move call with a repeat scheduled and the
samples in the CENTRE zone always returns 0 with movement value CENTRE.  It
clears the repeat time when the current tick is past the repeat time plus
250 (modulo 2^32), and any state with that cleared repeat time and recorded
zone whose samples are off centre then gets 1 at once; when the current tick
is not past it, the repeat time keeps its value. -/
theorem C18_centre_clears_when_due (s : Mcu)
    (h0 : s.joystick.last_joystick_time ≠ 0) (hz : (get_current_zone s).1 = CENTRE) :
    (should_joystick_move s).1 = 0
    ∧ (get_last_joystick_movement_value (should_joystick_move s).2).1 = CENTRE
    ∧ ((get_clock_ticks s).1 > (s.joystick.last_joystick_time + 250) % 4294967296 →
      (should_joystick_move s).2.joystick.last_joystick_time = 0
      ∧ ∀ u : Mcu,
          u.joystick.last_joystick_time
            = (should_joystick_move s).2.joystick.last_joystick_time →
          u.joystick.last_joystick_zone
            = (should_joystick_move s).2.joystick.last_joystick_zone →
          (get_current_zone u).1 ≠ CENTRE →
          (should_joystick_move u).1 = 1
          ∧ (get_last_joystick_movement_value (should_joystick_move u).2).1
              = (get_current_zone u).1)
    ∧ ((get_clock_ticks s).1 ≤ (s.joystick.last_joystick_time + 250) % 4294967296 →
      (should_joystick_move s).2.joystick.last_joystick_time
        = s.joystick.last_joystick_time) := by
  have hC16 : ∀ t : Mcu, (get_current_zone t).1 = CENTRE →
      (should_joystick_move t).1 = 0
      ∧ (should_joystick_move t).2.joystick.movement_value = CENTRE := by
    intro t ht
    by_cases hdue : t.joystick.last_joystick_time ≠ 0
      ∧ t.timer0.clockTicks
          > (t.joystick.last_joystick_time + Joystick.REPEAT_DELAY) % 4294967296
    · obtain ⟨hret, hj⟩ := should_joystick_move_due_centre t hdue.1 hdue.2 ht
      exact ⟨hret, by rw [hj]⟩
    · obtain ⟨hret, hj⟩ := should_joystick_move_idle t hdue (fun h => h.2.2 ht)
      exact ⟨hret, by rw [hj]⟩
  refine ⟨(hC16 s hz).1, (hC16 s hz).2, ?_, ?_⟩
  · intro hc
    rw [get_clock_ticks_fst] at hc
    obtain ⟨-, hj⟩ := should_joystick_move_due_centre s h0 hc hz
    have hT : (should_joystick_move s).2.joystick.last_joystick_time = 0 := by rw [hj]
    have hZ : (should_joystick_move s).2.joystick.last_joystick_zone = CENTRE := by
      rw [hj]
      exact hz
    refine ⟨hT, ?_⟩
    intro u hut huz hzu
    rw [hT] at hut
    rw [hZ] at huz
    obtain ⟨hret, hju⟩ := should_joystick_move_fresh u hut huz hzu
    refine ⟨hret, ?_⟩
    show (should_joystick_move u).2.joystick.movement_value = _
    rw [hju]
  · intro hc
    rw [get_clock_ticks_fst] at hc
    obtain ⟨-, hj⟩ := should_joystick_move_idle s
      (fun h => absurd h.2 (by simp only [Joystick.REPEAT_DELAY]; omega)) (fun h => h0 h.1)
    rw [hj]

theorem C18_centre_clears_when_due_witness :
    (early_centre_state.joystick.last_joystick_time ≠ 0
      ∧ (get_current_zone early_centre_state).1 = CENTRE
      ∧ (get_clock_ticks early_centre_state).1
          ≤ (early_centre_state.joystick.last_joystick_time + 250) % 4294967296)
    ∧ (should_joystick_move early_centre_state).1 = 0
    ∧ (should_joystick_move early_centre_state).2.joystick.last_joystick_time
        = early_centre_state.joystick.last_joystick_time
    ∧ (late_centre_state.joystick.last_joystick_time ≠ 0
      ∧ (get_current_zone late_centre_state).1 = CENTRE
      ∧ (get_clock_ticks late_centre_state).1
          > (late_centre_state.joystick.last_joystick_time + 250)
              % 4294967296)
    ∧ (should_joystick_move late_centre_state).2.joystick.last_joystick_time = 0 :=
  ⟨by decide,
   (C18_centre_clears_when_due early_centre_state (by decide) (by decide)).1,
   (C18_centre_clears_when_due early_centre_state (by decide) (by decide)).2.2.2 (by decide),
   by decide,
   ((C18_centre_clears_when_due late_centre_state
      (by decide) (by decide)).2.2.1 (by decide)).1⟩

/-! ## Theorems: button repeat -/

theorem should_button_repeat_unscheduled (PINB : Nat) (s : Mcu)
    (h : s.buttons.button_repeat_time = 0) : should_button_repeat PINB s = (-1, s) := by
  simp only [should_button_repeat, if_pos h]

theorem should_button_repeat_case_spec (id : Int) (s : Mcu) :
    should_button_repeat_case id s
      = (id, { s with buttons := { s.buttons with
          button_repeat_time := (s.timer0.clockTicks + 150) % 4294967296 } }) := by
  simp only [should_button_repeat_case, get_clock_ticks_snd, get_clock_ticks_fst,
    Buttons.REPEAT_DELAY]

theorem should_button_repeat_fst (PINB : Nat) (s : Mcu)
    (h : s.buttons.button_repeat_time ≠ 0) :
    (should_button_repeat PINB s).1
      = if s.timer0.clockTicks > s.buttons.button_repeat_time
            ∧ PINB &&& 0x0F = s.buttons.last_button_state then
          if PINB &&& 0x0F = BUTTON_B0 then 0
          else if PINB &&& 0x0F = BUTTON_B1 then 1
          else if PINB &&& 0x0F = BUTTON_B2 then 2
          else if PINB &&& 0x0F = BUTTON_B3 then 3
          else -1
        else -1 := by
  simp only [should_button_repeat, if_neg h, cli, get_clock_ticks_snd, get_clock_ticks_fst,
    should_button_repeat_case_spec]
  split_ifs <;> rfl

theorem should_button_repeat_buttons (PINB : Nat) (s : Mcu)
    (h : s.buttons.button_repeat_time ≠ 0) :
    (should_button_repeat PINB s).2.buttons
      = if s.timer0.clockTicks > s.buttons.button_repeat_time
            ∧ PINB &&& 0x0F = s.buttons.last_button_state then
          if is_single_button (PINB &&& 0x0F) then
            { s.buttons with
              button_repeat_time := (s.timer0.clockTicks + 150) % 4294967296 }
          else { s.buttons with button_repeat_time := 0 }
        else if PINB &&& 0x0F ≠ s.buttons.last_button_state then
          { s.buttons with button_repeat_time := 0 }
        else s.buttons := by
  simp only [should_button_repeat, if_neg h, cli, get_clock_ticks_snd, get_clock_ticks_fst,
    should_button_repeat_case_spec, (restore_interrupts_fields _ _).2.2.1, is_single_button]
  split_ifs <;> first | rfl | (exfalso; tauto)

theorem should_button_repeat_rest (PINB : Nat) (s : Mcu) :
    (should_button_repeat PINB s).2.timer0 = s.timer0
    ∧ (should_button_repeat PINB s).2.SREG_I = s.SREG_I := by
  by_cases h : s.buttons.button_repeat_time = 0
  · rw [should_button_repeat_unscheduled PINB s h]
    exact ⟨rfl, rfl⟩
  · refine ⟨?_, ?_⟩
    · simp only [should_button_repeat, if_neg h, cli, get_clock_ticks_snd, get_clock_ticks_fst,
        should_button_repeat_case_spec, (restore_interrupts_fields _ _).2.1]
      split_ifs <;> rfl
    · simp only [should_button_repeat, if_neg h, cli, get_clock_ticks_snd, get_clock_ticks_fst,
        should_button_repeat_case_spec, (restore_interrupts_fields _ _).2.2.2.2]
      split_ifs <;> simp

theorem restore_interrupts_cli (s : Mcu) :
    (if s.SREG_I = true then sei (cli s) else cli s) = s := by
  unfold cli sei
  cases h : s.SREG_I <;> cases s <;> simp_all

theorem should_button_repeat_idle (PINB : Nat) (s : Mcu)
    (h : s.buttons.button_repeat_time ≠ 0)
    (hl : PINB &&& 0x0F = s.buttons.last_button_state)
    (hc : s.timer0.clockTicks ≤ s.buttons.button_repeat_time) :
    should_button_repeat PINB s = (-1, s) := by
  have hcl : (cli s).buttons = s.buttons := rfl
  have hct : (cli s).timer0 = s.timer0 := rfl
  simp only [should_button_repeat, if_neg h, get_clock_ticks_snd, get_clock_ticks_fst, hcl, hct]
  rw [if_neg (by omega), if_neg (by simpa using hl)]
  simp only [restore_interrupts_cli]

theorem button_chain_id (n : Nat) (hn : n < 4) :
    (if button_line_state n = BUTTON_B0 then (0 : Int)
      else if button_line_state n = BUTTON_B1 then 1
      else if button_line_state n = BUTTON_B2 then 2
      else if button_line_state n = BUTTON_B3 then 3
      else -1) = (n : Int)
    ∧ is_single_button (button_line_state n) := by
  have hc : n = 0 ∨ n = 1 ∨ n = 2 ∨ n = 3 := by omega
  rcases hc with hc | hc | hc | hc <;> subst hc <;> decide

theorem button_chain_single (p : Nat) (n : Nat)
    (h : (if p = BUTTON_B0 then (0 : Int)
      else if p = BUTTON_B1 then 1
      else if p = BUTTON_B2 then 2
      else if p = BUTTON_B3 then 3
      else -1) = (n : Int)) :
    n < 4 ∧ p = button_line_state n := by
  split_ifs at h with h0 h1 h2 h3
  · have : n = 0 := by omega
    subst this
    exact ⟨by decide, h0⟩
  · have : n = 1 := by omega
    subst this
    exact ⟨by decide, h1⟩
  · have : n = 2 := by omega
    subst this
    exact ⟨by decide, h2⟩
  · have : n = 3 := by omega
    subst this
    exact ⟨by decide, h3⟩

theorem should_button_repeat_due (PINB n : Nat) (s : Mcu)
    (h : s.buttons.button_repeat_time ≠ 0)
    (hl : PINB &&& 0x0F = s.buttons.last_button_state)
    (hn : n < 4) (hp : PINB &&& 0x0F = button_line_state n)
    (hc : s.timer0.clockTicks > s.buttons.button_repeat_time) :
    (should_button_repeat PINB s).1 = (n : Int)
    ∧ (should_button_repeat PINB s).2.buttons
        = { s.buttons with
            button_repeat_time := (s.timer0.clockTicks + 150) % 4294967296 } := by
  refine ⟨?_, ?_⟩
  · rw [should_button_repeat_fst PINB s h, if_pos ⟨hc, hl⟩, hp]
    exact (button_chain_id n hn).1
  · rw [should_button_repeat_buttons PINB s h, if_pos ⟨hc, hl⟩, hp,
      if_pos (button_chain_id n hn).2]

/-- C11 fails as stated: 150 ticks before the 32-bit clock wraps, with button
1 held and a repeat due, should_button_repeat returns 1 but sets the repeat
tick to 0, the value that means no repeat, not to the current tick plus
150. -/
theorem C11_reschedule_wraps :
    wrap_repeat_state.buttons.button_repeat_time ≠ 0
    ∧ 2 &&& 0x0F = wrap_repeat_state.buttons.last_button_state
    ∧ 2 &&& 0x0F = button_line_state 1
    ∧ (get_clock_ticks wrap_repeat_state).1 > wrap_repeat_state.buttons.button_repeat_time
    ∧ (should_button_repeat 2 wrap_repeat_state).1 = 1
    ∧ (should_button_repeat 2 wrap_repeat_state).2.buttons.button_repeat_time = 0
    ∧ (should_button_repeat 2 wrap_repeat_state).2.buttons.button_repeat_time
        ≠ (get_clock_ticks wrap_repeat_state).1 + 150 := by
  decide

/-- C11, amended: with no repeat scheduled should_button_repeat returns -1 and
changes nothing.  With a repeat scheduled, the raw line state equal to the
last observed state and equal to the single-button pattern of button n, and
the current tick strictly greater than the repeat tick, it returns n and sets
the repeat tick to the current tick plus 150 modulo 2^32 (the current tick
plus 150 when that is below 2^32).  With a repeat scheduled, the raw line
state equal to the last observed state and the current tick not past the
repeat tick, it returns -1 and changes nothing. -/
theorem C11_should_button_repeat (PINB : Nat) (s : Mcu) :
    (s.buttons.button_repeat_time = 0 → should_button_repeat PINB s = (-1, s))
    ∧ (∀ n : Nat, n < 4 → s.buttons.button_repeat_time ≠ 0 →
        PINB &&& 0x0F = s.buttons.last_button_state →
        PINB &&& 0x0F = button_line_state n →
        (get_clock_ticks s).1 > s.buttons.button_repeat_time →
        (should_button_repeat PINB s).1 = (n : Int)
        ∧ (should_button_repeat PINB s).2.buttons.button_repeat_time
            = ((get_clock_ticks s).1 + 150) % 4294967296
        ∧ ((get_clock_ticks s).1 + 150 < 4294967296 →
            (should_button_repeat PINB s).2.buttons.button_repeat_time
              = (get_clock_ticks s).1 + 150))
    ∧ (s.buttons.button_repeat_time ≠ 0 →
        PINB &&& 0x0F = s.buttons.last_button_state →
        (get_clock_ticks s).1 ≤ s.buttons.button_repeat_time →
        should_button_repeat PINB s = (-1, s)) := by
  refine ⟨should_button_repeat_unscheduled PINB s, ?_, ?_⟩
  · intro n hn h hl hp hc
    rw [get_clock_ticks_fst] at hc ⊢
    obtain ⟨hret, hb⟩ := should_button_repeat_due PINB n s h hl hn hp hc
    have hbrt : (should_button_repeat PINB s).2.buttons.button_repeat_time
        = (s.timer0.clockTicks + 150) % 4294967296 := by rw [hb]
    refine ⟨hret, hbrt, ?_⟩
    intro hlt
    rw [hbrt]
    exact Nat.mod_eq_of_lt hlt
  · intro h hl hc
    rw [get_clock_ticks_fst] at hc
    exact should_button_repeat_idle PINB s h hl hc

theorem C11_should_button_repeat_witness :
    (1 < 4 ∧ held_button_state.buttons.button_repeat_time ≠ 0
      ∧ 2 &&& 0x0F = held_button_state.buttons.last_button_state
      ∧ 2 &&& 0x0F = button_line_state 1
      ∧ (get_clock_ticks held_button_state).1 > held_button_state.buttons.button_repeat_time)
    ∧ (should_button_repeat 2 held_button_state).1 = ((1 : Nat) : Int)
    ∧ (should_button_repeat 2 held_button_state).2.buttons.button_repeat_time
        = ((get_clock_ticks held_button_state).1 + 150) % 4294967296
    ∧ should_button_repeat 2 reset_state = (-1, reset_state)
    ∧ (full_queue_state.buttons.button_repeat_time ≠ 0
      ∧ 4 &&& 0x0F = full_queue_state.buttons.last_button_state
      ∧ (get_clock_ticks full_queue_state).1 ≤ full_queue_state.buttons.button_repeat_time)
    ∧ should_button_repeat 4 full_queue_state = (-1, full_queue_state) :=
  ⟨by decide,
   ((C11_should_button_repeat 2 held_button_state).2.1 1 (by decide) (by decide) (by decide)
      (by decide) (by decide)).1,
   ((C11_should_button_repeat 2 held_button_state).2.1 1 (by decide) (by decide) (by decide)
      (by decide) (by decide)).2.1,
   (C11_should_button_repeat 2 reset_state).1 rfl,
   by decide,
   (C11_should_button_repeat 4 full_queue_state).2.2 (by decide) (by decide) (by decide)⟩

/-- C12 fails as stated: after the interrupt has seen the release with a full
queue, a repeat is still scheduled at tick 500 and the last observed state is
the no-button state; a should_button_repeat call at tick 400 that reads no
button returns -1 but leaves the repeat tick at 500. -/
theorem C12_not_cleared_before_due :
    (PCINT1_vect 0 full_queue_state).buttons.button_repeat_time = 500
    ∧ ¬ is_single_button (0 &&& 0x0F)
    ∧ 0 &&& 0x0F = (PCINT1_vect 0 full_queue_state).buttons.last_button_state
    ∧ (get_clock_ticks (PCINT1_vect 0 full_queue_state)).1 = 400
    ∧ (should_button_repeat 0 (PCINT1_vect 0 full_queue_state)).1 = -1
    ∧ (should_button_repeat 0
        (PCINT1_vect 0 full_queue_state)).2.buttons.button_repeat_time = 500
    ∧ (should_button_repeat 0
        (PCINT1_vect 0 full_queue_state)).2.buttons.button_repeat_time ≠ 0 := by
  decide

/-- C12, amended: when should_button_repeat is called with a repeat scheduled
and the raw line state is not a single-button pattern, or differs from the
last observed state, it returns -1.  It clears the repeat tick whenever the
raw line state differs from the last observed state and whenever the current
tick is past the repeat tick; when the raw line state equals the last
observed state and the current tick is not past the repeat tick, the repeat
tick keeps its value.  Whenever should_button_repeat returns a button id n,
n is below 4 and the raw line state is exactly the pattern of button n and
equals the last observed state. -/
theorem C12_repeat_cancelled (PINB : Nat) (s : Mcu) :
    (s.buttons.button_repeat_time ≠ 0 →
      (¬ is_single_button (PINB &&& 0x0F) ∨ PINB &&& 0x0F ≠ s.buttons.last_button_state) →
      (should_button_repeat PINB s).1 = -1
      ∧ (PINB &&& 0x0F ≠ s.buttons.last_button_state →
          (should_button_repeat PINB s).2.buttons.button_repeat_time = 0)
      ∧ ((get_clock_ticks s).1 > s.buttons.button_repeat_time →
          (should_button_repeat PINB s).2.buttons.button_repeat_time = 0)
      ∧ (PINB &&& 0x0F = s.buttons.last_button_state →
          (get_clock_ticks s).1 ≤ s.buttons.button_repeat_time →
          (should_button_repeat PINB s).2.buttons.button_repeat_time
            = s.buttons.button_repeat_time))
    ∧ (∀ n : Nat, (should_button_repeat PINB s).1 = (n : Int) →
        n < 4 ∧ PINB &&& 0x0F = button_line_state n
        ∧ PINB &&& 0x0F = s.buttons.last_button_state) := by
  refine ⟨?_, ?_⟩
  · intro h hns
    rw [get_clock_ticks_fst]
    have hb := should_button_repeat_buttons PINB s h
    refine ⟨?_, ?_, ?_, ?_⟩
    · rw [should_button_repeat_fst PINB s h]
      rcases hns with hns | hns
      · simp only [is_single_button, not_or] at hns
        obtain ⟨h0, h1, h2, h3⟩ := hns
        rw [if_neg h0, if_neg h1, if_neg h2, if_neg h3]
        split_ifs <;> rfl
      · rw [if_neg (fun hc => hns hc.2)]
    · intro hd
      rw [hb, if_neg (fun hc => hd hc.2), if_pos hd]
    · intro hc
      rw [hb]
      rcases hns with hns | hns
      · by_cases hl : PINB &&& 0x0F = s.buttons.last_button_state
        · rw [if_pos ⟨hc, hl⟩, if_neg hns]
        · rw [if_neg (fun hx => hl hx.2), if_pos hl]
      · rw [if_neg (fun hx => hns hx.2), if_pos hns]
    · intro hl hc
      rw [hb, if_neg (fun hx => absurd hx.1 (by omega)), if_neg (fun hx => hx hl)]
  · intro n hn
    by_cases h : s.buttons.button_repeat_time = 0
    · rw [should_button_repeat_unscheduled PINB s h] at hn
      simp only at hn
      omega
    · rw [should_button_repeat_fst PINB s h] at hn
      by_cases hc : s.timer0.clockTicks > s.buttons.button_repeat_time
          ∧ PINB &&& 0x0F = s.buttons.last_button_state
      · rw [if_pos hc] at hn
        obtain ⟨h4, hp⟩ := button_chain_single _ n hn
        exact ⟨h4, hp, hc.2⟩
      · rw [if_neg hc] at hn
        omega

theorem C12_repeat_cancelled_witness :
    (held_button_state.buttons.button_repeat_time ≠ 0
      ∧ (¬ is_single_button (3 &&& 0x0F)
          ∨ 3 &&& 0x0F ≠ held_button_state.buttons.last_button_state)
      ∧ 3 &&& 0x0F ≠ held_button_state.buttons.last_button_state)
    ∧ (should_button_repeat 3 held_button_state).1 = -1
    ∧ (should_button_repeat 3 held_button_state).2.buttons.button_repeat_time = 0
    ∧ ((should_button_repeat 2 held_button_state).1 = ((1 : Nat) : Int) →
        1 < 4 ∧ 2 &&& 0x0F = button_line_state 1
        ∧ 2 &&& 0x0F = held_button_state.buttons.last_button_state) :=
  ⟨by decide,
   ((C12_repeat_cancelled 3 held_button_state).1 (by decide) (by decide)).1,
   ((C12_repeat_cancelled 3 held_button_state).1 (by decide) (by decide)).2.1 (by decide),
   (C12_repeat_cancelled 2 held_button_state).2 1⟩

theorem button_pushed_keeps (s : Mcu) :
    (button_pushed s).2.timer0 = s.timer0
    ∧ (button_pushed s).2.buttons.button_repeat_time = s.buttons.button_repeat_time
    ∧ (button_pushed s).2.buttons.last_button_state = s.buttons.last_button_state := by
  simp only [button_pushed, cli, sei]
  split_ifs <;> exact ⟨rfl, rfl, rfl⟩

theorem activate_buttons_keeps (s : Mcu) :
    (activate_buttons s).timer0 = s.timer0
    ∧ (activate_buttons s).buttons.button_repeat_time = s.buttons.button_repeat_time
    ∧ (activate_buttons s).buttons.last_button_state = s.buttons.last_button_state := by
  simp only [activate_buttons, cli, sei]
  split_ifs <;> exact ⟨rfl, rfl, rfl⟩

theorem PCINT1_vect_room_not_single (PINB : Nat) (s : Mcu)
    (h : ¬ is_single_button (PINB &&& 0x0F)) (hroom : s.buttons.queue_length < 4) :
    (PCINT1_vect PINB s).buttons.button_repeat_time = 0 := by
  simp only [is_single_button, not_or] at h
  obtain ⟨h0, h1, h2, h3⟩ := h
  have hroom2 : s.buttons.queue_length < BUTTON_QUEUE_SIZE := by
    simpa [BUTTON_QUEUE_SIZE] using hroom
  simp only [PCINT1_vect, if_neg h0, if_neg h1, if_neg h2, if_neg h3, if_pos hroom2]

theorem run_buttons_log_snd (evs : List ButtonEvent) :
    ∀ s : Mcu, (run_buttons_log evs s).2 = run_buttons evs s := by
  induction evs with
  | nil => intro s; rfl
  | cons e evs ih =>
    intro s
    cases e <;> exact ih _

theorem run_buttons_log_cons_poll (PINB : Nat) (evs : List ButtonEvent) (s : Mcu) :
    (run_buttons_log (ButtonEvent.poll_repeat PINB :: evs) s).1
      = ((get_clock_ticks s).1, (should_button_repeat PINB s).1)
          :: (run_buttons_log evs (should_button_repeat PINB s).2).1 := rfl

theorem run_buttons_no_pcint_queue_length (evs : List ButtonEvent) :
    ∀ s : Mcu, (∀ e ∈ evs, e.is_not_pcint = true) → s.buttons.queue_length ≤ 1 →
      (run_buttons evs s).buttons.queue_length ≤ 1 := by
  induction evs with
  | nil => intro s _ h; exact h
  | cons e evs ih =>
    intro s he h
    have hrest : ∀ x ∈ evs, x.is_not_pcint = true := fun x hx => he x (List.mem_cons_of_mem _ hx)
    have hhead := he e (List.mem_cons_self _ _)
    refine ih (e.apply s) hrest ?_
    cases e with
    | pcint PINB => exact absurd hhead (by simp [ButtonEvent.is_not_pcint])
    | pushed =>
      show (button_pushed s).2.buttons.queue_length ≤ 1
      rw [button_pushed_queue_length]
      split_ifs <;> omega
    | activate =>
      show (activate_buttons s).buttons.queue_length ≤ 1
      rw [activate_buttons_queue_length]
      omega
    | poll_repeat PINB =>
      show (should_button_repeat PINB s).2.buttons.queue_length ≤ 1
      rw [(should_button_repeat_queue PINB s).1]
      exact h
    | tick =>
      show (TIMER0_COMPA_vect s).buttons.queue_length ≤ 1
      rw [isr_buttons]
      exact h

theorem run_buttons_log_silent (evs : List ButtonEvent) :
    ∀ s : Mcu, (∀ e ∈ evs, e.is_not_pcint = true) → s.buttons.button_repeat_time = 0 →
      ∀ x ∈ (run_buttons_log evs s).1, x.2 = -1 := by
  induction evs with
  | nil =>
    intro s _ _ x hx
    exact absurd hx (List.not_mem_nil x)
  | cons e evs ih =>
    intro s he h
    have hrest : ∀ x ∈ evs, x.is_not_pcint = true := fun x hx => he x (List.mem_cons_of_mem _ hx)
    have hhead := he e (List.mem_cons_self _ _)
    cases e with
    | pcint PINB => exact absurd hhead (by simp [ButtonEvent.is_not_pcint])
    | pushed =>
      exact ih (button_pushed s).2 hrest (by rw [(button_pushed_keeps s).2.1]; exact h)
    | activate =>
      exact ih (activate_buttons s) hrest (by rw [(activate_buttons_keeps s).2.1]; exact h)
    | poll_repeat PINB =>
      intro x hx
      rw [run_buttons_log_cons_poll, should_button_repeat_unscheduled PINB s h] at hx
      rcases List.mem_cons.1 hx with hx | hx
      · subst hx
        rfl
      · exact ih s hrest h x hx
    | tick =>
      exact ih (TIMER0_COMPA_vect s) hrest (by rw [isr_buttons]; exact h)

theorem run_buttons_log_held (n : Nat) (hn : n < 4) (evs : List ButtonEvent) :
    ∀ s : Mcu, (∀ e ∈ evs, e.is_hold (button_line_state n) = true) →
      s.buttons.last_button_state = button_line_state n →
      s.timer0.clockTicks + evs.count ButtonEvent.tick + 150 < 4294967296 →
      (∀ x ∈ (run_buttons_log evs s).1,
        x.2 = -1 ∨ (x.2 = (n : Int) ∧ s.buttons.button_repeat_time < x.1))
      ∧ (run_buttons_log evs s).1.Pairwise
          (fun a b => a.2 ≠ -1 → b.2 ≠ -1 → a.1 + 150 < b.1) := by
  induction evs with
  | nil =>
    intro s _ _ _
    exact ⟨fun x hx => absurd hx (List.not_mem_nil x), List.Pairwise.nil⟩
  | cons e evs ih =>
    intro s he hl hc
    have hrest : ∀ x ∈ evs, x.is_hold (button_line_state n) = true :=
      fun x hx => he x (List.mem_cons_of_mem _ hx)
    have hhead := he e (List.mem_cons_self _ _)
    cases e with
    | pcint PINB => exact absurd hhead (by simp [ButtonEvent.is_hold])
    | activate => exact absurd hhead (by simp [ButtonEvent.is_hold])
    | pushed =>
      rw [List.count_cons_of_ne (by simp)] at hc
      obtain ⟨ht, hb, hls⟩ := button_pushed_keeps s
      have := ih (button_pushed s).2 hrest (by rw [hls]; exact hl) (by rw [ht]; exact hc)
      rw [hb] at this
      exact this
    | tick =>
      rw [List.count_cons_self] at hc
      have hclk : (TIMER0_COMPA_vect s).timer0.clockTicks = s.timer0.clockTicks + 1 := by
        rw [isr_clockTicks]
        omega
      have := ih (TIMER0_COMPA_vect s) hrest (by rw [isr_buttons]; exact hl)
        (by rw [hclk]; omega)
      rw [isr_buttons] at this
      exact this
    | poll_repeat PINB =>
      rw [List.count_cons_of_ne (by simp)] at hc
      rw [run_buttons_log_cons_poll]
      have hp : PINB &&& 0x0F = button_line_state n := by
        simpa [ButtonEvent.is_hold] using hhead
      have hpl : PINB &&& 0x0F = s.buttons.last_button_state := by rw [hp, hl]
      have htm := (should_button_repeat_rest PINB s).1
      by_cases hdue : s.buttons.button_repeat_time ≠ 0
          ∧ s.timer0.clockTicks > s.buttons.button_repeat_time
      · obtain ⟨hret, hb⟩ := should_button_repeat_due PINB n s hdue.1 hpl hn hp hdue.2
        have hB : (should_button_repeat PINB s).2.buttons.button_repeat_time
            = s.timer0.clockTicks + 150 := by
          rw [hb]
          exact Nat.mod_eq_of_lt (by omega)
        have hL : (should_button_repeat PINB s).2.buttons.last_button_state
            = button_line_state n := by rw [hb]; exact hl
        have := ih (should_button_repeat PINB s).2 hrest hL (by rw [htm]; exact hc)
        rw [hB] at this
        refine ⟨?_, ?_⟩
        · intro x hx
          rcases List.mem_cons.1 hx with hx | hx
          · subst hx
            right
            rw [get_clock_ticks_fst]
            exact ⟨hret, hdue.2⟩
          · rcases this.1 x hx with h1 | h1
            · exact Or.inl h1
            · exact Or.inr ⟨h1.1, by omega⟩
        · refine List.Pairwise.cons ?_ this.2
          intro b hb2 _ hr
          rw [get_clock_ticks_fst]
          rcases this.1 b hb2 with h1 | h1
          · exact absurd h1 hr
          · exact h1.2
      · have hsame : should_button_repeat PINB s = (-1, s) := by
          by_cases h0 : s.buttons.button_repeat_time = 0
          · exact should_button_repeat_unscheduled PINB s h0
          · exact should_button_repeat_idle PINB s h0 hpl
              (by have := fun h => hdue ⟨h0, h⟩; omega)
        rw [hsame]
        have := ih s hrest hl hc
        refine ⟨?_, ?_⟩
        · intro x hx
          rcases List.mem_cons.1 hx with hx | hx
          · subst hx
            exact Or.inl rfl
          · exact this.1 x hx
        · refine List.Pairwise.cons ?_ this.2
          intro b _ ha _
          exact absurd rfl ha

theorem PCINT1_vect_timer0 (PINB : Nat) (s : Mcu) :
    (PCINT1_vect PINB s).timer0 = s.timer0 := by
  simp only [PCINT1_vect, PCINT1_vect_case, get_clock_ticks_snd]
  split_ifs <;> rfl

/-- C13: timing law for a held button, with no tick wrap-around (neither the
clock nor a scheduled repeat tick reaches 2^32).  From an empty queue with no
repeat scheduled, let the interrupt observe the single-button pattern of
button n at tick t0, and let the line state then stay unchanged while timer
interrupts, button_pushed calls and should_button_repeat calls follow in any
order.  Exactly one press, n, is queued and the queue never holds more than
one entry; every should_button_repeat call at a tick up to t0 + 300 returns
-1; every call returns -1 or n; any two calls that return n are more than
150 ticks apart.  Once the interrupt observes the no-button state, every
later should_button_repeat call returns -1, whatever it reads, until the pin
change interrupt fires again. -/
theorem C13_held_button_timing (s : Mcu) (n PINB PINB_release : Nat)
    (hold later : List ButtonEvent)
    (hq : s.buttons.queue_length = 0) (_hr : s.buttons.button_repeat_time = 0)
    (hn : n < 4) (hp : PINB &&& 0x0F = button_line_state n)
    (hhold : ∀ e ∈ hold, e.is_hold (PINB &&& 0x0F) = true)
    (hw1 : (get_clock_ticks s).1 + 300 < 4294967296)
    (hw2 : (get_clock_ticks s).1 + hold.count ButtonEvent.tick + 150 < 4294967296)
    (hrel : PINB_release &&& 0x0F = 0)
    (hlater : ∀ e ∈ later, e.is_not_pcint = true) :
    button_queue_contents (PCINT1_vect PINB s) = [n]
    ∧ (run_buttons_log hold (PCINT1_vect PINB s)).2.buttons.queue_length ≤ 1
    ∧ (∀ x ∈ (run_buttons_log hold (PCINT1_vect PINB s)).1,
        x.1 ≤ (get_clock_ticks s).1 + 300 → x.2 = -1)
    ∧ (∀ x ∈ (run_buttons_log hold (PCINT1_vect PINB s)).1, x.2 = -1 ∨ x.2 = (n : Int))
    ∧ (run_buttons_log hold (PCINT1_vect PINB s)).1.Pairwise
        (fun a b => a.2 ≠ -1 → b.2 ≠ -1 → a.1 + 150 < b.1)
    ∧ (∀ x ∈ (run_buttons_log later
          (PCINT1_vect PINB_release (run_buttons_log hold (PCINT1_vect PINB s)).2)).1,
        x.2 = -1) := by
  rw [get_clock_ticks_fst] at hw1 hw2
  rw [get_clock_ticks_fst]
  have hstep := PCINT1_vect_single PINB n s (by omega) hn hp
  have hcont : button_queue_contents (PCINT1_vect PINB s) = [n] := by
    rw [hstep]
    have := PCINT1_vect_case_contents n s (by omega) (by omega)
    have hempty : button_queue_contents s = [] := by
      simp [button_queue_contents, hq]
    rw [hempty, List.nil_append] at this
    exact this
  have hql : (PCINT1_vect PINB s).buttons.queue_length = 1 := by
    rw [hstep]
    have := PCINT1_vect_case_queue_length n s
    rw [hq] at this
    exact this
  have hbrt : (PCINT1_vect PINB s).buttons.button_repeat_time = s.timer0.clockTicks + 300 := by
    rw [hstep]
    have := PCINT1_vect_case_repeat_time n s
    rw [get_clock_ticks_fst] at this
    simp only [INIT_DELAY] at this
    rw [Nat.mod_eq_of_lt hw1] at this
    exact this
  have hlast : (PCINT1_vect PINB s).buttons.last_button_state = button_line_state n := by
    rw [PCINT1_vect_last_button_state, hp]
  have htm := PCINT1_vect_timer0 PINB s
  rw [hp] at hhold
  have hnp : ∀ e ∈ hold, e.is_not_pcint = true := by
    intro e he
    have := hhold e he
    cases e <;> simp_all [ButtonEvent.is_hold, ButtonEvent.is_not_pcint]
  have hlog := run_buttons_log_held n hn hold (PCINT1_vect PINB s) hhold hlast
    (by rw [htm]; exact hw2)
  rw [hbrt] at hlog
  have hqend : (run_buttons_log hold (PCINT1_vect PINB s)).2.buttons.queue_length ≤ 1 := by
    rw [run_buttons_log_snd]
    exact run_buttons_no_pcint_queue_length hold _ hnp (by rw [hql])
  refine ⟨hcont, hqend, ?_, ?_, hlog.2, ?_⟩
  · intro x hx hle
    rcases hlog.1 x hx with h1 | h1
    · exact h1
    · omega
  · intro x hx
    rcases hlog.1 x hx with h1 | h1
    · exact Or.inl h1
    · exact Or.inr h1.1
  · apply run_buttons_log_silent later _ hlater
    apply PCINT1_vect_room_not_single
    · rw [hrel]
      decide
    · omega

theorem C13_held_button_timing_witness :
    (reset_state.buttons.queue_length = 0 ∧ reset_state.buttons.button_repeat_time = 0
      ∧ 1 < 4 ∧ 2 &&& 0x0F = button_line_state 1
      ∧ (∀ e ∈ hold_events, e.is_hold (2 &&& 0x0F) = true)
      ∧ (get_clock_ticks reset_state).1 + 300 < 4294967296
      ∧ (get_clock_ticks reset_state).1 + hold_events.count ButtonEvent.tick + 150
          < 4294967296
      ∧ 0 &&& 0x0F = 0
      ∧ (∀ e ∈ later_events, e.is_not_pcint = true))
    ∧ button_queue_contents (PCINT1_vect 2 reset_state) = [1]
    ∧ (run_buttons_log hold_events (PCINT1_vect 2 reset_state)).1.Pairwise
        (fun a b => a.2 ≠ -1 → b.2 ≠ -1 → a.1 + 150 < b.1)
    ∧ (∀ x ∈ (run_buttons_log later_events
          (PCINT1_vect 0 (run_buttons_log hold_events (PCINT1_vect 2 reset_state)).2)).1,
        x.2 = -1) :=
  ⟨by decide,
   (C13_held_button_timing reset_state 1 2 0 hold_events later_events rfl rfl (by decide)
      (by decide) (by decide) (by decide) (by decide) (by decide) (by decide)).1,
   (C13_held_button_timing reset_state 1 2 0 hold_events later_events rfl rfl (by decide)
      (by decide) (by decide) (by decide) (by decide) (by decide) (by decide)).2.2.2.2.1,
   (C13_held_button_timing reset_state 1 2 0 hold_events later_events rfl rfl (by decide)
      (by decide) (by decide) (by decide) (by decide) (by decide) (by decide)).2.2.2.2.2⟩

/-! ## Theorems: sound service -/

theorem isr_sound (s : Mcu) : (TIMER0_COMPA_vect s).sound = s.sound := by
  simp only [TIMER0_COMPA_vect, TIMER0_COMPA_vect_display, TIMER0_COMPA_vect_count]
  split_ifs <;> rfl

theorem play_sound_rejected (frequency time : Nat) (s : Mcu)
    (h : ¬ (150 ≤ frequency ∧ frequency ≤ 1000 ∧ s.sound.queue_length < 6)) :
    play_sound frequency time s = s := by
  simp only [play_sound, FREQ_MIN, FREQ_MAX, SOUND_QUEUE_SIZE]
  rw [if_pos]
  by_contra hc
  apply h
  simp only [not_or, not_lt, ge_iff_le, not_le] at hc
  exact ⟨hc.1, hc.2.1, by simpa using hc.2.2⟩

theorem play_sound_accepted (frequency time : Nat) (s : Mcu)
    (h : 150 ≤ frequency ∧ frequency ≤ 1000 ∧ s.sound.queue_length < 6) :
    play_sound frequency time s
      = { s with sound := { s.sound with
          sound_frequencies_queue :=
            arr_set s.sound.sound_frequencies_queue s.sound.queue_length frequency
          sound_times_queue := arr_set s.sound.sound_times_queue s.sound.queue_length time
          queue_length := s.sound.queue_length + 1 } } := by
  simp only [play_sound, FREQ_MIN, FREQ_MAX, SOUND_QUEUE_SIZE]
  rw [if_neg]
  simp only [not_or, not_lt, ge_iff_le, not_le]
  exact ⟨h.1, h.2.1, by simpa using h.2.2⟩

theorem play_sound_accepted_contents (frequency time : Nat) (s : Mcu)
    (h0 : 0 ≤ s.sound.queue_length)
    (h : 150 ≤ frequency ∧ frequency ≤ 1000 ∧ s.sound.queue_length < 6) :
    sound_queue_contents (play_sound frequency time s)
      = sound_queue_contents s ++ [(frequency, time)] := by
  rw [play_sound_accepted frequency time s h]
  simp only [sound_queue_contents]
  have hc : s.sound.queue_length = 0 ∨ s.sound.queue_length = 1
      ∨ s.sound.queue_length = 2 ∨ s.sound.queue_length = 3
      ∨ s.sound.queue_length = 4 ∨ s.sound.queue_length = 5 := by omega
  rcases hc with hc | hc | hc | hc | hc | hc <;> rw [hc] <;>
    simp [List.range_succ, arr_get, arr_set]

theorem sound_queue_contents_length (s : Mcu) :
    (sound_queue_contents s).length = s.sound.queue_length.toNat := by
  simp [sound_queue_contents]

theorem play_sound_queue_length_bounds (frequency time : Nat) (s : Mcu)
    (h : 0 ≤ s.sound.queue_length ∧ s.sound.queue_length ≤ 6) :
    0 ≤ (play_sound frequency time s).sound.queue_length
    ∧ (play_sound frequency time s).sound.queue_length ≤ 6 := by
  by_cases ha : 150 ≤ frequency ∧ frequency ≤ 1000 ∧ s.sound.queue_length < 6
  · rw [play_sound_accepted frequency time s ha]
    show 0 ≤ s.sound.queue_length + 1 ∧ s.sound.queue_length + 1 ≤ 6
    omega
  · rw [play_sound_rejected frequency time s ha]
    exact h

theorem start_next_sound_queue_length (s : Mcu) :
    (start_next_sound s).sound.queue_length = s.sound.queue_length - 1 := by
  simp only [start_next_sound, start_toggling, get_clock_ticks_snd]

theorem TIMER1_COMPA_vect_queue_length (PIND : Nat) (s : Mcu) :
    (TIMER1_COMPA_vect PIND s).sound.queue_length = 0
    ∨ (TIMER1_COMPA_vect PIND s).sound.queue_length = s.sound.queue_length
    ∨ (s.sound.queue_length ≠ 0
      ∧ (TIMER1_COMPA_vect PIND s).sound.queue_length = s.sound.queue_length - 1) := by
  simp only [TIMER1_COMPA_vect, is_sound_on, get_clock_ticks_snd, get_clock_ticks_fst,
    stop_toggling]
  split_ifs with h1 h2 h3
  · exact Or.inl rfl
  · exact Or.inr (Or.inr ⟨h3, start_next_sound_queue_length s⟩)
  · exact Or.inr (Or.inl rfl)
  · exact Or.inr (Or.inl rfl)

theorem sound_event_queue_length_bounds (e : SoundEvent) (s : Mcu)
    (h : 0 ≤ s.sound.queue_length ∧ s.sound.queue_length ≤ 6) :
    0 ≤ (e.apply s).sound.queue_length ∧ (e.apply s).sound.queue_length ≤ 6 := by
  cases e with
  | play frequency time => exact play_sound_queue_length_bounds frequency time s h
  | quiet frequency time =>
    show 0 ≤ (play_quiet_sound frequency time s).sound.queue_length
      ∧ (play_quiet_sound frequency time s).sound.queue_length ≤ 6
    simp only [play_quiet_sound]
    split_ifs
    · exact h
    · exact play_sound_queue_length_bounds frequency time s h
  | clear =>
    show 0 ≤ (clear_sounds s).sound.queue_length ∧ (clear_sounds s).sound.queue_length ≤ 6
    simp [clear_sounds]
  | tone PIND =>
    show 0 ≤ (TIMER1_COMPA_vect PIND s).sound.queue_length
      ∧ (TIMER1_COMPA_vect PIND s).sound.queue_length ≤ 6
    rcases TIMER1_COMPA_vect_queue_length PIND s with h1 | h1 | h1
    · omega
    · omega
    · omega
  | tick =>
    show 0 ≤ (TIMER0_COMPA_vect s).sound.queue_length
      ∧ (TIMER0_COMPA_vect s).sound.queue_length ≤ 6
    rw [isr_sound]
    exact h

theorem run_sound_queue_length_bounds (evs : List SoundEvent) :
    ∀ s : Mcu, 0 ≤ s.sound.queue_length ∧ s.sound.queue_length ≤ 6 →
      0 ≤ (run_sound evs s).sound.queue_length ∧ (run_sound evs s).sound.queue_length ≤ 6 := by
  induction evs with
  | nil => intro s h; exact h
  | cons e evs ih =>
    intro s h
    exact ih (e.apply s) (sound_event_queue_length_bounds e s h)

theorem init_buzzer_queue_length (s : Mcu) : (init_buzzer s).sound.queue_length = 0 := by
  simp only [init_buzzer, cli, (restore_interrupts_fields _ _).2.2.2.1]

/-- C19: with a queue length of at least 0, play_sound changes the sound
queue exactly when 150 ≤ frequency ≤ 1000 and the queue holds fewer than 6
entries.  In that case the pair (frequency, time) is appended at the tail,
the earlier entries stay and the length grows by one; otherwise the whole
state, so the queue contents and length, is unchanged.  In every state
reached from init_buzzer by play_sound, play_quiet_sound and clear_sounds
calls, tone interrupts and timer interrupts the queue length lies between 0
and 6. -/
theorem C19_play_sound (frequency time : Nat) (s : Mcu) (h0 : 0 ≤ s.sound.queue_length) :
    ((150 ≤ frequency ∧ frequency ≤ 1000 ∧ s.sound.queue_length < 6) →
      sound_queue_contents (play_sound frequency time s)
        = sound_queue_contents s ++ [(frequency, time)]
      ∧ (play_sound frequency time s).sound.queue_length = s.sound.queue_length + 1)
    ∧ (¬ (150 ≤ frequency ∧ frequency ≤ 1000 ∧ s.sound.queue_length < 6) →
      play_sound frequency time s = s)
    ∧ (sound_queue_contents (play_sound frequency time s) ≠ sound_queue_contents s
      ↔ (150 ≤ frequency ∧ frequency ≤ 1000 ∧ s.sound.queue_length < 6))
    ∧ (∀ (u : Mcu) (evs : List SoundEvent),
      0 ≤ (run_sound evs (init_buzzer u)).sound.queue_length
      ∧ (run_sound evs (init_buzzer u)).sound.queue_length ≤ 6) := by
  refine ⟨?_, play_sound_rejected frequency time s, ?_, ?_⟩
  · intro h
    refine ⟨play_sound_accepted_contents frequency time s h0 h, ?_⟩
    rw [play_sound_accepted frequency time s h]
  · constructor
    · intro hne
      by_contra hna
      rw [play_sound_rejected frequency time s hna] at hne
      exact hne rfl
    · intro h heq
      have hlen := congrArg List.length heq
      rw [play_sound_accepted_contents frequency time s h0 h] at hlen
      simp at hlen
  · intro u evs
    apply run_sound_queue_length_bounds
    rw [init_buzzer_queue_length]
    omega

theorem C19_play_sound_witness :
    (0 ≤ three_tones_state.sound.queue_length
      ∧ (150 ≤ 988 ∧ 988 ≤ 1000 ∧ three_tones_state.sound.queue_length < 6)
      ∧ 0 ≤ full_sound_state.sound.queue_length
      ∧ ¬ (150 ≤ 988 ∧ 988 ≤ 1000 ∧ full_sound_state.sound.queue_length < 6)
      ∧ ¬ (150 ≤ 1047 ∧ 1047 ≤ 1000 ∧ three_tones_state.sound.queue_length < 6))
    ∧ sound_queue_contents (play_sound 988 40 three_tones_state)
        = sound_queue_contents three_tones_state ++ [(988, 40)]
    ∧ play_sound 988 40 full_sound_state = full_sound_state
    ∧ play_sound 1047 40 three_tones_state = three_tones_state
    ∧ (run_sound sound_burst_events (init_buzzer reset_state)).sound.queue_length ≤ 6 :=
  ⟨by decide,
   ((C19_play_sound 988 40 three_tones_state (by decide)).1 (by decide)).1,
   (C19_play_sound 988 40 full_sound_state (by decide)).2.1 (by decide),
   (C19_play_sound 1047 40 three_tones_state (by decide)).2.1 (by decide),
   ((C19_play_sound 988 40 three_tones_state (by decide)).2.2.2 reset_state
      sound_burst_events).2⟩

/-- C20: play_quiet_sound leaves the whole state, so the sound queue,
unchanged whenever the queue is non-empty at the call, and equals play_sound
with the same arguments when the queue is empty; is_playing_sound returns a
non-zero value exactly when the queue is non-empty, and changes nothing. -/
theorem C20_play_quiet_sound (frequency time : Nat) (s : Mcu) :
    (s.sound.queue_length > 0 → play_quiet_sound frequency time s = s)
    ∧ (s.sound.queue_length > 0 →
      sound_queue_contents (play_quiet_sound frequency time s) = sound_queue_contents s)
    ∧ (s.sound.queue_length = 0 →
      play_quiet_sound frequency time s = play_sound frequency time s)
    ∧ ((is_playing_sound s).1 ≠ 0 ↔ s.sound.queue_length > 0)
    ∧ ((is_playing_sound s).1 ≠ 0 ↔ sound_queue_contents s ≠ [])
    ∧ (is_playing_sound s).2 = s := by
  have hq : s.sound.queue_length > 0 → play_quiet_sound frequency time s = s := by
    intro h
    simp only [play_quiet_sound, if_pos h]
  have hp : (is_playing_sound s).1 ≠ 0 ↔ s.sound.queue_length > 0 := by
    simp only [is_playing_sound]
    split_ifs with h <;> simp [h]
  refine ⟨hq, ?_, ?_, hp, ?_, rfl⟩
  · intro h
    rw [hq h]
  · intro h
    simp only [play_quiet_sound]
    rw [if_neg (by omega)]
  · rw [hp]
    constructor
    · intro h hc
      have := sound_queue_contents_length s
      rw [hc] at this
      simp only [List.length_nil] at this
      omega
    · intro h
      by_contra hc
      apply h
      have hlen := sound_queue_contents_length s
      have hz : s.sound.queue_length.toNat = 0 := by omega
      rw [hz] at hlen
      exact List.eq_nil_of_length_eq_zero hlen

theorem C20_play_quiet_sound_witness :
    (three_tones_state.sound.queue_length > 0 ∧ reset_state.sound.queue_length = 0)
    ∧ play_quiet_sound 440 5 three_tones_state = three_tones_state
    ∧ play_quiet_sound 440 5 reset_state = play_sound 440 5 reset_state
    ∧ ((is_playing_sound three_tones_state).1 ≠ 0
        ↔ three_tones_state.sound.queue_length > 0) :=
  ⟨by decide,
   (C20_play_quiet_sound 440 5 three_tones_state).1 (by decide),
   (C20_play_quiet_sound 440 5 reset_state).2.2.1 rfl,
   (C20_play_quiet_sound 440 5 three_tones_state).2.2.2.1⟩

theorem toUInt32_toInt32 (v : Nat) : toUInt32 (toInt32 v) = v % 4294967296 := by
  simp only [toUInt32, toInt32]
  split_ifs <;> omega

theorem sound_queue_contents_congr (s t : Mcu) (h : t.sound = s.sound) :
    sound_queue_contents t = sound_queue_contents s := by
  simp only [sound_queue_contents, h]

theorem clear_sounds_contents (s : Mcu) : sound_queue_contents (clear_sounds s) = [] := rfl

theorem start_next_sound_fields (s : Mcu) :
    (start_next_sound s).OCR1A = get_OCRB_value (arr_get s.sound.sound_frequencies_queue 0)
    ∧ (start_next_sound s).TCNT1 = 0
    ∧ (start_next_sound s).TCCR1A_COM1A0 = true
    ∧ (start_next_sound s).sound.stop_time
        = toInt32 ((s.timer0.clockTicks + 10 * arr_get s.sound.sound_times_queue 0)
            % 4294967296)
    ∧ (start_next_sound s).sound.sound_frequencies_queue
        = (start_next_sound_loop s.sound.queue_length
            (s.sound.sound_frequencies_queue, s.sound.sound_times_queue)).1
    ∧ (start_next_sound s).sound.sound_times_queue
        = (start_next_sound_loop s.sound.queue_length
            (s.sound.sound_frequencies_queue, s.sound.sound_times_queue)).2
    ∧ (start_next_sound s).timer0 = s.timer0 := by
  simp only [start_next_sound, start_toggling, get_clock_ticks_snd, get_clock_ticks_fst,
    and_self]

theorem start_next_sound_contents (s : Mcu)
    (h0 : 0 < s.sound.queue_length) (h6 : s.sound.queue_length ≤ 6) :
    sound_queue_contents (start_next_sound s) = (sound_queue_contents s).tail := by
  obtain ⟨-, -, -, -, hf, ht, -⟩ := start_next_sound_fields s
  simp only [sound_queue_contents]
  rw [start_next_sound_queue_length, hf, ht]
  have hc : s.sound.queue_length = 1 ∨ s.sound.queue_length = 2
      ∨ s.sound.queue_length = 3 ∨ s.sound.queue_length = 4
      ∨ s.sound.queue_length = 5 ∨ s.sound.queue_length = 6 := by omega
  rcases hc with hc | hc | hc | hc | hc | hc <;> rw [hc] <;>
    simp [start_next_sound_loop, List.range_succ, List.range', arr_get, arr_set]

theorem sound_queue_contents_cons (s : Mcu) (h0 : 0 < s.sound.queue_length) :
    sound_queue_contents s
      = (arr_get s.sound.sound_frequencies_queue 0, arr_get s.sound.sound_times_queue 0)
          :: (sound_queue_contents s).tail := by
  obtain ⟨n, hn⟩ : ∃ n, s.sound.queue_length.toNat = n + 1 :=
    ⟨s.sound.queue_length.toNat - 1, by omega⟩
  simp only [sound_queue_contents, hn, List.range_succ_eq_map, List.map_cons, List.tail_cons]
  simp

theorem TIMER1_COMPA_vect_unmuted (PIND : Nat) (s : Mcu)
    (hon : (PIND &&& (1 <<< 3)) % 256 ≠ 0) :
    TIMER1_COMPA_vect PIND s
      = if s.timer0.clockTicks > toUInt32 s.sound.stop_time then
          if s.sound.queue_length ≠ 0 then start_next_sound s else stop_toggling s
        else s := by
  simp only [TIMER1_COMPA_vect, is_sound_on, get_clock_ticks_snd, get_clock_ticks_fst]
  rw [if_neg hon]

theorem TIMER1_COMPA_vect_muted (PIND : Nat) (s : Mcu)
    (hoff : (PIND &&& (1 <<< 3)) % 256 = 0) :
    (TIMER1_COMPA_vect PIND s).sound.queue_length = 0
    ∧ (TIMER1_COMPA_vect PIND s).TCCR1A_COM1A0 = false := by
  simp only [TIMER1_COMPA_vect, is_sound_on]
  rw [if_pos hoff]
  exact ⟨rfl, rfl⟩

theorem isr_timer1 (s : Mcu) :
    (TIMER0_COMPA_vect s).TCCR1A_COM1A0 = s.TCCR1A_COM1A0
    ∧ (TIMER0_COMPA_vect s).OCR1A = s.OCR1A := by
  simp only [TIMER0_COMPA_vect, TIMER0_COMPA_vect_display, TIMER0_COMPA_vect_count]
  split_ifs <;> exact ⟨rfl, rfl⟩

theorem run_sound_log_cons_play (frequency time : Nat) (evs : List SoundEvent) (s : Mcu) :
    run_sound_log (SoundEvent.play frequency time :: evs) s
      = (if (play_sound frequency time s).sound.queue_length ≠ s.sound.queue_length
          then (frequency, time) :: (run_sound_log evs (play_sound frequency time s)).1
          else (run_sound_log evs (play_sound frequency time s)).1,
         (run_sound_log evs (play_sound frequency time s)).2.1,
         (run_sound_log evs (play_sound frequency time s)).2.2) := rfl

theorem run_sound_log_cons_quiet (frequency time : Nat) (evs : List SoundEvent) (s : Mcu) :
    run_sound_log (SoundEvent.quiet frequency time :: evs) s
      = (if (play_quiet_sound frequency time s).sound.queue_length ≠ s.sound.queue_length
          then (frequency, time) :: (run_sound_log evs (play_quiet_sound frequency time s)).1
          else (run_sound_log evs (play_quiet_sound frequency time s)).1,
         (run_sound_log evs (play_quiet_sound frequency time s)).2.1,
         (run_sound_log evs (play_quiet_sound frequency time s)).2.2) := rfl

theorem run_sound_log_cons_tone (PIND : Nat) (evs : List SoundEvent) (s : Mcu) :
    run_sound_log (SoundEvent.tone PIND :: evs) s
      = ((run_sound_log evs (TIMER1_COMPA_vect PIND s)).1,
         if (TIMER1_COMPA_vect PIND s).sound.queue_length < s.sound.queue_length
          then (TIMER1_COMPA_vect PIND s).OCR1A
            :: (run_sound_log evs (TIMER1_COMPA_vect PIND s)).2.1
          else (run_sound_log evs (TIMER1_COMPA_vect PIND s)).2.1,
         (run_sound_log evs (TIMER1_COMPA_vect PIND s)).2.2) := rfl

theorem run_sound_log_cons_tick (evs : List SoundEvent) (s : Mcu) :
    run_sound_log (SoundEvent.tick :: evs) s = run_sound_log evs (TIMER0_COMPA_vect s) := rfl

theorem play_sound_log_step (frequency time : Nat) (s : Mcu) (h0 : 0 ≤ s.sound.queue_length) :
    sound_queue_contents (play_sound frequency time s)
      = sound_queue_contents s
        ++ (if (play_sound frequency time s).sound.queue_length ≠ s.sound.queue_length
            then [(frequency, time)] else []) := by
  by_cases ha : 150 ≤ frequency ∧ frequency ≤ 1000 ∧ s.sound.queue_length < 6
  · rw [play_sound_accepted_contents frequency time s h0 ha, if_pos]
    rw [play_sound_accepted frequency time s ha]
    show s.sound.queue_length + 1 ≠ s.sound.queue_length
    omega
  · rw [play_sound_rejected frequency time s ha, if_neg (fun h => h rfl), List.append_nil]

theorem tone_log_step (PIND : Nat) (s : Mcu) (hon : (PIND &&& (1 <<< 3)) % 256 ≠ 0)
    (hq : 0 ≤ s.sound.queue_length ∧ s.sound.queue_length ≤ 6) :
    (if (TIMER1_COMPA_vect PIND s).sound.queue_length < s.sound.queue_length
      then [(TIMER1_COMPA_vect PIND s).OCR1A] else [])
      ++ (sound_queue_contents (TIMER1_COMPA_vect PIND s)).map (fun p => get_OCRB_value p.1)
      = (sound_queue_contents s).map (fun p => get_OCRB_value p.1) := by
  rw [TIMER1_COMPA_vect_unmuted PIND s hon]
  split_ifs with h1 h2 h3 h4 h5
  · rw [start_next_sound_contents s (by omega) hq.2, (start_next_sound_fields s).1]
    nth_rewrite 2 [sound_queue_contents_cons s (by omega)]
    rfl
  · rw [start_next_sound_queue_length] at h3
    omega
  · exact absurd h4 (lt_irrefl _)
  · rfl
  · exact absurd h5 (lt_irrefl _)
  · rfl

theorem run_sound_log_fifo (evs : List SoundEvent) :
    ∀ s : Mcu, (0 ≤ s.sound.queue_length ∧ s.sound.queue_length ≤ 6) →
      (∀ e ∈ evs, e.is_unmuted = true) →
      (run_sound_log evs s).2.1
        ++ (sound_queue_contents (run_sound_log evs s).2.2).map (fun p => get_OCRB_value p.1)
        = (sound_queue_contents s ++ (run_sound_log evs s).1).map
            (fun p => get_OCRB_value p.1) := by
  induction evs with
  | nil =>
    intro s _ _
    simp [run_sound_log]
  | cons e evs ih =>
    intro s hq hu
    have hrest : ∀ e ∈ evs, e.is_unmuted = true := fun x hx => hu x (List.mem_cons_of_mem _ hx)
    have he := hu e (List.mem_cons_self _ _)
    cases e with
    | play frequency time =>
      have hih := ih (play_sound frequency time s)
        (play_sound_queue_length_bounds frequency time s hq) hrest
      rw [play_sound_log_step frequency time s hq.1] at hih
      rw [run_sound_log_cons_play]
      dsimp only
      rw [hih]
      split_ifs <;> simp
    | quiet frequency time =>
      rw [run_sound_log_cons_quiet]
      dsimp only
      by_cases hp : s.sound.queue_length > 0
      · have hs : play_quiet_sound frequency time s = s := by
          simp only [play_quiet_sound, if_pos hp]
        rw [hs, if_neg (fun h => h rfl)]
        exact ih s hq hrest
      · have hs : play_quiet_sound frequency time s = play_sound frequency time s := by
          simp only [play_quiet_sound, if_neg hp]
        have hih := ih (play_sound frequency time s)
          (play_sound_queue_length_bounds frequency time s hq) hrest
        rw [play_sound_log_step frequency time s hq.1] at hih
        rw [hs, hih]
        split_ifs <;> simp
    | clear => exact absurd he (by decide)
    | tone PIND =>
      have hon : (PIND &&& (1 <<< 3)) % 256 ≠ 0 := by
        simpa [SoundEvent.is_unmuted] using he
      have hih := ih (TIMER1_COMPA_vect PIND s)
        (sound_event_queue_length_bounds (SoundEvent.tone PIND) s hq) hrest
      rw [run_sound_log_cons_tone]
      dsimp only
      rw [List.map_append] at hih ⊢
      rw [← tone_log_step PIND s hon hq, List.append_assoc, ← hih]
      split_ifs <;> simp
    | tick =>
      have hih := ih (TIMER0_COMPA_vect s)
        (sound_event_queue_length_bounds SoundEvent.tick s hq) hrest
      rw [sound_queue_contents_congr s _ (isr_sound s)] at hih
      rw [run_sound_log_cons_tick]
      exact hih

/-- C21, counterexample: ten ticks before the 32-bit clock wraps, with the
mute switch on, the stop tick passed and the tone (440, 1) at the head of the
queue, the tone interrupt sets the stop tick to 0, not to the current tick
plus 10 * 1 = 4294967300. -/
theorem C21_stop_tick_wraps :
    (8 &&& (1 <<< 3)) % 256 ≠ 0
    ∧ wrap_tone_state.timer0.clockTicks > toUInt32 wrap_tone_state.sound.stop_time
    ∧ sound_queue_contents wrap_tone_state = [(440, 1)]
    ∧ wrap_tone_state.timer0.clockTicks + 10 * 1 = 4294967300
    ∧ toUInt32 (TIMER1_COMPA_vect 8 wrap_tone_state).sound.stop_time = 4
    ∧ (TIMER1_COMPA_vect 8 wrap_tone_state).sound.stop_time = 4 := by
  decide

/-- C21, amended: let the tone interrupt fire with the mute switch on (pin D3
read high) and at most 6 queued tones.  If the current tick is past the stop
tick and the queue is (f0,d0) :: rest, the interrupt programs the compare
value get_OCRB_value f0, sets the stop tick to (current tick + 10 * d0)
modulo 2^32, turns the toggling on and leaves the queue `rest`, one entry
shorter.  If the tick is past the stop tick and the queue length is 0 it only
stops the toggling.  If the stop tick has not passed it changes nothing.
Hence, in any run of play_sound and play_quiet_sound calls, timer interrupts
and tone interrupts with the mute switch on, the compare values programmed
by the tone interrupts, followed by those of the tones still queued, are the
compare values of the tones queued at the start followed by the accepted
requests, in order. -/
theorem C21_tone_interrupt (PIND f0 d0 : Nat) (rest : List (Nat × Nat)) (s : Mcu)
    (hon : (PIND &&& (1 <<< 3)) % 256 ≠ 0) (h6 : s.sound.queue_length ≤ 6) :
    (s.timer0.clockTicks > toUInt32 s.sound.stop_time →
      sound_queue_contents s = (f0, d0) :: rest →
      (TIMER1_COMPA_vect PIND s).OCR1A = get_OCRB_value f0
      ∧ toUInt32 (TIMER1_COMPA_vect PIND s).sound.stop_time
          = (s.timer0.clockTicks + 10 * d0) % 4294967296
      ∧ (TIMER1_COMPA_vect PIND s).TCCR1A_COM1A0 = true
      ∧ sound_queue_contents (TIMER1_COMPA_vect PIND s) = rest
      ∧ (TIMER1_COMPA_vect PIND s).sound.queue_length = s.sound.queue_length - 1)
    ∧ (s.timer0.clockTicks > toUInt32 s.sound.stop_time → s.sound.queue_length = 0 →
      TIMER1_COMPA_vect PIND s = stop_toggling s
      ∧ (TIMER1_COMPA_vect PIND s).TCCR1A_COM1A0 = false)
    ∧ (¬ s.timer0.clockTicks > toUInt32 s.sound.stop_time → TIMER1_COMPA_vect PIND s = s)
    ∧ (∀ evs : List SoundEvent, 0 ≤ s.sound.queue_length →
      (∀ e ∈ evs, e.is_unmuted = true) →
      (run_sound_log evs s).2.1
        ++ (sound_queue_contents (run_sound_log evs s).2.2).map (fun p => get_OCRB_value p.1)
        = (sound_queue_contents s ++ (run_sound_log evs s).1).map
            (fun p => get_OCRB_value p.1)) := by
  have hT := TIMER1_COMPA_vect_unmuted PIND s hon
  refine ⟨?_, ?_, ?_, ?_⟩
  · intro hpast hc
    have hlen := sound_queue_contents_length s
    rw [hc] at hlen
    simp only [List.length_cons] at hlen
    have hpos : 0 < s.sound.queue_length := by omega
    have hcons := sound_queue_contents_cons s hpos
    rw [hc] at hcons
    obtain ⟨hf, hd⟩ := Prod.mk.inj (List.cons.inj hcons).1
    obtain ⟨ho, -, ht, hst, -, -, -⟩ := start_next_sound_fields s
    rw [hT, if_pos hpast, if_pos (by omega)]
    refine ⟨?_, ?_, ht, ?_, start_next_sound_queue_length s⟩
    · rw [ho, ← hf]
    · rw [hst, toUInt32_toInt32, ← hd]
      exact Nat.mod_mod _ _
    · rw [start_next_sound_contents s hpos h6, hc]
      rfl
  · intro hpast hq
    rw [hT, if_pos hpast, if_neg (fun h => h hq)]
    exact ⟨rfl, rfl⟩
  · intro hnot
    rw [hT, if_neg hnot]
  · intro evs h0 hu
    exact run_sound_log_fifo evs s ⟨h0, h6⟩ hu

theorem C21_tone_interrupt_witness :
    ((8 &&& (1 <<< 3)) % 256 ≠ 0 ∧ due_tones_state.sound.queue_length ≤ 6
      ∧ due_tones_state.timer0.clockTicks > toUInt32 due_tones_state.sound.stop_time
      ∧ sound_queue_contents due_tones_state = (698, 37) :: [(554, 10), (622, 30)]
      ∧ 0 ≤ due_tones_state.sound.queue_length
      ∧ ∀ e ∈ unmuted_events, e.is_unmuted = true)
    ∧ ((TIMER1_COMPA_vect 8 due_tones_state).OCR1A = get_OCRB_value 698
      ∧ toUInt32 (TIMER1_COMPA_vect 8 due_tones_state).sound.stop_time
          = (due_tones_state.timer0.clockTicks + 10 * 37) % 4294967296
      ∧ (TIMER1_COMPA_vect 8 due_tones_state).TCCR1A_COM1A0 = true
      ∧ sound_queue_contents (TIMER1_COMPA_vect 8 due_tones_state) = [(554, 10), (622, 30)]
      ∧ (TIMER1_COMPA_vect 8 due_tones_state).sound.queue_length
          = due_tones_state.sound.queue_length - 1)
    ∧ (run_sound_log unmuted_events due_tones_state).2.1
        ++ (sound_queue_contents (run_sound_log unmuted_events due_tones_state).2.2).map
            (fun p => get_OCRB_value p.1)
        = (sound_queue_contents due_tones_state
            ++ (run_sound_log unmuted_events due_tones_state).1).map
            (fun p => get_OCRB_value p.1) :=
  ⟨by decide,
   (C21_tone_interrupt 8 698 37 [(554, 10), (622, 30)] due_tones_state (by decide)
      (by decide)).1 (by decide) (by decide),
   (C21_tone_interrupt 8 698 37 [(554, 10), (622, 30)] due_tones_state (by decide)
      (by decide)).2.2.2 unmuted_events (by decide) (by decide)⟩

/-- C22, failing input: a tone is active (the pin toggles), its stop tick 1000
is ahead of the clock at 500 and the mute switch is on.  clear_sounds empties
the queue, but the tone interrupt that follows changes nothing: the output pin
keeps toggling, also after every further tone interrupt up to tick 1000. -/
theorem C22_clear_keeps_tone_playing :
    sound_queue_contents (clear_sounds playing_tone_state) = []
    ∧ (clear_sounds playing_tone_state).TCCR1A_COM1A0 = true
    ∧ TIMER1_COMPA_vect 8 (clear_sounds playing_tone_state) = clear_sounds playing_tone_state
    ∧ (TIMER1_COMPA_vect 8 (clear_sounds playing_tone_state)).TCCR1A_COM1A0 = true
    ∧ (TIMER1_COMPA_vect 8 (TIMER0_COMPA_vect^[500]
        (TIMER1_COMPA_vect 8 (clear_sounds playing_tone_state)))).TCCR1A_COM1A0 = true
    ∧ (TIMER1_COMPA_vect 8 (TIMER0_COMPA_vect^[501]
        (TIMER1_COMPA_vect 8 (clear_sounds playing_tone_state)))).TCCR1A_COM1A0 = false := by
  have h1 : TIMER1_COMPA_vect 8 (clear_sounds playing_tone_state)
      = clear_sounds playing_tone_state := by
    rw [TIMER1_COMPA_vect_unmuted 8 _ (by decide), if_neg (by decide)]
  have hs : ∀ n, (TIMER0_COMPA_vect^[n] (clear_sounds playing_tone_state)).sound
      = (clear_sounds playing_tone_state).sound := by
    intro n
    induction n with
    | zero => rfl
    | succ n ih => rw [Function.iterate_succ_apply', isr_sound, ih]
  have hc : ∀ n, n ≤ 1000 →
      (TIMER0_COMPA_vect^[n] (clear_sounds playing_tone_state)).timer0.clockTicks = 500 + n := by
    intro n hn
    rw [isr_iterate_clockTicks _ n (by decide)]
    show (500 + n) % 4294967296 = 500 + n
    omega
  have ht : ∀ n, (TIMER0_COMPA_vect^[n] (clear_sounds playing_tone_state)).TCCR1A_COM1A0
      = true := by
    intro n
    induction n with
    | zero => rfl
    | succ n ih =>
      rw [Function.iterate_succ_apply', (isr_timer1 _).1]
      exact ih
  refine ⟨rfl, rfl, h1, ?_, ?_, ?_⟩
  · rw [h1]
    rfl
  · rw [h1, TIMER1_COMPA_vect_unmuted 8 _ (by decide), hs, hc 500 (by omega),
      if_neg (by decide)]
    exact ht 500
  · rw [h1, TIMER1_COMPA_vect_unmuted 8 _ (by decide), hs, hc 501 (by omega),
      if_pos (by decide), if_neg (by decide)]
    rfl

theorem sound_queue_contents_empty (s : Mcu) (h : s.sound.queue_length = 0) :
    sound_queue_contents s = [] := by
  simp only [sound_queue_contents, h]
  rfl

theorem sound_event_in_band (e : SoundEvent) (s : Mcu)
    (hq : 0 ≤ s.sound.queue_length ∧ s.sound.queue_length ≤ 6)
    (hb : ∀ p ∈ sound_queue_contents s, 150 ≤ p.1 ∧ p.1 ≤ 1000) :
    ∀ p ∈ sound_queue_contents (e.apply s), 150 ≤ p.1 ∧ p.1 ≤ 1000 := by
  have hplay : ∀ frequency time : Nat,
      ∀ p ∈ sound_queue_contents (play_sound frequency time s), 150 ≤ p.1 ∧ p.1 ≤ 1000 := by
    intro frequency time p hp
    by_cases ha : 150 ≤ frequency ∧ frequency ≤ 1000 ∧ s.sound.queue_length < 6
    · rw [play_sound_accepted_contents frequency time s hq.1 ha] at hp
      rcases List.mem_append.mp hp with hp | hp
      · exact hb p hp
      · rw [List.mem_singleton.mp hp]
        exact ⟨ha.1, ha.2.1⟩
    · rw [play_sound_rejected frequency time s ha] at hp
      exact hb p hp
  cases e with
  | play frequency time => exact hplay frequency time
  | quiet frequency time =>
    show ∀ p ∈ sound_queue_contents (play_quiet_sound frequency time s), _
    simp only [play_quiet_sound]
    split_ifs
    · exact hb
    · exact hplay frequency time
  | clear =>
    intro p hp
    exact absurd hp (List.not_mem_nil p)
  | tone PIND =>
    show ∀ p ∈ sound_queue_contents (TIMER1_COMPA_vect PIND s), _
    by_cases hon : (PIND &&& (1 <<< 3)) % 256 = 0
    · rw [sound_queue_contents_empty _ (TIMER1_COMPA_vect_muted PIND s hon).1]
      intro p hp
      exact absurd hp (List.not_mem_nil p)
    · rw [TIMER1_COMPA_vect_unmuted PIND s hon]
      split_ifs with h1 h2
      · rw [start_next_sound_contents s (by omega) hq.2]
        intro p hp
        exact hb p (List.mem_of_mem_tail hp)
      · exact hb
      · exact hb
  | tick =>
    show ∀ p ∈ sound_queue_contents (TIMER0_COMPA_vect s), _
    rw [sound_queue_contents_congr s _ (isr_sound s)]
    exact hb

theorem run_sound_in_band (evs : List SoundEvent) :
    ∀ s : Mcu, (0 ≤ s.sound.queue_length ∧ s.sound.queue_length ≤ 6) →
      (∀ p ∈ sound_queue_contents s, 150 ≤ p.1 ∧ p.1 ≤ 1000) →
      ∀ p ∈ sound_queue_contents (run_sound evs s), 150 ≤ p.1 ∧ p.1 ≤ 1000 := by
  induction evs with
  | nil => intro s _ hb; exact hb
  | cons e evs ih =>
    intro s hq hb
    exact ih (e.apply s) (sound_event_queue_length_bounds e s hq) (sound_event_in_band e s hq hb)

/-- C23: for every frequency f with 150 ≤ f ≤ 1000 the 16-bit product f * 2
is not truncated and not zero, the quotient 8000000 / (2 * f) is at least 1
and get_OCRB_value f equals 8000000 / (2 * f) - 1, a value below 65536; for
440 Hz it is 9089.  The frequency that init_buzzer converts is in the band,
and in every state reached from init_buzzer by play_sound, play_quiet_sound
and clear_sounds calls, tone interrupts and timer interrupts every frequency
in the queue satisfies 150 ≤ f ≤ 1000. -/
theorem C23_compare_value (f : Nat) (hmin : 150 ≤ f) (hmax : f ≤ 1000) :
    (f * 2) % 65536 = f * 2
    ∧ (f * 2) % 65536 ≠ 0
    ∧ 1 ≤ 8000000 / (2 * f)
    ∧ 8000000 / (2 * f) - 1 < 65536
    ∧ get_OCRB_value f = 8000000 / (2 * f) - 1
    ∧ get_OCRB_value 440 = 9089
    ∧ (150 ≤ FREQ_A4 ∧ FREQ_A4 ≤ 1000)
    ∧ (∀ (u : Mcu) (evs : List SoundEvent),
      ∀ p ∈ sound_queue_contents (run_sound evs (init_buzzer u)), 150 ≤ p.1 ∧ p.1 ≤ 1000) := by
  have h2 : (f * 2) % 65536 = f * 2 := Nat.mod_eq_of_lt (by omega)
  have hq : 8000000 / (2 * f) ≤ 26666 := by
    apply Nat.le_of_lt_succ
    rw [Nat.div_lt_iff_lt_mul (by omega)]
    nlinarith
  have hq1 : 1 ≤ 8000000 / (2 * f) := by
    rw [Nat.le_div_iff_mul_le (by omega)]
    omega
  refine ⟨h2, by omega, hq1, by omega, ?_, by decide, by decide, ?_⟩
  · simp only [get_OCRB_value, SYS_CLK, h2]
    rw [Nat.mul_comm f 2]
    exact Nat.mod_eq_of_lt (by omega)
  · intro u evs
    apply run_sound_in_band
    · rw [init_buzzer_queue_length]
      omega
    · rw [sound_queue_contents_empty _ (init_buzzer_queue_length u)]
      intro p hp
      exact absurd hp (List.not_mem_nil p)

theorem C23_compare_value_witness :
    (150 ≤ 440 ∧ 440 ≤ 1000)
    ∧ get_OCRB_value 440 = 8000000 / (2 * 440) - 1
    ∧ ∀ p ∈ sound_queue_contents (run_sound sound_burst_events (init_buzzer reset_state)),
        150 ≤ p.1 ∧ p.1 ≤ 1000 :=
  ⟨by decide,
   (C23_compare_value 440 (by decide) (by decide)).2.2.2.2.1,
   (C23_compare_value 440 (by decide) (by decide)).2.2.2.2.2.2.2 reset_state
      sound_burst_events⟩

theorem play_sound_appends (frequency time : Nat) (s : Mcu) (l : List (Nat × Nat))
    (hl : sound_queue_contents s = l ∧ s.sound.queue_length = l.length)
    (hlen : l.length < 6) (hf : 150 ≤ frequency ∧ frequency ≤ 1000) :
    sound_queue_contents (play_sound frequency time s) = l ++ [(frequency, time)]
    ∧ (play_sound frequency time s).sound.queue_length
        = (l ++ [(frequency, time)]).length := by
  have ha : 150 ≤ frequency ∧ frequency ≤ 1000 ∧ s.sound.queue_length < 6 :=
    ⟨hf.1, hf.2, by rw [hl.2]; exact_mod_cast hlen⟩
  refine ⟨?_, ?_⟩
  · rw [play_sound_accepted_contents frequency time s (by rw [hl.2]; omega) ha, hl.1]
  · rw [play_sound_accepted frequency time s ha]
    show s.sound.queue_length + 1 = _
    rw [hl.2, List.length_append]
    simp

theorem clear_sounds_empty (s : Mcu) :
    sound_queue_contents (clear_sounds s) = []
    ∧ (clear_sounds s).sound.queue_length = ([] : List (Nat × Nat)).length :=
  ⟨rfl, rfl⟩

/-- C24: called from any state, each tune helper leaves the queue holding
exactly its notes in order: play_tune_startup the six tones (698,37),
(554,10), (622,30), (831,25), (698,25), (554,40); play_tune_success (554,10),
(622,30), (831,25), (988,40); play_tune_dead (698,15), (831,10), (554,10),
(494,40); play_tune_lost (831,10), (554,10), (494,10), (392,40). -/
theorem C24_tunes (s : Mcu) :
    sound_queue_contents (play_tune_startup s)
      = [(698, 37), (554, 10), (622, 30), (831, 25), (698, 25), (554, 40)]
    ∧ (play_tune_startup s).sound.queue_length = 6
    ∧ sound_queue_contents (play_tune_success s)
      = [(554, 10), (622, 30), (831, 25), (988, 40)]
    ∧ sound_queue_contents (play_tune_dead s)
      = [(698, 15), (831, 10), (554, 10), (494, 40)]
    ∧ sound_queue_contents (play_tune_lost s)
      = [(831, 10), (554, 10), (494, 10), (392, 40)] := by
  have h0 := clear_sounds_empty s
  refine ⟨?_, ?_, ?_, ?_, ?_⟩
  · have h1 := play_sound_appends FREQ_F5 37 _ _ h0 (by decide) (by decide)
    have h2 := play_sound_appends FREQ_C5SHARP 10 _ _ h1 (by decide) (by decide)
    have h3 := play_sound_appends FREQ_D5SHARP 30 _ _ h2 (by decide) (by decide)
    have h4 := play_sound_appends FREQ_G5SHARP 25 _ _ h3 (by decide) (by decide)
    have h5 := play_sound_appends FREQ_F5 25 _ _ h4 (by decide) (by decide)
    exact (play_sound_appends FREQ_C5SHARP 40 _ _ h5 (by decide) (by decide)).1
  · have h1 := play_sound_appends FREQ_F5 37 _ _ h0 (by decide) (by decide)
    have h2 := play_sound_appends FREQ_C5SHARP 10 _ _ h1 (by decide) (by decide)
    have h3 := play_sound_appends FREQ_D5SHARP 30 _ _ h2 (by decide) (by decide)
    have h4 := play_sound_appends FREQ_G5SHARP 25 _ _ h3 (by decide) (by decide)
    have h5 := play_sound_appends FREQ_F5 25 _ _ h4 (by decide) (by decide)
    exact (play_sound_appends FREQ_C5SHARP 40 _ _ h5 (by decide) (by decide)).2
  · have h1 := play_sound_appends FREQ_C5SHARP 10 _ _ h0 (by decide) (by decide)
    have h2 := play_sound_appends FREQ_D5SHARP 30 _ _ h1 (by decide) (by decide)
    have h3 := play_sound_appends FREQ_G5SHARP 25 _ _ h2 (by decide) (by decide)
    exact (play_sound_appends FREQ_B5 40 _ _ h3 (by decide) (by decide)).1
  · have h1 := play_sound_appends FREQ_F5 15 _ _ h0 (by decide) (by decide)
    have h2 := play_sound_appends FREQ_G5SHARP 10 _ _ h1 (by decide) (by decide)
    have h3 := play_sound_appends FREQ_C5SHARP 10 _ _ h2 (by decide) (by decide)
    exact (play_sound_appends FREQ_B4 40 _ _ h3 (by decide) (by decide)).1
  · have h1 := play_sound_appends FREQ_G5SHARP 10 _ _ h0 (by decide) (by decide)
    have h2 := play_sound_appends FREQ_C5SHARP 10 _ _ h1 (by decide) (by decide)
    have h3 := play_sound_appends FREQ_B4 10 _ _ h2 (by decide) (by decide)
    exact (play_sound_appends FREQ_G4 40 _ _ h3 (by decide) (by decide)).1

/-! ## Theorems: initialisation and display -/

/-- C25, counterexample: from a state whose countdown is 5000 and whose
display phase counter is 2, init_timer0 leaves the countdown at 5000 and the
phase counter at 2; only the two tick counters become zero. -/
theorem C25_init_keeps_countdown :
    (init_timer0 stale_clock_state).timer0.countdown = 5000
    ∧ (init_timer0 stale_clock_state).timer0.digit_counter = 2
    ∧ (init_timer0 stale_clock_state).timer0.clockTicks = 0
    ∧ (init_timer0 stale_clock_state).timer0.inGameClockTicks = 0 := by
  decide

/-- C25, amended: from any prior state init_timer0 resets the tick counter and
the in-game tick counter to zero (get_clock_ticks and get_ingame_clock_ticks
then return 0) and changes nothing else: the countdown, the display phase
counter and the counting flag keep their values.  The countdown is reset to
zero by init_countdown, which changes nothing else. -/
theorem C25_init_timer0 (s : Mcu) :
    (init_timer0 s).timer0.clockTicks = 0
    ∧ (init_timer0 s).timer0.inGameClockTicks = 0
    ∧ (get_clock_ticks (init_timer0 s)).1 = 0
    ∧ (get_ingame_clock_ticks (init_timer0 s)).1 = 0
    ∧ (init_timer0 s).timer0.countdown = s.timer0.countdown
    ∧ (init_timer0 s).timer0.digit_counter = s.timer0.digit_counter
    ∧ init_timer0 s = { s with timer0 := { s.timer0 with clockTicks := 0,
                                                         inGameClockTicks := 0 } }
    ∧ (init_countdown s).timer0.countdown = 0
    ∧ init_countdown s = { s with timer0 := { s.timer0 with countdown := 0 } } :=
  ⟨rfl, rfl, rfl, rfl, rfl, rfl, rfl, rfl, rfl⟩

theorem deactivate_buttons_buttons (s : Mcu) : (deactivate_buttons s).buttons = s.buttons := by
  simp only [deactivate_buttons, cli, sei]
  split_ifs <;> rfl

theorem init_button_interrupts_repeat_time (s : Mcu) :
    (init_button_interrupts s).buttons.button_repeat_time = 0 := by
  simp only [init_button_interrupts, cli, sei]
  split_ifs <;> rfl

/-- C26: from any state activate_buttons leaves the queue empty, so a
following button_pushed returns -1; deactivate_buttons leaves all variables
of buttons.c (queue cells, queue length, repeat tick, last observed state)
unchanged; init_button_interrupts leaves the queue empty and the repeat tick
0, so button_pushed and should_button_repeat both return -1 right after
it. -/
theorem C26_activate_deactivate_init (PINB : Nat) (s : Mcu) :
    (activate_buttons s).buttons.queue_length = 0
    ∧ button_queue_contents (activate_buttons s) = []
    ∧ (button_pushed (activate_buttons s)).1 = -1
    ∧ (deactivate_buttons s).buttons = s.buttons
    ∧ button_queue_contents (deactivate_buttons s) = button_queue_contents s
    ∧ (init_button_interrupts s).buttons.queue_length = 0
    ∧ button_queue_contents (init_button_interrupts s) = []
    ∧ (init_button_interrupts s).buttons.button_repeat_time = 0
    ∧ (button_pushed (init_button_interrupts s)).1 = -1
    ∧ (should_button_repeat PINB (init_button_interrupts s)).1 = -1 := by
  have ha := activate_buttons_queue_length s
  have hd := deactivate_buttons_buttons s
  have hi := init_button_interrupts_queue_length s
  have hr := init_button_interrupts_repeat_time s
  refine ⟨ha, ?_, ?_, hd, ?_, hi, ?_, hr, ?_, ?_⟩
  · simp only [button_queue_contents, ha]
    rfl
  · rw [button_pushed_empty _ (by omega)]
  · simp only [button_queue_contents, hd]
  · simp only [button_queue_contents, hi]
    rfl
  · rw [button_pushed_empty _ (by omega)]
  · rw [should_button_repeat_unscheduled _ _ hr]

theorem isr_digit_counter (s : Mcu) :
    (TIMER0_COMPA_vect s).timer0.digit_counter
        = (if (s.timer0.digit_counter + 1) % 256 > 3 then 0
           else (s.timer0.digit_counter + 1) % 256)
    ∧ (TIMER0_COMPA_vect s).PORTD2
        = decide ((if (s.timer0.digit_counter + 1) % 256 > 3 then 0
           else (s.timer0.digit_counter + 1) % 256) >>> 1 ≠ 0) := by
  simp only [TIMER0_COMPA_vect, TIMER0_COMPA_vect_display, TIMER0_COMPA_vect_count]
  split_ifs <;> simp_all

/-- C27, failing inputs: (1) one timer interrupt takes the countdown from 9001
to 9000 and the phase counter to 2 (tens digit selected); the adjusted value
is 10000, whose tens digit is 1 with pattern 6, yet port C shows 0 (blank),
because the code tests `to_display > 10000`.  (2) With the countdown at 65000
and the ones digit selected, the 16-bit adjusted value is 464 instead of
66000, and port C shows the pattern 63 of digit 0 instead of the pattern 125
of digit 6.  What does hold in every state: the phase counter after the
interrupt is the old one plus 1, or 0 once that exceeds 3, so it is at most 3;
pin D2 selects the tens digit exactly in the phases 2 and 3; and both table
indices are below the table length 10. -/
theorem C27_tens_digit_blank_at_10000 (s : Mcu) (v : Nat) :
    ((TIMER0_COMPA_vect tens_boundary_state).timer0.countdown = 9000
      ∧ (TIMER0_COMPA_vect tens_boundary_state).timer0.digit_counter = 2
      ∧ (TIMER0_COMPA_vect tens_boundary_state).PORTD2 = true
      ∧ ¬ (9000 + 1000 < 10000)
      ∧ seven_seg_data.getD (((9000 + 1000) / 10000) % 10) 0 = 6
      ∧ (TIMER0_COMPA_vect tens_boundary_state).PORTC = 0)
    ∧ ((TIMER0_COMPA_vect long_countdown_state).timer0.countdown = 65000
      ∧ (TIMER0_COMPA_vect long_countdown_state).timer0.digit_counter = 0
      ∧ (TIMER0_COMPA_vect long_countdown_state).PORTD2 = false
      ∧ seven_seg_data.getD (((65000 + 1000) / 1000) % 10) 0 = 125
      ∧ (TIMER0_COMPA_vect long_countdown_state).PORTC = 63)
    ∧ (TIMER0_COMPA_vect s).timer0.digit_counter
        = (if (s.timer0.digit_counter + 1) % 256 > 3 then 0
           else (s.timer0.digit_counter + 1) % 256)
    ∧ (TIMER0_COMPA_vect s).timer0.digit_counter ≤ 3
    ∧ ((TIMER0_COMPA_vect s).PORTD2 = true ↔ 2 ≤ (TIMER0_COMPA_vect s).timer0.digit_counter)
    ∧ (v / 1000) % 10 < seven_seg_data.length
    ∧ (v / 10000) % 10 < seven_seg_data.length := by
  obtain ⟨h1, h2⟩ := isr_digit_counter s
  have hl : seven_seg_data.length = 10 := rfl
  refine ⟨by decide, by decide, h1, ?_, ?_, by rw [hl]; omega, by rw [hl]; omega⟩
  · rw [h1]
    split_ifs <;> omega
  · rw [h2, h1, decide_eq_true_eq, Nat.shiftRight_eq_div_pow]
    split_ifs <;> omega

theorem init_joystick_joystick (s : Mcu) :
    (init_joystick s).joystick
      = { s.joystick with last_x := 512, last_y := 512, x_or_y := 0,
                          last_joystick_zone := CENTRE, last_joystick_time := 0,
                          movement_value := CENTRE } := by
  simp only [init_joystick, cli, sei]
  split_ifs <;> rfl

theorem ADC_vect_selector (ADC : Nat) (s : Mcu) (h : s.joystick.x_or_y ≤ 1) :
    (ADC_vect ADC s).joystick.x_or_y = 1 - s.joystick.x_or_y := by
  have hc : s.joystick.x_or_y = 0 ∨ s.joystick.x_or_y = 1 := by omega
  simp only [ADC_vect]
  rcases hc with hc | hc <;> simp [hc]

theorem run_joystick_log_selector (evs : List JoystickEvent) :
    ∀ s : Mcu, s.joystick.x_or_y ≤ 1 → (run_joystick_log evs s).2.joystick.x_or_y ≤ 1 := by
  induction evs with
  | nil => intro s h; exact h
  | cons e evs ih =>
    intro s h
    cases e with
    | adc ADC =>
      show (run_joystick_log evs (ADC_vect ADC s)).2.joystick.x_or_y ≤ 1
      apply ih
      rw [ADC_vect_selector ADC s h]
      omega
    | poll =>
      show (run_joystick_log evs (should_joystick_move s).2).2.joystick.x_or_y ≤ 1
      apply ih
      rw [should_joystick_move_joystick]
      split_ifs <;> exact h
    | tick =>
      show (run_joystick_log evs (TIMER0_COMPA_vect s)).2.joystick.x_or_y ≤ 1
      apply ih
      rw [isr_joystick]
      exact h

theorem run_joystick_log_resting (evs : List JoystickEvent) :
    ∀ s : Mcu, s.joystick.last_joystick_time = 0 → s.joystick.last_joystick_zone = CENTRE →
      (∀ x ∈ (run_joystick_log evs s).1, x.2.1 = CENTRE) →
      ∀ x ∈ (run_joystick_log evs s).1, x.2.2 = 0 := by
  induction evs with
  | nil =>
    intro s _ _ _ x hx
    exact absurd hx (List.not_mem_nil x)
  | cons e evs ih =>
    intro s h0 hl hz
    cases e with
    | adc ADC =>
      rw [run_joystick_log_cons_adc] at hz ⊢
      have hk := ADC_vect_keeps ADC s
      exact ih _ (by rw [hk.2.1]; exact h0) (by rw [hk.2.2]; exact hl) hz
    | tick =>
      rw [run_joystick_log_cons_tick] at hz ⊢
      exact ih _ (by rw [isr_joystick]; exact h0) (by rw [isr_joystick]; exact hl) hz
    | poll =>
      rw [run_joystick_log_cons_poll] at hz ⊢
      have hzs : (get_current_zone s).1 = CENTRE := hz _ (List.mem_cons_self _ _)
      obtain ⟨hr, hj⟩ := should_joystick_move_idle s (fun h => h.1 h0) (fun h => h.2.2 hzs)
      intro x hx
      rcases List.mem_cons.mp hx with hx | hx
      · rw [hx]
        exact hr
      · refine ih _ ?_ ?_ (fun y hy => hz y (List.mem_cons_of_mem _ hy)) x hx
        · rw [hj]
          exact h0
        · rw [hj]
          exact hzs

/-- C28: for a converted value v in 0..1023, the conversion complete interrupt
with the selector at X (x_or_y = 0) sets last_x = v, leaves last_y unchanged
and moves the selector to Y (x_or_y = 1, MUX0 set); with the selector at Y
(x_or_y = 1) it sets last_y = 1024 - v, leaves last_x unchanged and moves the
selector to X (x_or_y = 0, MUX0 cleared); two conversions in a row bring the
selector back.  init_joystick seeds both samples to 512 with the selector at
X; then get_current_zone returns CENTRE, the selector stays 0 or 1 through any
events, and in any run of conversions, polls and timer interrupts after
init_joystick in which every poll finds the samples in zone CENTRE, every
should_joystick_move call returns 0. -/
theorem C28_adc_sampling (v ADC2 : Nat) (s u : Mcu) (hv : v ≤ 1023) :
    (s.joystick.x_or_y = 0 →
      (ADC_vect v s).joystick.last_x = v
      ∧ (ADC_vect v s).joystick.last_y = s.joystick.last_y
      ∧ (ADC_vect v s).joystick.x_or_y = 1
      ∧ (ADC_vect v s).ADMUX_MUX0 = true)
    ∧ (s.joystick.x_or_y = 1 →
      (ADC_vect v s).joystick.last_y = 1024 - v
      ∧ (ADC_vect v s).joystick.last_x = s.joystick.last_x
      ∧ (ADC_vect v s).joystick.x_or_y = 0
      ∧ (ADC_vect v s).ADMUX_MUX0 = false)
    ∧ (s.joystick.x_or_y ≤ 1 →
      (ADC_vect ADC2 (ADC_vect v s)).joystick.x_or_y = s.joystick.x_or_y)
    ∧ ((init_joystick u).joystick.last_x = 512 ∧ (init_joystick u).joystick.last_y = 512
      ∧ (init_joystick u).joystick.x_or_y = 0)
    ∧ (get_current_zone (init_joystick u)).1 = CENTRE
    ∧ (∀ evs : List JoystickEvent,
      (run_joystick_log evs (init_joystick u)).2.joystick.x_or_y ≤ 1)
    ∧ (∀ evs : List JoystickEvent,
      (∀ x ∈ (run_joystick_log evs (init_joystick u)).1, x.2.1 = CENTRE) →
      ∀ x ∈ (run_joystick_log evs (init_joystick u)).1, x.2.2 = 0) := by
  have hi := init_joystick_joystick u
  have hm : v % 65536 = v := Nat.mod_eq_of_lt (by omega)
  refine ⟨?_, ?_, ?_, ?_, ?_, ?_, ?_⟩
  · intro h
    simp [ADC_vect, h, hm]
  · intro h
    have hy : (HEIGHT + 65536 - v) % 65536 = 1024 - v := by
      simp only [HEIGHT]
      omega
    simp [ADC_vect, h, hm, hy]
  · intro h
    rw [ADC_vect_selector ADC2 _ (by rw [ADC_vect_selector v s h]; omega),
      ADC_vect_selector v s h]
    omega
  · rw [hi]
    exact ⟨rfl, rfl, rfl⟩
  · have hx : (init_joystick u).joystick.last_x = 512 := by rw [hi]
    have hy : (init_joystick u).joystick.last_y = 512 := by rw [hi]
    simp only [get_current_zone, hx, hy, CENTRE_MID_X, CENTRE_MID_Y, DEAD_ZONE_DIAG,
      DEAD_ZONE_X, DEAD_ZONE_Y]
    simp
  · intro evs
    exact run_joystick_log_selector evs _ (by rw [hi]; exact Nat.zero_le 1)
  · intro evs
    exact run_joystick_log_resting evs _ (by rw [hi]) (by rw [hi])

theorem C28_adc_sampling_witness :
    (300 ≤ 1023 ∧ (init_joystick reset_state).joystick.x_or_y = 0
      ∧ (ADC_vect 300 (init_joystick reset_state)).joystick.x_or_y = 1
      ∧ ∀ x ∈ (run_joystick_log resting_events (init_joystick reset_state)).1, x.2.1 = CENTRE)
    ∧ (ADC_vect 300 (init_joystick reset_state)).joystick.last_x = 300
    ∧ (ADC_vect 300 (ADC_vect 300 (init_joystick reset_state))).joystick.last_y = 1024 - 300
    ∧ ∀ x ∈ (run_joystick_log resting_events (init_joystick reset_state)).1, x.2.2 = 0 :=
  ⟨⟨by decide, by decide, by decide, by decide⟩,
   ((C28_adc_sampling 300 0 (init_joystick reset_state) reset_state (by decide)).1
      (by decide)).1,
   ((C28_adc_sampling 300 0 (ADC_vect 300 (init_joystick reset_state)) reset_state
      (by decide)).2.1 (by decide)).1,
   (C28_adc_sampling 300 0 reset_state reset_state (by decide)).2.2.2.2.2.2
      resting_events (by decide)⟩

/-! ## Theorems: levels -/

theorem increment_level_fields (s : Mcu) :
    (increment_level s).level.level
        = (if s.level.level < 99 then (s.level.level + 1) % 256 else s.level.level)
    ∧ (increment_level s).level.difficulty
        = (if s.level.level < 99 then
            (s.level.difficulty
              + (if s.level.difficulty ≥ 500 then 0
                 else if s.level.difficulty ≥ 400 then 2
                 else if s.level.difficulty ≥ 300 then 5
                 else if s.level.difficulty ≥ 200 then 10 else 25)) % 65536
           else s.level.difficulty) := by
  simp only [increment_level, get_current_ramp_up, MAX_LEVEL, RAMP_UP_FACTOR_500,
    RAMP_UP_FACTOR_400, RAMP_UP_FACTOR_300, RAMP_UP_FACTOR_200, RAMP_UP_FACTOR_100]
  split_ifs <;> exact ⟨rfl, rfl⟩

theorem increment_level_at_max (s : Mcu) (h : ¬ s.level.level < 99) : increment_level s = s := by
  simp only [increment_level, MAX_LEVEL]
  rw [if_neg h]

theorem increment_level_ramp (s : Mcu)
    (hl : 1 ≤ s.level.level ∧ s.level.level ≤ 99)
    (hd : (100 ≤ s.level.difficulty ∧ s.level.difficulty ≤ 200 ∧ s.level.difficulty % 25 = 0)
      ∨ (200 ≤ s.level.difficulty ∧ s.level.difficulty ≤ 300 ∧ s.level.difficulty % 10 = 0)
      ∨ (300 ≤ s.level.difficulty ∧ s.level.difficulty ≤ 400 ∧ s.level.difficulty % 5 = 0)
      ∨ (400 ≤ s.level.difficulty ∧ s.level.difficulty ≤ 500
          ∧ s.level.difficulty % 2 = 0)) :
    (1 ≤ (increment_level s).level.level ∧ (increment_level s).level.level ≤ 99)
    ∧ ((100 ≤ (increment_level s).level.difficulty ∧ (increment_level s).level.difficulty ≤ 200
          ∧ (increment_level s).level.difficulty % 25 = 0)
      ∨ (200 ≤ (increment_level s).level.difficulty
          ∧ (increment_level s).level.difficulty ≤ 300
          ∧ (increment_level s).level.difficulty % 10 = 0)
      ∨ (300 ≤ (increment_level s).level.difficulty
          ∧ (increment_level s).level.difficulty ≤ 400
          ∧ (increment_level s).level.difficulty % 5 = 0)
      ∨ (400 ≤ (increment_level s).level.difficulty
          ∧ (increment_level s).level.difficulty ≤ 500
          ∧ (increment_level s).level.difficulty % 2 = 0)) := by
  obtain ⟨h1, h2⟩ := increment_level_fields s
  rw [h1, h2]
  clear h1 h2
  have hm : ∀ r : Nat, r ≤ 25 → (s.level.difficulty + r) % 65536 = s.level.difficulty + r :=
    fun r hr => Nat.mod_eq_of_lt (by omega)
  have hv : (s.level.level + 1) % 256 = s.level.level + 1 := Nat.mod_eq_of_lt (by omega)
  have hr : (if s.level.difficulty ≥ 500 then 0
      else if s.level.difficulty ≥ 400 then 2
      else if s.level.difficulty ≥ 300 then 5
      else if s.level.difficulty ≥ 200 then 10 else 25) ≤ 25 := by
    split_ifs <;> omega
  rw [hv, hm _ hr]
  clear hr hm hv
  rcases hd with hd | hd | hd | hd <;> split_ifs <;> omega

theorem level_event_ramp (e : LevelEvent) (s : Mcu)
    (hl : 1 ≤ s.level.level ∧ s.level.level ≤ 99)
    (hd : (100 ≤ s.level.difficulty ∧ s.level.difficulty ≤ 200 ∧ s.level.difficulty % 25 = 0)
      ∨ (200 ≤ s.level.difficulty ∧ s.level.difficulty ≤ 300 ∧ s.level.difficulty % 10 = 0)
      ∨ (300 ≤ s.level.difficulty ∧ s.level.difficulty ≤ 400 ∧ s.level.difficulty % 5 = 0)
      ∨ (400 ≤ s.level.difficulty ∧ s.level.difficulty ≤ 500
          ∧ s.level.difficulty % 2 = 0)) :
    (1 ≤ (e.apply s).level.level ∧ (e.apply s).level.level ≤ 99)
    ∧ ((100 ≤ (e.apply s).level.difficulty ∧ (e.apply s).level.difficulty ≤ 200
          ∧ (e.apply s).level.difficulty % 25 = 0)
      ∨ (200 ≤ (e.apply s).level.difficulty ∧ (e.apply s).level.difficulty ≤ 300
          ∧ (e.apply s).level.difficulty % 10 = 0)
      ∨ (300 ≤ (e.apply s).level.difficulty ∧ (e.apply s).level.difficulty ≤ 400
          ∧ (e.apply s).level.difficulty % 5 = 0)
      ∨ (400 ≤ (e.apply s).level.difficulty ∧ (e.apply s).level.difficulty ≤ 500
          ∧ (e.apply s).level.difficulty % 2 = 0)) := by
  cases e with
  | flip => exact ⟨hl, hd⟩
  | increment => exact increment_level_ramp s hl hd

theorem run_level_ramp (evs : List LevelEvent) :
    ∀ s : Mcu, (1 ≤ s.level.level ∧ s.level.level ≤ 99) →
      ((100 ≤ s.level.difficulty ∧ s.level.difficulty ≤ 200 ∧ s.level.difficulty % 25 = 0)
        ∨ (200 ≤ s.level.difficulty ∧ s.level.difficulty ≤ 300
            ∧ s.level.difficulty % 10 = 0)
        ∨ (300 ≤ s.level.difficulty ∧ s.level.difficulty ≤ 400 ∧ s.level.difficulty % 5 = 0)
        ∨ (400 ≤ s.level.difficulty ∧ s.level.difficulty ≤ 500
            ∧ s.level.difficulty % 2 = 0)) →
      (1 ≤ (run_level evs s).level.level ∧ (run_level evs s).level.level ≤ 99)
      ∧ 100 ≤ (run_level evs s).level.difficulty
      ∧ (run_level evs s).level.difficulty ≤ 500 := by
  induction evs with
  | nil =>
    intro s hl hd
    exact ⟨hl, by show 100 ≤ s.level.difficulty; omega,
      by show s.level.difficulty ≤ 500; omega⟩
  | cons e evs ih =>
    intro s hl hd
    obtain ⟨hl1, hd1⟩ := level_event_ramp e s hl hd
    exact ih (e.apply s) hl1 hd1

theorem lane_interval_exact (base_speed : Nat) (s : Mcu)
    (hd : 100 ≤ s.level.difficulty) (hb : base_speed ≤ 120) :
    10000 / s.level.difficulty ≤ 100
    ∧ base_speed * (10000 / s.level.difficulty) ≤ 12000
    ∧ (play_level_lane_interval base_speed s).1
        = base_speed * (10000 / s.level.difficulty) / 10 := by
  have hq : 10000 / s.level.difficulty ≤ 100 := by
    apply Nat.le_of_lt_succ
    rw [Nat.div_lt_iff_lt_mul (by omega)]
    omega
  have hp : base_speed * (10000 / s.level.difficulty) ≤ 12000 := by
    calc base_speed * (10000 / s.level.difficulty) ≤ 120 * 100 := Nat.mul_le_mul hb hq
      _ = 12000 := rfl
  refine ⟨hq, hp, ?_⟩
  simp only [play_level_lane_interval, get_difficulty]
  rw [Nat.mod_eq_of_lt (by omega : 10000 / s.level.difficulty < 65536),
    Nat.mod_eq_of_lt (by omega : base_speed * (10000 / s.level.difficulty) < 65536)]

/-- C29: in every state reached from init_level by increment_level and
flip_level_direction calls, the level lies in 1..99 and the difficulty in
100..500, so it is never 0 and an increment at difficulty 500 leaves it at
500; 84 increments after init_level reach exactly 500 from the reset state.
For every base speed b in 60..120 the quotient 10000 / difficulty and the
product b * (10000 / difficulty) fit 16 bits, so the lane interval of
play_level is b * (10000 / difficulty) / 10 with no division by zero and no
truncation.  At level 99 increment_level changes nothing, and
get_factor_ones * 100 + get_factor_tenthshundreths is the difficulty. -/
theorem C29_level_invariants (u : Mcu) (evs : List LevelEvent) :
    (1 ≤ (run_level evs (init_level u)).level.level
      ∧ (run_level evs (init_level u)).level.level ≤ 99)
    ∧ (100 ≤ (run_level evs (init_level u)).level.difficulty
      ∧ (run_level evs (init_level u)).level.difficulty ≤ 500
      ∧ (run_level evs (init_level u)).level.difficulty ≠ 0)
    ∧ ((run_level evs (init_level u)).level.difficulty = 500 →
      (increment_level (run_level evs (init_level u))).level.difficulty = 500)
    ∧ (run_level ramp_events (init_level reset_state)).level.difficulty = 500
    ∧ (∀ b : Nat, 60 ≤ b → b ≤ 120 →
      (get_difficulty (run_level evs (init_level u))).1 ≠ 0
      ∧ 10000 / (get_difficulty (run_level evs (init_level u))).1 < 65536
      ∧ b * (10000 / (get_difficulty (run_level evs (init_level u))).1) < 65536
      ∧ (play_level_lane_interval b (run_level evs (init_level u))).1
          = b * (10000 / (get_difficulty (run_level evs (init_level u))).1) / 10)
    ∧ ((run_level evs (init_level u)).level.level = 99 →
      increment_level (run_level evs (init_level u)) = run_level evs (init_level u))
    ∧ (get_factor_ones (run_level evs (init_level u))).1 * 100
        + (get_factor_tenthshundreths (run_level evs (init_level u))).1
        = (run_level evs (init_level u)).level.difficulty := by
  have hi1 : (init_level u).level.level = 1 := rfl
  have hi2 : (init_level u).level.difficulty = 100 := rfl
  obtain ⟨hl, hd1, hd2⟩ := run_level_ramp evs (init_level u) (by rw [hi1]; decide)
    (Or.inl (by rw [hi2]; decide))
  refine ⟨hl, ⟨hd1, hd2, by omega⟩, ?_, ?_, ?_, ?_, ?_⟩
  · intro h
    rw [(increment_level_fields _).2, h]
    split_ifs <;> omega
  · decide!
  · intro b _ hb
    obtain ⟨hq, hp, hi⟩ := lane_interval_exact b (run_level evs (init_level u)) hd1 hb
    refine ⟨?_, ?_, ?_, hi⟩
    · show (run_level evs (init_level u)).level.difficulty ≠ 0
      omega
    · show 10000 / (run_level evs (init_level u)).level.difficulty < 65536
      omega
    · show b * (10000 / (run_level evs (init_level u)).level.difficulty) < 65536
      omega
  · intro h
    exact increment_level_at_max _ (by omega)
  · simp only [get_factor_ones, get_factor_tenthshundreths]
    omega

theorem C29_level_invariants_witness :
    ((run_level ramp_events (init_level reset_state)).level.difficulty = 500
      ∧ (60 ≤ 120 ∧ 120 ≤ 120)
      ∧ (run_level long_game_events (init_level reset_state)).level.level = 99)
    ∧ (increment_level (run_level ramp_events (init_level reset_state))).level.difficulty = 500
    ∧ (play_level_lane_interval 120 (run_level ramp_events (init_level reset_state))).1
        = 120 * (10000 / (get_difficulty (run_level ramp_events (init_level reset_state))).1)
            / 10
    ∧ increment_level (run_level long_game_events (init_level reset_state))
        = run_level long_game_events (init_level reset_state) :=
  ⟨⟨by decide!, by decide, by decide!⟩,
   (C29_level_invariants reset_state ramp_events).2.2.1 (by decide!),
   ((C29_level_invariants reset_state ramp_events).2.2.2.2.1 120 (by decide)
      (by decide)).2.2.2,
   (C29_level_invariants reset_state long_game_events).2.2.2.2.2.1 (by decide!)⟩

/-! ## Theorems: high score table -/

theorem shift_values_after_scores (x : Nat) (s : Mcu) (j : Fin 5) :
    (shift_values_after x s).highscores.highscore_scores j
      = if x < j.val then arr_get s.highscores.highscore_scores ((j.val : Int) - 1)
        else s.highscores.highscore_scores j := by
  have hx : x = 0 ∨ x = 1 ∨ x = 2 ∨ x = 3 ∨ 4 ≤ x := by omega
  obtain ⟨j, hj⟩ := j
  have h3 : ((3 : Fin 5) : Nat) = 3 := rfl
  have h4 : ((4 : Fin 5) : Nat) = 4 := rfl
  rcases hx with hx | hx | hx | hx | hx
  · subst hx
    interval_cases j <;>
      simp [shift_values_after, HIGHSCORES_TO_STORE, List.range', arr_get, arr_set, h3, h4]
  · subst hx
    interval_cases j <;>
      simp [shift_values_after, HIGHSCORES_TO_STORE, List.range', arr_get, arr_set, h3, h4]
  · subst hx
    interval_cases j <;>
      simp [shift_values_after, HIGHSCORES_TO_STORE, List.range', arr_get, arr_set, h3, h4]
  · subst hx
    interval_cases j <;>
      simp [shift_values_after, HIGHSCORES_TO_STORE, List.range', arr_get, arr_set, h3, h4]
  · have hn : HIGHSCORES_TO_STORE - 1 - x = 0 := by
      simp only [HIGHSCORES_TO_STORE]
      omega
    simp only [shift_values_after, hn, List.range', List.reverse_nil, List.foldl_nil]
    have hlt : ¬ x < j := by omega
    rw [if_neg hlt]

theorem shift_values_after_levels (x : Nat) (s : Mcu) (j : Fin 5) :
    (shift_values_after x s).highscores.highscore_levels j
      = if x < j.val then arr_get s.highscores.highscore_levels ((j.val : Int) - 1)
        else s.highscores.highscore_levels j := by
  have hx : x = 0 ∨ x = 1 ∨ x = 2 ∨ x = 3 ∨ 4 ≤ x := by omega
  obtain ⟨j, hj⟩ := j
  have h3 : ((3 : Fin 5) : Nat) = 3 := rfl
  have h4 : ((4 : Fin 5) : Nat) = 4 := rfl
  rcases hx with hx | hx | hx | hx | hx
  · subst hx
    interval_cases j <;>
      simp [shift_values_after, HIGHSCORES_TO_STORE, List.range', arr_get, arr_set, h3, h4]
  · subst hx
    interval_cases j <;>
      simp [shift_values_after, HIGHSCORES_TO_STORE, List.range', arr_get, arr_set, h3, h4]
  · subst hx
    interval_cases j <;>
      simp [shift_values_after, HIGHSCORES_TO_STORE, List.range', arr_get, arr_set, h3, h4]
  · subst hx
    interval_cases j <;>
      simp [shift_values_after, HIGHSCORES_TO_STORE, List.range', arr_get, arr_set, h3, h4]
  · have hn : HIGHSCORES_TO_STORE - 1 - x = 0 := by
      simp only [HIGHSCORES_TO_STORE]
      omega
    simp only [shift_values_after, hn, List.range', List.reverse_nil, List.foldl_nil]
    have hlt : ¬ x < j := by omega
    rw [if_neg hlt]

theorem shift_values_after_names (x : Nat) (s : Mcu) (j : Fin 5) :
    (shift_values_after x s).highscores.highscore_names j
      = if x < j.val then names_get s.highscores.highscore_names (j.val - 1)
        else s.highscores.highscore_names j := by
  have hx : x = 0 ∨ x = 1 ∨ x = 2 ∨ x = 3 ∨ 4 ≤ x := by omega
  obtain ⟨j, hj⟩ := j
  have h3 : ((3 : Fin 5) : Nat) = 3 := rfl
  have h4 : ((4 : Fin 5) : Nat) = 4 := rfl
  rcases hx with hx | hx | hx | hx | hx
  · subst hx
    interval_cases j <;>
      simp [shift_values_after, HIGHSCORES_TO_STORE, List.range', names_get, names_set, h3, h4]
  · subst hx
    interval_cases j <;>
      simp [shift_values_after, HIGHSCORES_TO_STORE, List.range', names_get, names_set, h3, h4]
  · subst hx
    interval_cases j <;>
      simp [shift_values_after, HIGHSCORES_TO_STORE, List.range', names_get, names_set, h3, h4]
  · subst hx
    interval_cases j <;>
      simp [shift_values_after, HIGHSCORES_TO_STORE, List.range', names_get, names_set, h3, h4]
  · have hn : HIGHSCORES_TO_STORE - 1 - x = 0 := by
      simp only [HIGHSCORES_TO_STORE]
      omega
    simp only [shift_values_after, hn, List.range', List.reverse_nil, List.foldl_nil]
    have hlt : ¬ x < j := by omega
    rw [if_neg hlt]

theorem get_appropriate_index_unrolled (score : Nat) (s : Mcu) :
    get_appropriate_index score s
      = if score ≥ s.highscores.highscore_scores 0 then (0, shift_values_after 0 s)
        else if score ≥ s.highscores.highscore_scores 1 then (1, shift_values_after 1 s)
        else if score ≥ s.highscores.highscore_scores 2 then (2, shift_values_after 2 s)
        else if score ≥ s.highscores.highscore_scores 3 then (3, shift_values_after 3 s)
        else if score ≥ s.highscores.highscore_scores 4 then (4, shift_values_after 4 s)
        else (-1, s) := by
  have h0 : arr_get s.highscores.highscore_scores ((0 : Nat) : Int)
      = s.highscores.highscore_scores 0 := by simp [arr_get]
  have h1 : arr_get s.highscores.highscore_scores ((1 : Nat) : Int)
      = s.highscores.highscore_scores 1 := by simp [arr_get]
  have h2 : arr_get s.highscores.highscore_scores ((2 : Nat) : Int)
      = s.highscores.highscore_scores 2 := by simp [arr_get]
  have h3 : arr_get s.highscores.highscore_scores ((3 : Nat) : Int)
      = s.highscores.highscore_scores 3 := by simp [arr_get]
  have h4 : arr_get s.highscores.highscore_scores ((4 : Nat) : Int)
      = s.highscores.highscore_scores 4 := by simp [arr_get]
  have hr : List.range HIGHSCORES_TO_STORE = [0, 1, 2, 3, 4] := by decide
  simp only [get_appropriate_index, hr, get_appropriate_index_loop, h0, h1, h2, h3, h4]
  have t0 : toInt8 0 = 0 := by decide
  have t1 : toInt8 1 = 1 := by decide
  have t2 : toInt8 2 = 2 := by decide
  have t3 : toInt8 3 = 3 := by decide
  have t4 : toInt8 4 = 4 := by decide
  rw [t0, t1, t2, t3, t4]

theorem handle_game_over_sorted (new_highscore_name : String) (score level : Nat) (s : Mcu)
    (h : s.highscores.highscore_scores 1 ≤ s.highscores.highscore_scores 0
      ∧ s.highscores.highscore_scores 2 ≤ s.highscores.highscore_scores 1
      ∧ s.highscores.highscore_scores 3 ≤ s.highscores.highscore_scores 2
      ∧ s.highscores.highscore_scores 4 ≤ s.highscores.highscore_scores 3) :
    (handle_game_over new_highscore_name score level s).highscores.highscore_scores 1
        ≤ (handle_game_over new_highscore_name score level s).highscores.highscore_scores 0
    ∧ (handle_game_over new_highscore_name score level s).highscores.highscore_scores 2
        ≤ (handle_game_over new_highscore_name score level s).highscores.highscore_scores 1
    ∧ (handle_game_over new_highscore_name score level s).highscores.highscore_scores 3
        ≤ (handle_game_over new_highscore_name score level s).highscores.highscore_scores 2
    ∧ (handle_game_over new_highscore_name score level s).highscores.highscore_scores 4
        ≤ (handle_game_over new_highscore_name score level s).highscores.highscore_scores 3 := by
  have h3 : ((3 : Fin 5) : Nat) = 3 := rfl
  have h4 : ((4 : Fin 5) : Nat) = 4 := rfl
  simp only [handle_game_over, get_appropriate_index_unrolled]
  split_ifs <;>
    simp [set_highscore, arr_set, arr_get, shift_values_after_scores, h3, h4] <;> omega

theorem init_highscores_scores (s : Mcu) (j : Fin 5) :
    (init_highscores s).highscores.highscore_scores j = 0
    ∧ (init_highscores s).highscores.highscore_levels j = 0
    ∧ (init_highscores s).highscores.highscore_names j = "---" := by
  have h3 : ((3 : Fin 5) : Nat) = 3 := rfl
  have h4 : ((4 : Fin 5) : Nat) = 4 := rfl
  obtain ⟨j, hj⟩ := j
  interval_cases j <;>
    simp [init_highscores, HIGHSCORES_TO_STORE, List.range_succ, arr_set, names_set, h3, h4]

theorem run_game_overs_sorted (games : List (String × Nat × Nat)) :
    ∀ s : Mcu,
      (s.highscores.highscore_scores 1 ≤ s.highscores.highscore_scores 0
        ∧ s.highscores.highscore_scores 2 ≤ s.highscores.highscore_scores 1
        ∧ s.highscores.highscore_scores 3 ≤ s.highscores.highscore_scores 2
        ∧ s.highscores.highscore_scores 4 ≤ s.highscores.highscore_scores 3) →
      ((run_game_overs games s).highscores.highscore_scores 1
          ≤ (run_game_overs games s).highscores.highscore_scores 0
        ∧ (run_game_overs games s).highscores.highscore_scores 2
          ≤ (run_game_overs games s).highscores.highscore_scores 1
        ∧ (run_game_overs games s).highscores.highscore_scores 3
          ≤ (run_game_overs games s).highscores.highscore_scores 2
        ∧ (run_game_overs games s).highscores.highscore_scores 4
          ≤ (run_game_overs games s).highscores.highscore_scores 3) := by
  induction games with
  | nil => intro s h; exact h
  | cons g games ih =>
    intro s h
    exact ih (handle_game_over g.1 g.2.1 g.2.2 s) (handle_game_over_sorted g.1 g.2.1 g.2.2 s h)

theorem chain_sorted (a : Fin 5 → Nat)
    (h : a 1 ≤ a 0 ∧ a 2 ≤ a 1 ∧ a 3 ≤ a 2 ∧ a 4 ≤ a 3) (i j : Fin 5) (hij : i ≤ j) :
    a j ≤ a i := by
  obtain ⟨h1, h2, h3, h4⟩ := h
  fin_cases i <;> fin_cases j <;> first
    | exact le_refl _
    | exact absurd hij (by decide)
    | (simp only [Fin.zero_eta, Fin.mk_one, Fin.reduceFinMk]; omega)

/-- C30: get_appropriate_index(score) returns -1 and leaves the state
unchanged when the score is below all five stored scores.  Otherwise it
returns the smallest index x in 0..4 whose stored score is at most the score,
and in the table it leaves, every row above x holds the name, score and level
of the row before it (the last row is dropped) while the rows up to x are
unchanged.  init_highscores fills the table with the scores 0.  Starting from
init_highscores, after any sequence of finished games, each a call of
get_appropriate_index followed, when the result is not -1, by set_highscore
at that index with the same score, the stored scores are in non-increasing
order. -/
theorem C30_highscore_order (score : Nat) (s u : Mcu) (games : List (String × Nat × Nat)) :
    ((∀ x : Fin 5, score < s.highscores.highscore_scores x) →
      get_appropriate_index score s = (-1, s))
    ∧ (∀ x : Fin 5, s.highscores.highscore_scores x ≤ score →
      (∀ y : Fin 5, y < x → score < s.highscores.highscore_scores y) →
      (get_appropriate_index score s).1 = (x.val : Int)
      ∧ ∀ j : Fin 5,
        (get_appropriate_index score s).2.highscores.highscore_scores j
          = (if x.val < j.val then arr_get s.highscores.highscore_scores ((j.val : Int) - 1)
             else s.highscores.highscore_scores j)
        ∧ (get_appropriate_index score s).2.highscores.highscore_levels j
          = (if x.val < j.val then arr_get s.highscores.highscore_levels ((j.val : Int) - 1)
             else s.highscores.highscore_levels j)
        ∧ (get_appropriate_index score s).2.highscores.highscore_names j
          = (if x.val < j.val then names_get s.highscores.highscore_names (j.val - 1)
             else s.highscores.highscore_names j))
    ∧ (∀ j : Fin 5, (init_highscores u).highscores.highscore_scores j = 0)
    ∧ (∀ i j : Fin 5, i ≤ j →
      (run_game_overs games (init_highscores u)).highscores.highscore_scores j
        ≤ (run_game_overs games (init_highscores u)).highscores.highscore_scores i) := by
  refine ⟨?_, ?_, fun j => (init_highscores_scores u j).1, ?_⟩
  · intro h
    have h0 := h 0
    have h1 := h 1
    have h2 := h 2
    have h3 := h 3
    have h4 := h 4
    rw [get_appropriate_index_unrolled]
    split_ifs <;> first | (exfalso; omega) | rfl
  · intro x hx hy
    have hspec : get_appropriate_index score s = ((x.val : Int), shift_values_after x.val s) := by
      rw [get_appropriate_index_unrolled]
      fin_cases x
      · have hx0 : score ≥ s.highscores.highscore_scores 0 := hx
        rw [if_pos hx0]
        rfl
      · have hx1 : score ≥ s.highscores.highscore_scores 1 := hx
        have h0 := hy 0 (by decide)
        split_ifs <;> first | (exfalso; omega) | rfl
      · have hx2 : score ≥ s.highscores.highscore_scores 2 := hx
        have h0 := hy 0 (by decide)
        have h1 := hy 1 (by decide)
        split_ifs <;> first | (exfalso; omega) | rfl
      · have hx3 : score ≥ s.highscores.highscore_scores 3 := hx
        have h0 := hy 0 (by decide)
        have h1 := hy 1 (by decide)
        have h2 := hy 2 (by decide)
        split_ifs <;> first | (exfalso; omega) | rfl
      · have hx4 : score ≥ s.highscores.highscore_scores 4 := hx
        have h0 := hy 0 (by decide)
        have h1 := hy 1 (by decide)
        have h2 := hy 2 (by decide)
        have h3 := hy 3 (by decide)
        split_ifs <;> first | (exfalso; omega) | rfl
    rw [hspec]
    exact ⟨rfl, fun j => ⟨shift_values_after_scores x.val s j,
      shift_values_after_levels x.val s j, shift_values_after_names x.val s j⟩⟩
  · intro i j hij
    apply chain_sorted _ _ i j hij
    apply run_game_overs_sorted
    simp only [(init_highscores_scores u _).1, le_refl, and_self]

theorem C30_highscore_order_witness :
    ((∀ x : Fin 5, 50 < sample_table_state.highscores.highscore_scores x)
      ∧ sample_table_state.highscores.highscore_scores 2 ≤ 400
      ∧ (∀ y : Fin 5, y < 2 → 400 < sample_table_state.highscores.highscore_scores y)
      ∧ (1 : Fin 5) ≤ 3)
    ∧ get_appropriate_index 50 sample_table_state = (-1, sample_table_state)
    ∧ (get_appropriate_index 400 sample_table_state).1 = 2
    ∧ (run_game_overs sample_games (init_highscores reset_state)).highscores.highscore_scores 3
        ≤ (run_game_overs sample_games
            (init_highscores reset_state)).highscores.highscore_scores 1 :=
  ⟨⟨by decide!, by decide!, by decide!, by decide⟩,
   (C30_highscore_order 50 sample_table_state reset_state sample_games).1 (by decide!),
   ((C30_highscore_order 400 sample_table_state reset_state sample_games).2.1 2
      (by decide!) (by decide!)).1,
   (C30_highscore_order 400 sample_table_state reset_state sample_games).2.2.2 1 3
      (by decide)⟩

end Frogger
